import Mathlib

/-!
# dropbox/team/client.go : the generated route methods of the `team` namespace

Shallow embedding of `src/dropbox/team/client.go`.  Every route method of the Go
file is transcribed as one Lean definition of the same name.  The libraries the
methods call (`encoding/json`, `net/http`, `io/ioutil`, `log`) and the
declarations of the repository that live outside this file (`dropbox.Context`,
`dropbox.APIError`, the argument, result and error-union records) are not part of
the file; they enter the embedding as the fields of `World` and as type
parameters:

* `E` : the error values produced by the libraries (Go `error` values),
* `A` : the argument records, `R` : the result records,
* `U` : the route-specific error unions.

A method is a computation in `StateM Trace`: the trace records, in order, the
observable library calls (log lines, the transport call with the request it was
given, reading and closing the response body, JSON decoding).
-/

namespace Team

/-- Go `[]byte`. -/
abbrev Bytes := List UInt8

/-- Go `string`: an immutable byte sequence (not necessarily valid UTF-8). -/
abbrev GoString := List UInt8

/-- Go conversion `string(b)` of a byte slice: the same bytes. -/
def string (b : Bytes) : GoString := b

/-- The part of `dropbox.Config` read by this file. -/
structure Config where
  Verbose : Bool
deriving DecidableEq

/-- Go `http.Header`, as an association list. -/
abbrev Header := List (String × String)

/-- Go `Header.Set`: replaces any value stored under `key`. -/
def Header.Set (h : Header) (key value : String) : Header :=
  (key, value) :: h.filter (fun kv => kv.1 ≠ key)

/-- Go `Header.Get`. -/
def Header.Get (h : Header) (key : String) : Option String :=
  (h.find? (fun kv => kv.1 = key)).map (fun kv => kv.2)

/-- The fields of `http.Request` that the route methods determine.  `Body` is
`none` for a nil reader and `some b` for `bytes.NewReader(b)`. -/
structure Request where
  Method : String
  URL : String
  Body : Option Bytes
  Header : Header
deriving DecidableEq

/-- What `ioutil.ReadAll` returns for a body: the bytes read and the read error. -/
structure ReadResult (E : Type) where
  data : Bytes
  err : Option E

/-- The fields of `http.Response` that the route methods use.  `Body` is the
outcome that reading the body stream to its end will have. -/
structure Response (E : Type) where
  StatusCode : Int
  Body : ReadResult E

/-- The HTTP client held by the context: its transport answers a request with a
response or with a transport error. -/
structure Client (E : Type) where
  Transport : Request → Except E (Response E)

/-- The fields of `dropbox.Context` (of which `apiImpl` is a renaming) that the
route methods use. -/
structure Context (E : Type) where
  Config : Config
  Client : Client E

/-- Modelled from the spec: `dropbox.APIError` is declared outside this file; the
file only shows its field `ErrorSummary`.  The spec gives the generic envelope as
`error_summary` plus an optional `user_message` with `text` and `locale`. -/
structure APIError where
  ErrorSummary : GoString := []
  UserMessage : Option (GoString × GoString) := none
deriving DecidableEq

/-- The declared type of the `EndpointError` field of a route wrapper: a pointer
to a named error union, or the empty struct. -/
inductive EndpointErrorField where
  | ptr (union : String)
  | emptyStruct
deriving DecidableEq

/-- The values of an `EndpointError` field: a nilable pointer to a union value,
or the one value of the empty struct. -/
def EndpointErrorField.Value (U : Type) : EndpointErrorField → Type
  | .ptr _ => Option U
  | .emptyStruct => Unit

/-- A route wrapper type `<Name>APIError` as declared in the file: its name, the
route its comment documents it for, and the type of its `EndpointError` field. -/
structure WrapperType where
  name : String
  route : String
  EndpointError : EndpointErrorField
deriving DecidableEq

/-- A value of a route wrapper type: the embedded `dropbox.APIError` and the
`EndpointError` field. -/
structure WrapperValue (U : Type) (T : WrapperType) where
  APIError : APIError
  EndpointError : T.EndpointError.Value U

/-- The non-nil values of the Go `error` result of a route method. -/
inductive Err (E U : Type) where
  /-- an error value returned by a library call, handed on as it is -/
  | lib (e : E)
  /-- a value of the generic type `dropbox.APIError` -/
  | api (a : APIError)
  /-- a value of the route wrapper type `T` -/
  | route (T : WrapperType) (v : WrapperValue U T)

/-- The target of a `json.Unmarshal` call. -/
inductive Target where
  | result (type : String)
  | APIError
  | wrapper (T : WrapperType)
deriving DecidableEq

/-- Observable library calls. -/
inductive Event where
  | Printf (format : String)
  | Do (req : Request)
  | ReadAll
  | Close
  | Unmarshal (target : Target)
deriving DecidableEq

/-- The library calls of one method call, in the order they were made. -/
abbrev Trace := List Event

/-- What `json.Unmarshal(body, &target)` leaves behind when the target starts as
its zero value: the target after the call and the returned error. -/
structure Decoded (α E : Type) where
  target : α
  err : Option E

/-- The code outside this file that the route methods call. -/
structure World (E U R A : Type) where
  /-- `json.Marshal` of an argument pointer (`none` is nil) of the named type -/
  Marshal : String → Option A → Except E Bytes
  /-- `(*dropbox.Context).GenerateURL(domain, namespace, route)` -/
  GenerateURL : Config → String → String → String → String
  /-- the error, if any, that `http.NewRequest` reports for a URL -/
  URLError : String → Option E
  /-- `json.Unmarshal` into a nil result of the named type (`none` is nil) -/
  UnmarshalResult : String → Bytes → Decoded (Option R) E
  /-- `json.Unmarshal` into a zero `dropbox.APIError` -/
  UnmarshalAPIError : Bytes → Decoded APIError E
  /-- `json.Unmarshal` into a zero value of a route wrapper type -/
  UnmarshalWrapper : (T : WrapperType) → Bytes → Decoded (WrapperValue U T) E

/-- The named results `(res, err)` of a route method at its return. -/
structure Ret (E U R : Type) where
  res : Option R
  err : Option (Err E U)

variable {E U R A : Type}

/-- Appends one event to the trace. -/
def emit (e : Event) : StateM Trace Unit :=
  modify (fun t => t ++ [e])

/-- Go `log.Printf`. -/
def log.Printf (format : String) : StateM Trace Unit :=
  emit (.Printf format)

/-- Go `http.NewRequest`: fails when the URL does not parse, otherwise builds a
request with an empty header. -/
def http.NewRequest (w : World E U R A) (method url : String) (body : Option Bytes) :
    Except E Request :=
  match w.URLError url with
  | some err => .error err
  | none => .ok { Method := method, URL := url, Body := body, Header := [] }

/-- Go `req.Header.Set`. -/
def Request.HeaderSet (req : Request) (key value : String) : Request :=
  { req with Header := req.Header.Set key value }

/-- Go `cli.Do(req)`: one invocation of the transport. -/
def Client.Do (cli : Client E) (req : Request) : StateM Trace (Except E (Response E)) := do
  emit (.Do req)
  return cli.Transport req

/-- Go `ioutil.ReadAll(resp.Body)`. -/
def ioutil.ReadAll (body : ReadResult E) : StateM Trace (ReadResult E) := do
  emit .ReadAll
  return body

/-- Go `resp.Body.Close()`, run by the `defer` when the method returns. -/
def Response.BodyClose (_resp : Response E) : StateM Trace Unit :=
  emit .Close

/-- Go `json.Unmarshal(body, &res)`. -/
def json.UnmarshalResult (w : World E U R A) (type : String) (body : Bytes) :
    StateM Trace (Decoded (Option R) E) := do
  emit (.Unmarshal (.result type))
  return w.UnmarshalResult type body

/-- Go `json.Unmarshal(body, &apiError)` for `var apiError dropbox.APIError`. -/
def json.UnmarshalAPIError (w : World E U R A) (body : Bytes) :
    StateM Trace (Decoded APIError E) := do
  emit (.Unmarshal .APIError)
  return w.UnmarshalAPIError body

/-- Go `json.Unmarshal(body, &apiError)` for `var apiError <T>`. -/
def json.UnmarshalWrapper (w : World E U R A) (T : WrapperType) (body : Bytes) :
    StateM Trace (Decoded (WrapperValue U T) E) := do
  emit (.Unmarshal (.wrapper T))
  return w.UnmarshalWrapper T body

/-! ## The wrapper types and the route methods, in the order of the file -/

/-- The wrapper type `AlphaGroupsCreateAPIError` (client.go line 222). -/
def AlphaGroupsCreateAPIError : WrapperType :=
  ⟨"AlphaGroupsCreateAPIError", "alpha/groups/create", .ptr "GroupCreateError"⟩

/-- The method `AlphaGroupsCreate` (client.go lines 227 to 293). -/
def AlphaGroupsCreate (w : World E U R A) (dbx : Context E) (arg : Option A) :
    StateM Trace (Ret E U R) := do
  let cli := dbx.Client
  (if dbx.Config.Verbose then log.Printf "arg: %v" else pure ())
  match w.Marshal "*GroupCreateArg" arg with
  | .error err => return ⟨none, some (.lib err)⟩
  | .ok b =>
  match http.NewRequest w "POST" (w.GenerateURL dbx.Config "api" "team" "alpha/groups/create") (some b) with
  | .error err => return ⟨none, some (.lib err)⟩
  | .ok req =>
  let req := req.HeaderSet "Content-Type" "application/json"
  (if dbx.Config.Verbose then log.Printf "req: %v" else pure ())
  let r ← cli.Do req
  (if dbx.Config.Verbose then log.Printf "resp: %v" else pure ())
  match r with
  | .error err => return ⟨none, some (.lib err)⟩
  | .ok resp =>
  let out ← (do
    let body ← ioutil.ReadAll resp.Body
    match body.err with
    | some err => return ⟨none, some (.lib err)⟩
    | none =>
    let body := body.data
    (if dbx.Config.Verbose then log.Printf "body: %s" else pure ())
    if resp.StatusCode ≠ 200 then
      if resp.StatusCode = 409 then
        let apiError ← json.UnmarshalWrapper w AlphaGroupsCreateAPIError body
        match apiError.err with
        | some err => return ⟨none, some (.lib err)⟩
        | none => return ⟨none, some (.route AlphaGroupsCreateAPIError apiError.target)⟩
      else
      let apiError : APIError := {}
      if resp.StatusCode = 400 then
        let apiError := { apiError with ErrorSummary := string body }
        return ⟨none, some (.api apiError)⟩
      else
      let apiError ← json.UnmarshalAPIError w body
      match apiError.err with
      | some err => return ⟨none, some (.lib err)⟩
      | none => return ⟨none, some (.api apiError.target)⟩
    else
    let res ← json.UnmarshalResult w "*GroupFullInfo" body
    match res.err with
    | some err => return ⟨res.target, some (.lib err)⟩
    | none => return ⟨res.target, none⟩)
  resp.BodyClose
  return out

/-- The wrapper type `AlphaGroupsGetInfoAPIError` (client.go line 296). -/
def AlphaGroupsGetInfoAPIError : WrapperType :=
  ⟨"AlphaGroupsGetInfoAPIError", "alpha/groups/get_info", .ptr "GroupsGetInfoError"⟩

/-- The method `AlphaGroupsGetInfo` (client.go lines 301 to 367). -/
def AlphaGroupsGetInfo (w : World E U R A) (dbx : Context E) (arg : Option A) :
    StateM Trace (Ret E U R) := do
  let cli := dbx.Client
  (if dbx.Config.Verbose then log.Printf "arg: %v" else pure ())
  match w.Marshal "*GroupsSelector" arg with
  | .error err => return ⟨none, some (.lib err)⟩
  | .ok b =>
  match http.NewRequest w "POST" (w.GenerateURL dbx.Config "api" "team" "alpha/groups/get_info") (some b) with
  | .error err => return ⟨none, some (.lib err)⟩
  | .ok req =>
  let req := req.HeaderSet "Content-Type" "application/json"
  (if dbx.Config.Verbose then log.Printf "req: %v" else pure ())
  let r ← cli.Do req
  (if dbx.Config.Verbose then log.Printf "resp: %v" else pure ())
  match r with
  | .error err => return ⟨none, some (.lib err)⟩
  | .ok resp =>
  let out ← (do
    let body ← ioutil.ReadAll resp.Body
    match body.err with
    | some err => return ⟨none, some (.lib err)⟩
    | none =>
    let body := body.data
    (if dbx.Config.Verbose then log.Printf "body: %s" else pure ())
    if resp.StatusCode ≠ 200 then
      if resp.StatusCode = 409 then
        let apiError ← json.UnmarshalWrapper w AlphaGroupsGetInfoAPIError body
        match apiError.err with
        | some err => return ⟨none, some (.lib err)⟩
        | none => return ⟨none, some (.route AlphaGroupsGetInfoAPIError apiError.target)⟩
      else
      let apiError : APIError := {}
      if resp.StatusCode = 400 then
        let apiError := { apiError with ErrorSummary := string body }
        return ⟨none, some (.api apiError)⟩
      else
      let apiError ← json.UnmarshalAPIError w body
      match apiError.err with
      | some err => return ⟨none, some (.lib err)⟩
      | none => return ⟨none, some (.api apiError.target)⟩
    else
    let res ← json.UnmarshalResult w "[]*GroupsGetInfoItem" body
    match res.err with
    | some err => return ⟨res.target, some (.lib err)⟩
    | none => return ⟨res.target, none⟩)
  resp.BodyClose
  return out

/-- The wrapper type `AlphaGroupsListAPIError` (client.go line 370). -/
def AlphaGroupsListAPIError : WrapperType :=
  ⟨"AlphaGroupsListAPIError", "alpha/groups/list", .emptyStruct⟩

/-- The method `AlphaGroupsList` (client.go lines 375 to 441). -/
def AlphaGroupsList (w : World E U R A) (dbx : Context E) (arg : Option A) :
    StateM Trace (Ret E U R) := do
  let cli := dbx.Client
  (if dbx.Config.Verbose then log.Printf "arg: %v" else pure ())
  match w.Marshal "*GroupsListArg" arg with
  | .error err => return ⟨none, some (.lib err)⟩
  | .ok b =>
  match http.NewRequest w "POST" (w.GenerateURL dbx.Config "api" "team" "alpha/groups/list") (some b) with
  | .error err => return ⟨none, some (.lib err)⟩
  | .ok req =>
  let req := req.HeaderSet "Content-Type" "application/json"
  (if dbx.Config.Verbose then log.Printf "req: %v" else pure ())
  let r ← cli.Do req
  (if dbx.Config.Verbose then log.Printf "resp: %v" else pure ())
  match r with
  | .error err => return ⟨none, some (.lib err)⟩
  | .ok resp =>
  let out ← (do
    let body ← ioutil.ReadAll resp.Body
    match body.err with
    | some err => return ⟨none, some (.lib err)⟩
    | none =>
    let body := body.data
    (if dbx.Config.Verbose then log.Printf "body: %s" else pure ())
    if resp.StatusCode ≠ 200 then
      if resp.StatusCode = 409 then
        let apiError ← json.UnmarshalWrapper w AlphaGroupsListAPIError body
        match apiError.err with
        | some err => return ⟨none, some (.lib err)⟩
        | none => return ⟨none, some (.route AlphaGroupsListAPIError apiError.target)⟩
      else
      let apiError : APIError := {}
      if resp.StatusCode = 400 then
        let apiError := { apiError with ErrorSummary := string body }
        return ⟨none, some (.api apiError)⟩
      else
      let apiError ← json.UnmarshalAPIError w body
      match apiError.err with
      | some err => return ⟨none, some (.lib err)⟩
      | none => return ⟨none, some (.api apiError.target)⟩
    else
    let res ← json.UnmarshalResult w "*GroupsListResult" body
    match res.err with
    | some err => return ⟨res.target, some (.lib err)⟩
    | none => return ⟨res.target, none⟩)
  resp.BodyClose
  return out

/-- The wrapper type `AlphaGroupsListContinueAPIError` (client.go line 444). -/
def AlphaGroupsListContinueAPIError : WrapperType :=
  ⟨"AlphaGroupsListContinueAPIError", "alpha/groups/list/continue", .ptr "GroupsListContinueError"⟩

/-- The method `AlphaGroupsListContinue` (client.go lines 449 to 515). -/
def AlphaGroupsListContinue (w : World E U R A) (dbx : Context E) (arg : Option A) :
    StateM Trace (Ret E U R) := do
  let cli := dbx.Client
  (if dbx.Config.Verbose then log.Printf "arg: %v" else pure ())
  match w.Marshal "*GroupsListContinueArg" arg with
  | .error err => return ⟨none, some (.lib err)⟩
  | .ok b =>
  match http.NewRequest w "POST" (w.GenerateURL dbx.Config "api" "team" "alpha/groups/list/continue") (some b) with
  | .error err => return ⟨none, some (.lib err)⟩
  | .ok req =>
  let req := req.HeaderSet "Content-Type" "application/json"
  (if dbx.Config.Verbose then log.Printf "req: %v" else pure ())
  let r ← cli.Do req
  (if dbx.Config.Verbose then log.Printf "resp: %v" else pure ())
  match r with
  | .error err => return ⟨none, some (.lib err)⟩
  | .ok resp =>
  let out ← (do
    let body ← ioutil.ReadAll resp.Body
    match body.err with
    | some err => return ⟨none, some (.lib err)⟩
    | none =>
    let body := body.data
    (if dbx.Config.Verbose then log.Printf "body: %s" else pure ())
    if resp.StatusCode ≠ 200 then
      if resp.StatusCode = 409 then
        let apiError ← json.UnmarshalWrapper w AlphaGroupsListContinueAPIError body
        match apiError.err with
        | some err => return ⟨none, some (.lib err)⟩
        | none => return ⟨none, some (.route AlphaGroupsListContinueAPIError apiError.target)⟩
      else
      let apiError : APIError := {}
      if resp.StatusCode = 400 then
        let apiError := { apiError with ErrorSummary := string body }
        return ⟨none, some (.api apiError)⟩
      else
      let apiError ← json.UnmarshalAPIError w body
      match apiError.err with
      | some err => return ⟨none, some (.lib err)⟩
      | none => return ⟨none, some (.api apiError.target)⟩
    else
    let res ← json.UnmarshalResult w "*GroupsListResult" body
    match res.err with
    | some err => return ⟨res.target, some (.lib err)⟩
    | none => return ⟨res.target, none⟩)
  resp.BodyClose
  return out

/-- The wrapper type `AlphaGroupsUpdateAPIError` (client.go line 518). -/
def AlphaGroupsUpdateAPIError : WrapperType :=
  ⟨"AlphaGroupsUpdateAPIError", "alpha/groups/update", .ptr "GroupUpdateError"⟩

/-- The method `AlphaGroupsUpdate` (client.go lines 523 to 589). -/
def AlphaGroupsUpdate (w : World E U R A) (dbx : Context E) (arg : Option A) :
    StateM Trace (Ret E U R) := do
  let cli := dbx.Client
  (if dbx.Config.Verbose then log.Printf "arg: %v" else pure ())
  match w.Marshal "*GroupUpdateArgs" arg with
  | .error err => return ⟨none, some (.lib err)⟩
  | .ok b =>
  match http.NewRequest w "POST" (w.GenerateURL dbx.Config "api" "team" "alpha/groups/update") (some b) with
  | .error err => return ⟨none, some (.lib err)⟩
  | .ok req =>
  let req := req.HeaderSet "Content-Type" "application/json"
  (if dbx.Config.Verbose then log.Printf "req: %v" else pure ())
  let r ← cli.Do req
  (if dbx.Config.Verbose then log.Printf "resp: %v" else pure ())
  match r with
  | .error err => return ⟨none, some (.lib err)⟩
  | .ok resp =>
  let out ← (do
    let body ← ioutil.ReadAll resp.Body
    match body.err with
    | some err => return ⟨none, some (.lib err)⟩
    | none =>
    let body := body.data
    (if dbx.Config.Verbose then log.Printf "body: %s" else pure ())
    if resp.StatusCode ≠ 200 then
      if resp.StatusCode = 409 then
        let apiError ← json.UnmarshalWrapper w AlphaGroupsUpdateAPIError body
        match apiError.err with
        | some err => return ⟨none, some (.lib err)⟩
        | none => return ⟨none, some (.route AlphaGroupsUpdateAPIError apiError.target)⟩
      else
      let apiError : APIError := {}
      if resp.StatusCode = 400 then
        let apiError := { apiError with ErrorSummary := string body }
        return ⟨none, some (.api apiError)⟩
      else
      let apiError ← json.UnmarshalAPIError w body
      match apiError.err with
      | some err => return ⟨none, some (.lib err)⟩
      | none => return ⟨none, some (.api apiError.target)⟩
    else
    let res ← json.UnmarshalResult w "*GroupFullInfo" body
    match res.err with
    | some err => return ⟨res.target, some (.lib err)⟩
    | none => return ⟨res.target, none⟩)
  resp.BodyClose
  return out

/-- The wrapper type `DevicesListMemberDevicesAPIError` (client.go line 592). -/
def DevicesListMemberDevicesAPIError : WrapperType :=
  ⟨"DevicesListMemberDevicesAPIError", "devices/list_member_devices", .ptr "ListMemberDevicesError"⟩

/-- The method `DevicesListMemberDevices` (client.go lines 597 to 663). -/
def DevicesListMemberDevices (w : World E U R A) (dbx : Context E) (arg : Option A) :
    StateM Trace (Ret E U R) := do
  let cli := dbx.Client
  (if dbx.Config.Verbose then log.Printf "arg: %v" else pure ())
  match w.Marshal "*ListMemberDevicesArg" arg with
  | .error err => return ⟨none, some (.lib err)⟩
  | .ok b =>
  match http.NewRequest w "POST" (w.GenerateURL dbx.Config "api" "team" "devices/list_member_devices") (some b) with
  | .error err => return ⟨none, some (.lib err)⟩
  | .ok req =>
  let req := req.HeaderSet "Content-Type" "application/json"
  (if dbx.Config.Verbose then log.Printf "req: %v" else pure ())
  let r ← cli.Do req
  (if dbx.Config.Verbose then log.Printf "resp: %v" else pure ())
  match r with
  | .error err => return ⟨none, some (.lib err)⟩
  | .ok resp =>
  let out ← (do
    let body ← ioutil.ReadAll resp.Body
    match body.err with
    | some err => return ⟨none, some (.lib err)⟩
    | none =>
    let body := body.data
    (if dbx.Config.Verbose then log.Printf "body: %s" else pure ())
    if resp.StatusCode ≠ 200 then
      if resp.StatusCode = 409 then
        let apiError ← json.UnmarshalWrapper w DevicesListMemberDevicesAPIError body
        match apiError.err with
        | some err => return ⟨none, some (.lib err)⟩
        | none => return ⟨none, some (.route DevicesListMemberDevicesAPIError apiError.target)⟩
      else
      let apiError : APIError := {}
      if resp.StatusCode = 400 then
        let apiError := { apiError with ErrorSummary := string body }
        return ⟨none, some (.api apiError)⟩
      else
      let apiError ← json.UnmarshalAPIError w body
      match apiError.err with
      | some err => return ⟨none, some (.lib err)⟩
      | none => return ⟨none, some (.api apiError.target)⟩
    else
    let res ← json.UnmarshalResult w "*ListMemberDevicesResult" body
    match res.err with
    | some err => return ⟨res.target, some (.lib err)⟩
    | none => return ⟨res.target, none⟩)
  resp.BodyClose
  return out

/-- The wrapper type `DevicesListMembersDevicesAPIError` (client.go line 666). -/
def DevicesListMembersDevicesAPIError : WrapperType :=
  ⟨"DevicesListMembersDevicesAPIError", "devices/list_members_devices", .ptr "ListMembersDevicesError"⟩

/-- The method `DevicesListMembersDevices` (client.go lines 671 to 737). -/
def DevicesListMembersDevices (w : World E U R A) (dbx : Context E) (arg : Option A) :
    StateM Trace (Ret E U R) := do
  let cli := dbx.Client
  (if dbx.Config.Verbose then log.Printf "arg: %v" else pure ())
  match w.Marshal "*ListMembersDevicesArg" arg with
  | .error err => return ⟨none, some (.lib err)⟩
  | .ok b =>
  match http.NewRequest w "POST" (w.GenerateURL dbx.Config "api" "team" "devices/list_members_devices") (some b) with
  | .error err => return ⟨none, some (.lib err)⟩
  | .ok req =>
  let req := req.HeaderSet "Content-Type" "application/json"
  (if dbx.Config.Verbose then log.Printf "req: %v" else pure ())
  let r ← cli.Do req
  (if dbx.Config.Verbose then log.Printf "resp: %v" else pure ())
  match r with
  | .error err => return ⟨none, some (.lib err)⟩
  | .ok resp =>
  let out ← (do
    let body ← ioutil.ReadAll resp.Body
    match body.err with
    | some err => return ⟨none, some (.lib err)⟩
    | none =>
    let body := body.data
    (if dbx.Config.Verbose then log.Printf "body: %s" else pure ())
    if resp.StatusCode ≠ 200 then
      if resp.StatusCode = 409 then
        let apiError ← json.UnmarshalWrapper w DevicesListMembersDevicesAPIError body
        match apiError.err with
        | some err => return ⟨none, some (.lib err)⟩
        | none => return ⟨none, some (.route DevicesListMembersDevicesAPIError apiError.target)⟩
      else
      let apiError : APIError := {}
      if resp.StatusCode = 400 then
        let apiError := { apiError with ErrorSummary := string body }
        return ⟨none, some (.api apiError)⟩
      else
      let apiError ← json.UnmarshalAPIError w body
      match apiError.err with
      | some err => return ⟨none, some (.lib err)⟩
      | none => return ⟨none, some (.api apiError.target)⟩
    else
    let res ← json.UnmarshalResult w "*ListMembersDevicesResult" body
    match res.err with
    | some err => return ⟨res.target, some (.lib err)⟩
    | none => return ⟨res.target, none⟩)
  resp.BodyClose
  return out

/-- The wrapper type `DevicesListTeamDevicesAPIError` (client.go line 740). -/
def DevicesListTeamDevicesAPIError : WrapperType :=
  ⟨"DevicesListTeamDevicesAPIError", "devices/list_team_devices", .ptr "ListTeamDevicesError"⟩

/-- The method `DevicesListTeamDevices` (client.go lines 745 to 811). -/
def DevicesListTeamDevices (w : World E U R A) (dbx : Context E) (arg : Option A) :
    StateM Trace (Ret E U R) := do
  let cli := dbx.Client
  (if dbx.Config.Verbose then log.Printf "arg: %v" else pure ())
  match w.Marshal "*ListTeamDevicesArg" arg with
  | .error err => return ⟨none, some (.lib err)⟩
  | .ok b =>
  match http.NewRequest w "POST" (w.GenerateURL dbx.Config "api" "team" "devices/list_team_devices") (some b) with
  | .error err => return ⟨none, some (.lib err)⟩
  | .ok req =>
  let req := req.HeaderSet "Content-Type" "application/json"
  (if dbx.Config.Verbose then log.Printf "req: %v" else pure ())
  let r ← cli.Do req
  (if dbx.Config.Verbose then log.Printf "resp: %v" else pure ())
  match r with
  | .error err => return ⟨none, some (.lib err)⟩
  | .ok resp =>
  let out ← (do
    let body ← ioutil.ReadAll resp.Body
    match body.err with
    | some err => return ⟨none, some (.lib err)⟩
    | none =>
    let body := body.data
    (if dbx.Config.Verbose then log.Printf "body: %s" else pure ())
    if resp.StatusCode ≠ 200 then
      if resp.StatusCode = 409 then
        let apiError ← json.UnmarshalWrapper w DevicesListTeamDevicesAPIError body
        match apiError.err with
        | some err => return ⟨none, some (.lib err)⟩
        | none => return ⟨none, some (.route DevicesListTeamDevicesAPIError apiError.target)⟩
      else
      let apiError : APIError := {}
      if resp.StatusCode = 400 then
        let apiError := { apiError with ErrorSummary := string body }
        return ⟨none, some (.api apiError)⟩
      else
      let apiError ← json.UnmarshalAPIError w body
      match apiError.err with
      | some err => return ⟨none, some (.lib err)⟩
      | none => return ⟨none, some (.api apiError.target)⟩
    else
    let res ← json.UnmarshalResult w "*ListTeamDevicesResult" body
    match res.err with
    | some err => return ⟨res.target, some (.lib err)⟩
    | none => return ⟨res.target, none⟩)
  resp.BodyClose
  return out

/-- The wrapper type `DevicesRevokeDeviceSessionAPIError` (client.go line 814). -/
def DevicesRevokeDeviceSessionAPIError : WrapperType :=
  ⟨"DevicesRevokeDeviceSessionAPIError", "devices/revoke_device_session", .ptr "RevokeDeviceSessionError"⟩

/-- The method `DevicesRevokeDeviceSession` (client.go lines 819 to 880). -/
def DevicesRevokeDeviceSession (w : World E U R A) (dbx : Context E) (arg : Option A) :
    StateM Trace (Option (Err E U)) := do
  let cli := dbx.Client
  (if dbx.Config.Verbose then log.Printf "arg: %v" else pure ())
  match w.Marshal "*RevokeDeviceSessionArg" arg with
  | .error err => return some (.lib err)
  | .ok b =>
  match http.NewRequest w "POST" (w.GenerateURL dbx.Config "api" "team" "devices/revoke_device_session") (some b) with
  | .error err => return some (.lib err)
  | .ok req =>
  let req := req.HeaderSet "Content-Type" "application/json"
  (if dbx.Config.Verbose then log.Printf "req: %v" else pure ())
  let r ← cli.Do req
  (if dbx.Config.Verbose then log.Printf "resp: %v" else pure ())
  match r with
  | .error err => return some (.lib err)
  | .ok resp =>
  let out ← (do
    let body ← ioutil.ReadAll resp.Body
    match body.err with
    | some err => return some (.lib err)
    | none =>
    let body := body.data
    (if dbx.Config.Verbose then log.Printf "body: %s" else pure ())
    if resp.StatusCode ≠ 200 then
      if resp.StatusCode = 409 then
        let apiError ← json.UnmarshalWrapper w DevicesRevokeDeviceSessionAPIError body
        match apiError.err with
        | some err => return some (.lib err)
        | none => return some (.route DevicesRevokeDeviceSessionAPIError apiError.target)
      else
      let apiError : APIError := {}
      if resp.StatusCode = 400 then
        let apiError := { apiError with ErrorSummary := string body }
        return some (.api apiError)
      else
      let apiError ← json.UnmarshalAPIError w body
      match apiError.err with
      | some err => return some (.lib err)
      | none => return some (.api apiError.target)
    else
    return none)
  resp.BodyClose
  return out

/-- The wrapper type `DevicesRevokeDeviceSessionBatchAPIError` (client.go line 883). -/
def DevicesRevokeDeviceSessionBatchAPIError : WrapperType :=
  ⟨"DevicesRevokeDeviceSessionBatchAPIError", "devices/revoke_device_session_batch", .ptr "RevokeDeviceSessionBatchError"⟩

/-- The method `DevicesRevokeDeviceSessionBatch` (client.go lines 888 to 954). -/
def DevicesRevokeDeviceSessionBatch (w : World E U R A) (dbx : Context E) (arg : Option A) :
    StateM Trace (Ret E U R) := do
  let cli := dbx.Client
  (if dbx.Config.Verbose then log.Printf "arg: %v" else pure ())
  match w.Marshal "*RevokeDeviceSessionBatchArg" arg with
  | .error err => return ⟨none, some (.lib err)⟩
  | .ok b =>
  match http.NewRequest w "POST" (w.GenerateURL dbx.Config "api" "team" "devices/revoke_device_session_batch") (some b) with
  | .error err => return ⟨none, some (.lib err)⟩
  | .ok req =>
  let req := req.HeaderSet "Content-Type" "application/json"
  (if dbx.Config.Verbose then log.Printf "req: %v" else pure ())
  let r ← cli.Do req
  (if dbx.Config.Verbose then log.Printf "resp: %v" else pure ())
  match r with
  | .error err => return ⟨none, some (.lib err)⟩
  | .ok resp =>
  let out ← (do
    let body ← ioutil.ReadAll resp.Body
    match body.err with
    | some err => return ⟨none, some (.lib err)⟩
    | none =>
    let body := body.data
    (if dbx.Config.Verbose then log.Printf "body: %s" else pure ())
    if resp.StatusCode ≠ 200 then
      if resp.StatusCode = 409 then
        let apiError ← json.UnmarshalWrapper w DevicesRevokeDeviceSessionBatchAPIError body
        match apiError.err with
        | some err => return ⟨none, some (.lib err)⟩
        | none => return ⟨none, some (.route DevicesRevokeDeviceSessionBatchAPIError apiError.target)⟩
      else
      let apiError : APIError := {}
      if resp.StatusCode = 400 then
        let apiError := { apiError with ErrorSummary := string body }
        return ⟨none, some (.api apiError)⟩
      else
      let apiError ← json.UnmarshalAPIError w body
      match apiError.err with
      | some err => return ⟨none, some (.lib err)⟩
      | none => return ⟨none, some (.api apiError.target)⟩
    else
    let res ← json.UnmarshalResult w "*RevokeDeviceSessionBatchResult" body
    match res.err with
    | some err => return ⟨res.target, some (.lib err)⟩
    | none => return ⟨res.target, none⟩)
  resp.BodyClose
  return out

/-- The wrapper type `GetInfoAPIError` (client.go line 957). -/
def GetInfoAPIError : WrapperType :=
  ⟨"GetInfoAPIError", "get_info", .emptyStruct⟩

/-- The method `GetInfo` (client.go lines 962 to 1019). -/
def GetInfo (w : World E U R A) (dbx : Context E) :
    StateM Trace (Ret E U R) := do
  let cli := dbx.Client
  match http.NewRequest w "POST" (w.GenerateURL dbx.Config "api" "team" "get_info") none with
  | .error err => return ⟨none, some (.lib err)⟩
  | .ok req =>
  (if dbx.Config.Verbose then log.Printf "req: %v" else pure ())
  let r ← cli.Do req
  (if dbx.Config.Verbose then log.Printf "resp: %v" else pure ())
  match r with
  | .error err => return ⟨none, some (.lib err)⟩
  | .ok resp =>
  let out ← (do
    let body ← ioutil.ReadAll resp.Body
    match body.err with
    | some err => return ⟨none, some (.lib err)⟩
    | none =>
    let body := body.data
    (if dbx.Config.Verbose then log.Printf "body: %s" else pure ())
    if resp.StatusCode ≠ 200 then
      if resp.StatusCode = 409 then
        let apiError ← json.UnmarshalWrapper w GetInfoAPIError body
        match apiError.err with
        | some err => return ⟨none, some (.lib err)⟩
        | none => return ⟨none, some (.route GetInfoAPIError apiError.target)⟩
      else
      let apiError : APIError := {}
      if resp.StatusCode = 400 then
        let apiError := { apiError with ErrorSummary := string body }
        return ⟨none, some (.api apiError)⟩
      else
      let apiError ← json.UnmarshalAPIError w body
      match apiError.err with
      | some err => return ⟨none, some (.lib err)⟩
      | none => return ⟨none, some (.api apiError.target)⟩
    else
    let res ← json.UnmarshalResult w "*TeamGetInfoResult" body
    match res.err with
    | some err => return ⟨res.target, some (.lib err)⟩
    | none => return ⟨res.target, none⟩)
  resp.BodyClose
  return out

/-- The wrapper type `GroupsCreateAPIError` (client.go line 1022). -/
def GroupsCreateAPIError : WrapperType :=
  ⟨"GroupsCreateAPIError", "groups/create", .ptr "GroupCreateError"⟩

/-- The method `GroupsCreate` (client.go lines 1027 to 1093). -/
def GroupsCreate (w : World E U R A) (dbx : Context E) (arg : Option A) :
    StateM Trace (Ret E U R) := do
  let cli := dbx.Client
  (if dbx.Config.Verbose then log.Printf "arg: %v" else pure ())
  match w.Marshal "*GroupCreateArg" arg with
  | .error err => return ⟨none, some (.lib err)⟩
  | .ok b =>
  match http.NewRequest w "POST" (w.GenerateURL dbx.Config "api" "team" "groups/create") (some b) with
  | .error err => return ⟨none, some (.lib err)⟩
  | .ok req =>
  let req := req.HeaderSet "Content-Type" "application/json"
  (if dbx.Config.Verbose then log.Printf "req: %v" else pure ())
  let r ← cli.Do req
  (if dbx.Config.Verbose then log.Printf "resp: %v" else pure ())
  match r with
  | .error err => return ⟨none, some (.lib err)⟩
  | .ok resp =>
  let out ← (do
    let body ← ioutil.ReadAll resp.Body
    match body.err with
    | some err => return ⟨none, some (.lib err)⟩
    | none =>
    let body := body.data
    (if dbx.Config.Verbose then log.Printf "body: %s" else pure ())
    if resp.StatusCode ≠ 200 then
      if resp.StatusCode = 409 then
        let apiError ← json.UnmarshalWrapper w GroupsCreateAPIError body
        match apiError.err with
        | some err => return ⟨none, some (.lib err)⟩
        | none => return ⟨none, some (.route GroupsCreateAPIError apiError.target)⟩
      else
      let apiError : APIError := {}
      if resp.StatusCode = 400 then
        let apiError := { apiError with ErrorSummary := string body }
        return ⟨none, some (.api apiError)⟩
      else
      let apiError ← json.UnmarshalAPIError w body
      match apiError.err with
      | some err => return ⟨none, some (.lib err)⟩
      | none => return ⟨none, some (.api apiError.target)⟩
    else
    let res ← json.UnmarshalResult w "*GroupFullInfo" body
    match res.err with
    | some err => return ⟨res.target, some (.lib err)⟩
    | none => return ⟨res.target, none⟩)
  resp.BodyClose
  return out

/-- The wrapper type `GroupsDeleteAPIError` (client.go line 1096). -/
def GroupsDeleteAPIError : WrapperType :=
  ⟨"GroupsDeleteAPIError", "groups/delete", .ptr "GroupDeleteError"⟩

/-- The method `GroupsDelete` (client.go lines 1101 to 1167). -/
def GroupsDelete (w : World E U R A) (dbx : Context E) (arg : Option A) :
    StateM Trace (Ret E U R) := do
  let cli := dbx.Client
  (if dbx.Config.Verbose then log.Printf "arg: %v" else pure ())
  match w.Marshal "*GroupSelector" arg with
  | .error err => return ⟨none, some (.lib err)⟩
  | .ok b =>
  match http.NewRequest w "POST" (w.GenerateURL dbx.Config "api" "team" "groups/delete") (some b) with
  | .error err => return ⟨none, some (.lib err)⟩
  | .ok req =>
  let req := req.HeaderSet "Content-Type" "application/json"
  (if dbx.Config.Verbose then log.Printf "req: %v" else pure ())
  let r ← cli.Do req
  (if dbx.Config.Verbose then log.Printf "resp: %v" else pure ())
  match r with
  | .error err => return ⟨none, some (.lib err)⟩
  | .ok resp =>
  let out ← (do
    let body ← ioutil.ReadAll resp.Body
    match body.err with
    | some err => return ⟨none, some (.lib err)⟩
    | none =>
    let body := body.data
    (if dbx.Config.Verbose then log.Printf "body: %s" else pure ())
    if resp.StatusCode ≠ 200 then
      if resp.StatusCode = 409 then
        let apiError ← json.UnmarshalWrapper w GroupsDeleteAPIError body
        match apiError.err with
        | some err => return ⟨none, some (.lib err)⟩
        | none => return ⟨none, some (.route GroupsDeleteAPIError apiError.target)⟩
      else
      let apiError : APIError := {}
      if resp.StatusCode = 400 then
        let apiError := { apiError with ErrorSummary := string body }
        return ⟨none, some (.api apiError)⟩
      else
      let apiError ← json.UnmarshalAPIError w body
      match apiError.err with
      | some err => return ⟨none, some (.lib err)⟩
      | none => return ⟨none, some (.api apiError.target)⟩
    else
    let res ← json.UnmarshalResult w "*async.LaunchEmptyResult" body
    match res.err with
    | some err => return ⟨res.target, some (.lib err)⟩
    | none => return ⟨res.target, none⟩)
  resp.BodyClose
  return out

/-- The wrapper type `GroupsGetInfoAPIError` (client.go line 1170). -/
def GroupsGetInfoAPIError : WrapperType :=
  ⟨"GroupsGetInfoAPIError", "groups/get_info", .ptr "GroupsGetInfoError"⟩

/-- The method `GroupsGetInfo` (client.go lines 1175 to 1241). -/
def GroupsGetInfo (w : World E U R A) (dbx : Context E) (arg : Option A) :
    StateM Trace (Ret E U R) := do
  let cli := dbx.Client
  (if dbx.Config.Verbose then log.Printf "arg: %v" else pure ())
  match w.Marshal "*GroupsSelector" arg with
  | .error err => return ⟨none, some (.lib err)⟩
  | .ok b =>
  match http.NewRequest w "POST" (w.GenerateURL dbx.Config "api" "team" "groups/get_info") (some b) with
  | .error err => return ⟨none, some (.lib err)⟩
  | .ok req =>
  let req := req.HeaderSet "Content-Type" "application/json"
  (if dbx.Config.Verbose then log.Printf "req: %v" else pure ())
  let r ← cli.Do req
  (if dbx.Config.Verbose then log.Printf "resp: %v" else pure ())
  match r with
  | .error err => return ⟨none, some (.lib err)⟩
  | .ok resp =>
  let out ← (do
    let body ← ioutil.ReadAll resp.Body
    match body.err with
    | some err => return ⟨none, some (.lib err)⟩
    | none =>
    let body := body.data
    (if dbx.Config.Verbose then log.Printf "body: %s" else pure ())
    if resp.StatusCode ≠ 200 then
      if resp.StatusCode = 409 then
        let apiError ← json.UnmarshalWrapper w GroupsGetInfoAPIError body
        match apiError.err with
        | some err => return ⟨none, some (.lib err)⟩
        | none => return ⟨none, some (.route GroupsGetInfoAPIError apiError.target)⟩
      else
      let apiError : APIError := {}
      if resp.StatusCode = 400 then
        let apiError := { apiError with ErrorSummary := string body }
        return ⟨none, some (.api apiError)⟩
      else
      let apiError ← json.UnmarshalAPIError w body
      match apiError.err with
      | some err => return ⟨none, some (.lib err)⟩
      | none => return ⟨none, some (.api apiError.target)⟩
    else
    let res ← json.UnmarshalResult w "[]*GroupsGetInfoItem" body
    match res.err with
    | some err => return ⟨res.target, some (.lib err)⟩
    | none => return ⟨res.target, none⟩)
  resp.BodyClose
  return out

/-- The wrapper type `GroupsJobStatusGetAPIError` (client.go line 1244). -/
def GroupsJobStatusGetAPIError : WrapperType :=
  ⟨"GroupsJobStatusGetAPIError", "groups/job_status/get", .ptr "GroupsPollError"⟩

/-- The method `GroupsJobStatusGet` (client.go lines 1249 to 1315). -/
def GroupsJobStatusGet (w : World E U R A) (dbx : Context E) (arg : Option A) :
    StateM Trace (Ret E U R) := do
  let cli := dbx.Client
  (if dbx.Config.Verbose then log.Printf "arg: %v" else pure ())
  match w.Marshal "*async.PollArg" arg with
  | .error err => return ⟨none, some (.lib err)⟩
  | .ok b =>
  match http.NewRequest w "POST" (w.GenerateURL dbx.Config "api" "team" "groups/job_status/get") (some b) with
  | .error err => return ⟨none, some (.lib err)⟩
  | .ok req =>
  let req := req.HeaderSet "Content-Type" "application/json"
  (if dbx.Config.Verbose then log.Printf "req: %v" else pure ())
  let r ← cli.Do req
  (if dbx.Config.Verbose then log.Printf "resp: %v" else pure ())
  match r with
  | .error err => return ⟨none, some (.lib err)⟩
  | .ok resp =>
  let out ← (do
    let body ← ioutil.ReadAll resp.Body
    match body.err with
    | some err => return ⟨none, some (.lib err)⟩
    | none =>
    let body := body.data
    (if dbx.Config.Verbose then log.Printf "body: %s" else pure ())
    if resp.StatusCode ≠ 200 then
      if resp.StatusCode = 409 then
        let apiError ← json.UnmarshalWrapper w GroupsJobStatusGetAPIError body
        match apiError.err with
        | some err => return ⟨none, some (.lib err)⟩
        | none => return ⟨none, some (.route GroupsJobStatusGetAPIError apiError.target)⟩
      else
      let apiError : APIError := {}
      if resp.StatusCode = 400 then
        let apiError := { apiError with ErrorSummary := string body }
        return ⟨none, some (.api apiError)⟩
      else
      let apiError ← json.UnmarshalAPIError w body
      match apiError.err with
      | some err => return ⟨none, some (.lib err)⟩
      | none => return ⟨none, some (.api apiError.target)⟩
    else
    let res ← json.UnmarshalResult w "*async.PollEmptyResult" body
    match res.err with
    | some err => return ⟨res.target, some (.lib err)⟩
    | none => return ⟨res.target, none⟩)
  resp.BodyClose
  return out

/-- The wrapper type `GroupsListAPIError` (client.go line 1318). -/
def GroupsListAPIError : WrapperType :=
  ⟨"GroupsListAPIError", "groups/list", .emptyStruct⟩

/-- The method `GroupsList` (client.go lines 1323 to 1389). -/
def GroupsList (w : World E U R A) (dbx : Context E) (arg : Option A) :
    StateM Trace (Ret E U R) := do
  let cli := dbx.Client
  (if dbx.Config.Verbose then log.Printf "arg: %v" else pure ())
  match w.Marshal "*GroupsListArg" arg with
  | .error err => return ⟨none, some (.lib err)⟩
  | .ok b =>
  match http.NewRequest w "POST" (w.GenerateURL dbx.Config "api" "team" "groups/list") (some b) with
  | .error err => return ⟨none, some (.lib err)⟩
  | .ok req =>
  let req := req.HeaderSet "Content-Type" "application/json"
  (if dbx.Config.Verbose then log.Printf "req: %v" else pure ())
  let r ← cli.Do req
  (if dbx.Config.Verbose then log.Printf "resp: %v" else pure ())
  match r with
  | .error err => return ⟨none, some (.lib err)⟩
  | .ok resp =>
  let out ← (do
    let body ← ioutil.ReadAll resp.Body
    match body.err with
    | some err => return ⟨none, some (.lib err)⟩
    | none =>
    let body := body.data
    (if dbx.Config.Verbose then log.Printf "body: %s" else pure ())
    if resp.StatusCode ≠ 200 then
      if resp.StatusCode = 409 then
        let apiError ← json.UnmarshalWrapper w GroupsListAPIError body
        match apiError.err with
        | some err => return ⟨none, some (.lib err)⟩
        | none => return ⟨none, some (.route GroupsListAPIError apiError.target)⟩
      else
      let apiError : APIError := {}
      if resp.StatusCode = 400 then
        let apiError := { apiError with ErrorSummary := string body }
        return ⟨none, some (.api apiError)⟩
      else
      let apiError ← json.UnmarshalAPIError w body
      match apiError.err with
      | some err => return ⟨none, some (.lib err)⟩
      | none => return ⟨none, some (.api apiError.target)⟩
    else
    let res ← json.UnmarshalResult w "*GroupsListResult" body
    match res.err with
    | some err => return ⟨res.target, some (.lib err)⟩
    | none => return ⟨res.target, none⟩)
  resp.BodyClose
  return out

/-- The wrapper type `GroupsListContinueAPIError` (client.go line 1392). -/
def GroupsListContinueAPIError : WrapperType :=
  ⟨"GroupsListContinueAPIError", "groups/list/continue", .ptr "GroupsListContinueError"⟩

/-- The method `GroupsListContinue` (client.go lines 1397 to 1463). -/
def GroupsListContinue (w : World E U R A) (dbx : Context E) (arg : Option A) :
    StateM Trace (Ret E U R) := do
  let cli := dbx.Client
  (if dbx.Config.Verbose then log.Printf "arg: %v" else pure ())
  match w.Marshal "*GroupsListContinueArg" arg with
  | .error err => return ⟨none, some (.lib err)⟩
  | .ok b =>
  match http.NewRequest w "POST" (w.GenerateURL dbx.Config "api" "team" "groups/list/continue") (some b) with
  | .error err => return ⟨none, some (.lib err)⟩
  | .ok req =>
  let req := req.HeaderSet "Content-Type" "application/json"
  (if dbx.Config.Verbose then log.Printf "req: %v" else pure ())
  let r ← cli.Do req
  (if dbx.Config.Verbose then log.Printf "resp: %v" else pure ())
  match r with
  | .error err => return ⟨none, some (.lib err)⟩
  | .ok resp =>
  let out ← (do
    let body ← ioutil.ReadAll resp.Body
    match body.err with
    | some err => return ⟨none, some (.lib err)⟩
    | none =>
    let body := body.data
    (if dbx.Config.Verbose then log.Printf "body: %s" else pure ())
    if resp.StatusCode ≠ 200 then
      if resp.StatusCode = 409 then
        let apiError ← json.UnmarshalWrapper w GroupsListContinueAPIError body
        match apiError.err with
        | some err => return ⟨none, some (.lib err)⟩
        | none => return ⟨none, some (.route GroupsListContinueAPIError apiError.target)⟩
      else
      let apiError : APIError := {}
      if resp.StatusCode = 400 then
        let apiError := { apiError with ErrorSummary := string body }
        return ⟨none, some (.api apiError)⟩
      else
      let apiError ← json.UnmarshalAPIError w body
      match apiError.err with
      | some err => return ⟨none, some (.lib err)⟩
      | none => return ⟨none, some (.api apiError.target)⟩
    else
    let res ← json.UnmarshalResult w "*GroupsListResult" body
    match res.err with
    | some err => return ⟨res.target, some (.lib err)⟩
    | none => return ⟨res.target, none⟩)
  resp.BodyClose
  return out

/-- The wrapper type `GroupsMembersAddAPIError` (client.go line 1466). -/
def GroupsMembersAddAPIError : WrapperType :=
  ⟨"GroupsMembersAddAPIError", "groups/members/add", .ptr "GroupMembersAddError"⟩

/-- The method `GroupsMembersAdd` (client.go lines 1471 to 1537). -/
def GroupsMembersAdd (w : World E U R A) (dbx : Context E) (arg : Option A) :
    StateM Trace (Ret E U R) := do
  let cli := dbx.Client
  (if dbx.Config.Verbose then log.Printf "arg: %v" else pure ())
  match w.Marshal "*GroupMembersAddArg" arg with
  | .error err => return ⟨none, some (.lib err)⟩
  | .ok b =>
  match http.NewRequest w "POST" (w.GenerateURL dbx.Config "api" "team" "groups/members/add") (some b) with
  | .error err => return ⟨none, some (.lib err)⟩
  | .ok req =>
  let req := req.HeaderSet "Content-Type" "application/json"
  (if dbx.Config.Verbose then log.Printf "req: %v" else pure ())
  let r ← cli.Do req
  (if dbx.Config.Verbose then log.Printf "resp: %v" else pure ())
  match r with
  | .error err => return ⟨none, some (.lib err)⟩
  | .ok resp =>
  let out ← (do
    let body ← ioutil.ReadAll resp.Body
    match body.err with
    | some err => return ⟨none, some (.lib err)⟩
    | none =>
    let body := body.data
    (if dbx.Config.Verbose then log.Printf "body: %s" else pure ())
    if resp.StatusCode ≠ 200 then
      if resp.StatusCode = 409 then
        let apiError ← json.UnmarshalWrapper w GroupsMembersAddAPIError body
        match apiError.err with
        | some err => return ⟨none, some (.lib err)⟩
        | none => return ⟨none, some (.route GroupsMembersAddAPIError apiError.target)⟩
      else
      let apiError : APIError := {}
      if resp.StatusCode = 400 then
        let apiError := { apiError with ErrorSummary := string body }
        return ⟨none, some (.api apiError)⟩
      else
      let apiError ← json.UnmarshalAPIError w body
      match apiError.err with
      | some err => return ⟨none, some (.lib err)⟩
      | none => return ⟨none, some (.api apiError.target)⟩
    else
    let res ← json.UnmarshalResult w "*GroupMembersChangeResult" body
    match res.err with
    | some err => return ⟨res.target, some (.lib err)⟩
    | none => return ⟨res.target, none⟩)
  resp.BodyClose
  return out

/-- The wrapper type `GroupsMembersListAPIError` (client.go line 1540). -/
def GroupsMembersListAPIError : WrapperType :=
  ⟨"GroupsMembersListAPIError", "groups/members/list", .ptr "GroupSelectorError"⟩

/-- The method `GroupsMembersList` (client.go lines 1545 to 1611). -/
def GroupsMembersList (w : World E U R A) (dbx : Context E) (arg : Option A) :
    StateM Trace (Ret E U R) := do
  let cli := dbx.Client
  (if dbx.Config.Verbose then log.Printf "arg: %v" else pure ())
  match w.Marshal "*GroupsMembersListArg" arg with
  | .error err => return ⟨none, some (.lib err)⟩
  | .ok b =>
  match http.NewRequest w "POST" (w.GenerateURL dbx.Config "api" "team" "groups/members/list") (some b) with
  | .error err => return ⟨none, some (.lib err)⟩
  | .ok req =>
  let req := req.HeaderSet "Content-Type" "application/json"
  (if dbx.Config.Verbose then log.Printf "req: %v" else pure ())
  let r ← cli.Do req
  (if dbx.Config.Verbose then log.Printf "resp: %v" else pure ())
  match r with
  | .error err => return ⟨none, some (.lib err)⟩
  | .ok resp =>
  let out ← (do
    let body ← ioutil.ReadAll resp.Body
    match body.err with
    | some err => return ⟨none, some (.lib err)⟩
    | none =>
    let body := body.data
    (if dbx.Config.Verbose then log.Printf "body: %s" else pure ())
    if resp.StatusCode ≠ 200 then
      if resp.StatusCode = 409 then
        let apiError ← json.UnmarshalWrapper w GroupsMembersListAPIError body
        match apiError.err with
        | some err => return ⟨none, some (.lib err)⟩
        | none => return ⟨none, some (.route GroupsMembersListAPIError apiError.target)⟩
      else
      let apiError : APIError := {}
      if resp.StatusCode = 400 then
        let apiError := { apiError with ErrorSummary := string body }
        return ⟨none, some (.api apiError)⟩
      else
      let apiError ← json.UnmarshalAPIError w body
      match apiError.err with
      | some err => return ⟨none, some (.lib err)⟩
      | none => return ⟨none, some (.api apiError.target)⟩
    else
    let res ← json.UnmarshalResult w "*GroupsMembersListResult" body
    match res.err with
    | some err => return ⟨res.target, some (.lib err)⟩
    | none => return ⟨res.target, none⟩)
  resp.BodyClose
  return out

/-- The wrapper type `GroupsMembersListContinueAPIError` (client.go line 1614). -/
def GroupsMembersListContinueAPIError : WrapperType :=
  ⟨"GroupsMembersListContinueAPIError", "groups/members/list/continue", .ptr "GroupsMembersListContinueError"⟩

/-- The method `GroupsMembersListContinue` (client.go lines 1619 to 1685). -/
def GroupsMembersListContinue (w : World E U R A) (dbx : Context E) (arg : Option A) :
    StateM Trace (Ret E U R) := do
  let cli := dbx.Client
  (if dbx.Config.Verbose then log.Printf "arg: %v" else pure ())
  match w.Marshal "*GroupsMembersListContinueArg" arg with
  | .error err => return ⟨none, some (.lib err)⟩
  | .ok b =>
  match http.NewRequest w "POST" (w.GenerateURL dbx.Config "api" "team" "groups/members/list/continue") (some b) with
  | .error err => return ⟨none, some (.lib err)⟩
  | .ok req =>
  let req := req.HeaderSet "Content-Type" "application/json"
  (if dbx.Config.Verbose then log.Printf "req: %v" else pure ())
  let r ← cli.Do req
  (if dbx.Config.Verbose then log.Printf "resp: %v" else pure ())
  match r with
  | .error err => return ⟨none, some (.lib err)⟩
  | .ok resp =>
  let out ← (do
    let body ← ioutil.ReadAll resp.Body
    match body.err with
    | some err => return ⟨none, some (.lib err)⟩
    | none =>
    let body := body.data
    (if dbx.Config.Verbose then log.Printf "body: %s" else pure ())
    if resp.StatusCode ≠ 200 then
      if resp.StatusCode = 409 then
        let apiError ← json.UnmarshalWrapper w GroupsMembersListContinueAPIError body
        match apiError.err with
        | some err => return ⟨none, some (.lib err)⟩
        | none => return ⟨none, some (.route GroupsMembersListContinueAPIError apiError.target)⟩
      else
      let apiError : APIError := {}
      if resp.StatusCode = 400 then
        let apiError := { apiError with ErrorSummary := string body }
        return ⟨none, some (.api apiError)⟩
      else
      let apiError ← json.UnmarshalAPIError w body
      match apiError.err with
      | some err => return ⟨none, some (.lib err)⟩
      | none => return ⟨none, some (.api apiError.target)⟩
    else
    let res ← json.UnmarshalResult w "*GroupsMembersListResult" body
    match res.err with
    | some err => return ⟨res.target, some (.lib err)⟩
    | none => return ⟨res.target, none⟩)
  resp.BodyClose
  return out

/-- The wrapper type `GroupsMembersRemoveAPIError` (client.go line 1688). -/
def GroupsMembersRemoveAPIError : WrapperType :=
  ⟨"GroupsMembersRemoveAPIError", "groups/members/remove", .ptr "GroupMembersRemoveError"⟩

/-- The method `GroupsMembersRemove` (client.go lines 1693 to 1759). -/
def GroupsMembersRemove (w : World E U R A) (dbx : Context E) (arg : Option A) :
    StateM Trace (Ret E U R) := do
  let cli := dbx.Client
  (if dbx.Config.Verbose then log.Printf "arg: %v" else pure ())
  match w.Marshal "*GroupMembersRemoveArg" arg with
  | .error err => return ⟨none, some (.lib err)⟩
  | .ok b =>
  match http.NewRequest w "POST" (w.GenerateURL dbx.Config "api" "team" "groups/members/remove") (some b) with
  | .error err => return ⟨none, some (.lib err)⟩
  | .ok req =>
  let req := req.HeaderSet "Content-Type" "application/json"
  (if dbx.Config.Verbose then log.Printf "req: %v" else pure ())
  let r ← cli.Do req
  (if dbx.Config.Verbose then log.Printf "resp: %v" else pure ())
  match r with
  | .error err => return ⟨none, some (.lib err)⟩
  | .ok resp =>
  let out ← (do
    let body ← ioutil.ReadAll resp.Body
    match body.err with
    | some err => return ⟨none, some (.lib err)⟩
    | none =>
    let body := body.data
    (if dbx.Config.Verbose then log.Printf "body: %s" else pure ())
    if resp.StatusCode ≠ 200 then
      if resp.StatusCode = 409 then
        let apiError ← json.UnmarshalWrapper w GroupsMembersRemoveAPIError body
        match apiError.err with
        | some err => return ⟨none, some (.lib err)⟩
        | none => return ⟨none, some (.route GroupsMembersRemoveAPIError apiError.target)⟩
      else
      let apiError : APIError := {}
      if resp.StatusCode = 400 then
        let apiError := { apiError with ErrorSummary := string body }
        return ⟨none, some (.api apiError)⟩
      else
      let apiError ← json.UnmarshalAPIError w body
      match apiError.err with
      | some err => return ⟨none, some (.lib err)⟩
      | none => return ⟨none, some (.api apiError.target)⟩
    else
    let res ← json.UnmarshalResult w "*GroupMembersChangeResult" body
    match res.err with
    | some err => return ⟨res.target, some (.lib err)⟩
    | none => return ⟨res.target, none⟩)
  resp.BodyClose
  return out

/-- The wrapper type `GroupsMembersSetAccessTypeAPIError` (client.go line 1762). -/
def GroupsMembersSetAccessTypeAPIError : WrapperType :=
  ⟨"GroupsMembersSetAccessTypeAPIError", "groups/members/set_access_type", .ptr "GroupMemberSetAccessTypeError"⟩

/-- The method `GroupsMembersSetAccessType` (client.go lines 1767 to 1833). -/
def GroupsMembersSetAccessType (w : World E U R A) (dbx : Context E) (arg : Option A) :
    StateM Trace (Ret E U R) := do
  let cli := dbx.Client
  (if dbx.Config.Verbose then log.Printf "arg: %v" else pure ())
  match w.Marshal "*GroupMembersSetAccessTypeArg" arg with
  | .error err => return ⟨none, some (.lib err)⟩
  | .ok b =>
  match http.NewRequest w "POST" (w.GenerateURL dbx.Config "api" "team" "groups/members/set_access_type") (some b) with
  | .error err => return ⟨none, some (.lib err)⟩
  | .ok req =>
  let req := req.HeaderSet "Content-Type" "application/json"
  (if dbx.Config.Verbose then log.Printf "req: %v" else pure ())
  let r ← cli.Do req
  (if dbx.Config.Verbose then log.Printf "resp: %v" else pure ())
  match r with
  | .error err => return ⟨none, some (.lib err)⟩
  | .ok resp =>
  let out ← (do
    let body ← ioutil.ReadAll resp.Body
    match body.err with
    | some err => return ⟨none, some (.lib err)⟩
    | none =>
    let body := body.data
    (if dbx.Config.Verbose then log.Printf "body: %s" else pure ())
    if resp.StatusCode ≠ 200 then
      if resp.StatusCode = 409 then
        let apiError ← json.UnmarshalWrapper w GroupsMembersSetAccessTypeAPIError body
        match apiError.err with
        | some err => return ⟨none, some (.lib err)⟩
        | none => return ⟨none, some (.route GroupsMembersSetAccessTypeAPIError apiError.target)⟩
      else
      let apiError : APIError := {}
      if resp.StatusCode = 400 then
        let apiError := { apiError with ErrorSummary := string body }
        return ⟨none, some (.api apiError)⟩
      else
      let apiError ← json.UnmarshalAPIError w body
      match apiError.err with
      | some err => return ⟨none, some (.lib err)⟩
      | none => return ⟨none, some (.api apiError.target)⟩
    else
    let res ← json.UnmarshalResult w "[]*GroupsGetInfoItem" body
    match res.err with
    | some err => return ⟨res.target, some (.lib err)⟩
    | none => return ⟨res.target, none⟩)
  resp.BodyClose
  return out

/-- The wrapper type `GroupsUpdateAPIError` (client.go line 1836). -/
def GroupsUpdateAPIError : WrapperType :=
  ⟨"GroupsUpdateAPIError", "groups/update", .ptr "GroupUpdateError"⟩

/-- The method `GroupsUpdate` (client.go lines 1841 to 1907). -/
def GroupsUpdate (w : World E U R A) (dbx : Context E) (arg : Option A) :
    StateM Trace (Ret E U R) := do
  let cli := dbx.Client
  (if dbx.Config.Verbose then log.Printf "arg: %v" else pure ())
  match w.Marshal "*GroupUpdateArgs" arg with
  | .error err => return ⟨none, some (.lib err)⟩
  | .ok b =>
  match http.NewRequest w "POST" (w.GenerateURL dbx.Config "api" "team" "groups/update") (some b) with
  | .error err => return ⟨none, some (.lib err)⟩
  | .ok req =>
  let req := req.HeaderSet "Content-Type" "application/json"
  (if dbx.Config.Verbose then log.Printf "req: %v" else pure ())
  let r ← cli.Do req
  (if dbx.Config.Verbose then log.Printf "resp: %v" else pure ())
  match r with
  | .error err => return ⟨none, some (.lib err)⟩
  | .ok resp =>
  let out ← (do
    let body ← ioutil.ReadAll resp.Body
    match body.err with
    | some err => return ⟨none, some (.lib err)⟩
    | none =>
    let body := body.data
    (if dbx.Config.Verbose then log.Printf "body: %s" else pure ())
    if resp.StatusCode ≠ 200 then
      if resp.StatusCode = 409 then
        let apiError ← json.UnmarshalWrapper w GroupsUpdateAPIError body
        match apiError.err with
        | some err => return ⟨none, some (.lib err)⟩
        | none => return ⟨none, some (.route GroupsUpdateAPIError apiError.target)⟩
      else
      let apiError : APIError := {}
      if resp.StatusCode = 400 then
        let apiError := { apiError with ErrorSummary := string body }
        return ⟨none, some (.api apiError)⟩
      else
      let apiError ← json.UnmarshalAPIError w body
      match apiError.err with
      | some err => return ⟨none, some (.lib err)⟩
      | none => return ⟨none, some (.api apiError.target)⟩
    else
    let res ← json.UnmarshalResult w "*GroupFullInfo" body
    match res.err with
    | some err => return ⟨res.target, some (.lib err)⟩
    | none => return ⟨res.target, none⟩)
  resp.BodyClose
  return out

/-- The wrapper type `LinkedAppsListMemberLinkedAppsAPIError` (client.go line 1910). -/
def LinkedAppsListMemberLinkedAppsAPIError : WrapperType :=
  ⟨"LinkedAppsListMemberLinkedAppsAPIError", "linked_apps/list_member_linked_apps", .ptr "ListMemberAppsError"⟩

/-- The method `LinkedAppsListMemberLinkedApps` (client.go lines 1915 to 1981). -/
def LinkedAppsListMemberLinkedApps (w : World E U R A) (dbx : Context E) (arg : Option A) :
    StateM Trace (Ret E U R) := do
  let cli := dbx.Client
  (if dbx.Config.Verbose then log.Printf "arg: %v" else pure ())
  match w.Marshal "*ListMemberAppsArg" arg with
  | .error err => return ⟨none, some (.lib err)⟩
  | .ok b =>
  match http.NewRequest w "POST" (w.GenerateURL dbx.Config "api" "team" "linked_apps/list_member_linked_apps") (some b) with
  | .error err => return ⟨none, some (.lib err)⟩
  | .ok req =>
  let req := req.HeaderSet "Content-Type" "application/json"
  (if dbx.Config.Verbose then log.Printf "req: %v" else pure ())
  let r ← cli.Do req
  (if dbx.Config.Verbose then log.Printf "resp: %v" else pure ())
  match r with
  | .error err => return ⟨none, some (.lib err)⟩
  | .ok resp =>
  let out ← (do
    let body ← ioutil.ReadAll resp.Body
    match body.err with
    | some err => return ⟨none, some (.lib err)⟩
    | none =>
    let body := body.data
    (if dbx.Config.Verbose then log.Printf "body: %s" else pure ())
    if resp.StatusCode ≠ 200 then
      if resp.StatusCode = 409 then
        let apiError ← json.UnmarshalWrapper w LinkedAppsListMemberLinkedAppsAPIError body
        match apiError.err with
        | some err => return ⟨none, some (.lib err)⟩
        | none => return ⟨none, some (.route LinkedAppsListMemberLinkedAppsAPIError apiError.target)⟩
      else
      let apiError : APIError := {}
      if resp.StatusCode = 400 then
        let apiError := { apiError with ErrorSummary := string body }
        return ⟨none, some (.api apiError)⟩
      else
      let apiError ← json.UnmarshalAPIError w body
      match apiError.err with
      | some err => return ⟨none, some (.lib err)⟩
      | none => return ⟨none, some (.api apiError.target)⟩
    else
    let res ← json.UnmarshalResult w "*ListMemberAppsResult" body
    match res.err with
    | some err => return ⟨res.target, some (.lib err)⟩
    | none => return ⟨res.target, none⟩)
  resp.BodyClose
  return out

/-- The wrapper type `LinkedAppsListMembersLinkedAppsAPIError` (client.go line 1984). -/
def LinkedAppsListMembersLinkedAppsAPIError : WrapperType :=
  ⟨"LinkedAppsListMembersLinkedAppsAPIError", "linked_apps/list_members_linked_apps", .ptr "ListMembersAppsError"⟩

/-- The method `LinkedAppsListMembersLinkedApps` (client.go lines 1989 to 2055). -/
def LinkedAppsListMembersLinkedApps (w : World E U R A) (dbx : Context E) (arg : Option A) :
    StateM Trace (Ret E U R) := do
  let cli := dbx.Client
  (if dbx.Config.Verbose then log.Printf "arg: %v" else pure ())
  match w.Marshal "*ListMembersAppsArg" arg with
  | .error err => return ⟨none, some (.lib err)⟩
  | .ok b =>
  match http.NewRequest w "POST" (w.GenerateURL dbx.Config "api" "team" "linked_apps/list_members_linked_apps") (some b) with
  | .error err => return ⟨none, some (.lib err)⟩
  | .ok req =>
  let req := req.HeaderSet "Content-Type" "application/json"
  (if dbx.Config.Verbose then log.Printf "req: %v" else pure ())
  let r ← cli.Do req
  (if dbx.Config.Verbose then log.Printf "resp: %v" else pure ())
  match r with
  | .error err => return ⟨none, some (.lib err)⟩
  | .ok resp =>
  let out ← (do
    let body ← ioutil.ReadAll resp.Body
    match body.err with
    | some err => return ⟨none, some (.lib err)⟩
    | none =>
    let body := body.data
    (if dbx.Config.Verbose then log.Printf "body: %s" else pure ())
    if resp.StatusCode ≠ 200 then
      if resp.StatusCode = 409 then
        let apiError ← json.UnmarshalWrapper w LinkedAppsListMembersLinkedAppsAPIError body
        match apiError.err with
        | some err => return ⟨none, some (.lib err)⟩
        | none => return ⟨none, some (.route LinkedAppsListMembersLinkedAppsAPIError apiError.target)⟩
      else
      let apiError : APIError := {}
      if resp.StatusCode = 400 then
        let apiError := { apiError with ErrorSummary := string body }
        return ⟨none, some (.api apiError)⟩
      else
      let apiError ← json.UnmarshalAPIError w body
      match apiError.err with
      | some err => return ⟨none, some (.lib err)⟩
      | none => return ⟨none, some (.api apiError.target)⟩
    else
    let res ← json.UnmarshalResult w "*ListMembersAppsResult" body
    match res.err with
    | some err => return ⟨res.target, some (.lib err)⟩
    | none => return ⟨res.target, none⟩)
  resp.BodyClose
  return out

/-- The wrapper type `LinkedAppsListTeamLinkedAppsAPIError` (client.go line 2058). -/
def LinkedAppsListTeamLinkedAppsAPIError : WrapperType :=
  ⟨"LinkedAppsListTeamLinkedAppsAPIError", "linked_apps/list_team_linked_apps", .ptr "ListTeamAppsError"⟩

/-- The method `LinkedAppsListTeamLinkedApps` (client.go lines 2063 to 2129). -/
def LinkedAppsListTeamLinkedApps (w : World E U R A) (dbx : Context E) (arg : Option A) :
    StateM Trace (Ret E U R) := do
  let cli := dbx.Client
  (if dbx.Config.Verbose then log.Printf "arg: %v" else pure ())
  match w.Marshal "*ListTeamAppsArg" arg with
  | .error err => return ⟨none, some (.lib err)⟩
  | .ok b =>
  match http.NewRequest w "POST" (w.GenerateURL dbx.Config "api" "team" "linked_apps/list_team_linked_apps") (some b) with
  | .error err => return ⟨none, some (.lib err)⟩
  | .ok req =>
  let req := req.HeaderSet "Content-Type" "application/json"
  (if dbx.Config.Verbose then log.Printf "req: %v" else pure ())
  let r ← cli.Do req
  (if dbx.Config.Verbose then log.Printf "resp: %v" else pure ())
  match r with
  | .error err => return ⟨none, some (.lib err)⟩
  | .ok resp =>
  let out ← (do
    let body ← ioutil.ReadAll resp.Body
    match body.err with
    | some err => return ⟨none, some (.lib err)⟩
    | none =>
    let body := body.data
    (if dbx.Config.Verbose then log.Printf "body: %s" else pure ())
    if resp.StatusCode ≠ 200 then
      if resp.StatusCode = 409 then
        let apiError ← json.UnmarshalWrapper w LinkedAppsListTeamLinkedAppsAPIError body
        match apiError.err with
        | some err => return ⟨none, some (.lib err)⟩
        | none => return ⟨none, some (.route LinkedAppsListTeamLinkedAppsAPIError apiError.target)⟩
      else
      let apiError : APIError := {}
      if resp.StatusCode = 400 then
        let apiError := { apiError with ErrorSummary := string body }
        return ⟨none, some (.api apiError)⟩
      else
      let apiError ← json.UnmarshalAPIError w body
      match apiError.err with
      | some err => return ⟨none, some (.lib err)⟩
      | none => return ⟨none, some (.api apiError.target)⟩
    else
    let res ← json.UnmarshalResult w "*ListTeamAppsResult" body
    match res.err with
    | some err => return ⟨res.target, some (.lib err)⟩
    | none => return ⟨res.target, none⟩)
  resp.BodyClose
  return out

/-- The wrapper type `LinkedAppsRevokeLinkedAppAPIError` (client.go line 2132). -/
def LinkedAppsRevokeLinkedAppAPIError : WrapperType :=
  ⟨"LinkedAppsRevokeLinkedAppAPIError", "linked_apps/revoke_linked_app", .ptr "RevokeLinkedAppError"⟩

/-- The method `LinkedAppsRevokeLinkedApp` (client.go lines 2137 to 2198). -/
def LinkedAppsRevokeLinkedApp (w : World E U R A) (dbx : Context E) (arg : Option A) :
    StateM Trace (Option (Err E U)) := do
  let cli := dbx.Client
  (if dbx.Config.Verbose then log.Printf "arg: %v" else pure ())
  match w.Marshal "*RevokeLinkedApiAppArg" arg with
  | .error err => return some (.lib err)
  | .ok b =>
  match http.NewRequest w "POST" (w.GenerateURL dbx.Config "api" "team" "linked_apps/revoke_linked_app") (some b) with
  | .error err => return some (.lib err)
  | .ok req =>
  let req := req.HeaderSet "Content-Type" "application/json"
  (if dbx.Config.Verbose then log.Printf "req: %v" else pure ())
  let r ← cli.Do req
  (if dbx.Config.Verbose then log.Printf "resp: %v" else pure ())
  match r with
  | .error err => return some (.lib err)
  | .ok resp =>
  let out ← (do
    let body ← ioutil.ReadAll resp.Body
    match body.err with
    | some err => return some (.lib err)
    | none =>
    let body := body.data
    (if dbx.Config.Verbose then log.Printf "body: %s" else pure ())
    if resp.StatusCode ≠ 200 then
      if resp.StatusCode = 409 then
        let apiError ← json.UnmarshalWrapper w LinkedAppsRevokeLinkedAppAPIError body
        match apiError.err with
        | some err => return some (.lib err)
        | none => return some (.route LinkedAppsRevokeLinkedAppAPIError apiError.target)
      else
      let apiError : APIError := {}
      if resp.StatusCode = 400 then
        let apiError := { apiError with ErrorSummary := string body }
        return some (.api apiError)
      else
      let apiError ← json.UnmarshalAPIError w body
      match apiError.err with
      | some err => return some (.lib err)
      | none => return some (.api apiError.target)
    else
    return none)
  resp.BodyClose
  return out

/-- The wrapper type `LinkedAppsRevokeLinkedAppBatchAPIError` (client.go line 2201). -/
def LinkedAppsRevokeLinkedAppBatchAPIError : WrapperType :=
  ⟨"LinkedAppsRevokeLinkedAppBatchAPIError", "linked_apps/revoke_linked_app_batch", .ptr "RevokeLinkedAppBatchError"⟩

/-- The method `LinkedAppsRevokeLinkedAppBatch` (client.go lines 2206 to 2272). -/
def LinkedAppsRevokeLinkedAppBatch (w : World E U R A) (dbx : Context E) (arg : Option A) :
    StateM Trace (Ret E U R) := do
  let cli := dbx.Client
  (if dbx.Config.Verbose then log.Printf "arg: %v" else pure ())
  match w.Marshal "*RevokeLinkedApiAppBatchArg" arg with
  | .error err => return ⟨none, some (.lib err)⟩
  | .ok b =>
  match http.NewRequest w "POST" (w.GenerateURL dbx.Config "api" "team" "linked_apps/revoke_linked_app_batch") (some b) with
  | .error err => return ⟨none, some (.lib err)⟩
  | .ok req =>
  let req := req.HeaderSet "Content-Type" "application/json"
  (if dbx.Config.Verbose then log.Printf "req: %v" else pure ())
  let r ← cli.Do req
  (if dbx.Config.Verbose then log.Printf "resp: %v" else pure ())
  match r with
  | .error err => return ⟨none, some (.lib err)⟩
  | .ok resp =>
  let out ← (do
    let body ← ioutil.ReadAll resp.Body
    match body.err with
    | some err => return ⟨none, some (.lib err)⟩
    | none =>
    let body := body.data
    (if dbx.Config.Verbose then log.Printf "body: %s" else pure ())
    if resp.StatusCode ≠ 200 then
      if resp.StatusCode = 409 then
        let apiError ← json.UnmarshalWrapper w LinkedAppsRevokeLinkedAppBatchAPIError body
        match apiError.err with
        | some err => return ⟨none, some (.lib err)⟩
        | none => return ⟨none, some (.route LinkedAppsRevokeLinkedAppBatchAPIError apiError.target)⟩
      else
      let apiError : APIError := {}
      if resp.StatusCode = 400 then
        let apiError := { apiError with ErrorSummary := string body }
        return ⟨none, some (.api apiError)⟩
      else
      let apiError ← json.UnmarshalAPIError w body
      match apiError.err with
      | some err => return ⟨none, some (.lib err)⟩
      | none => return ⟨none, some (.api apiError.target)⟩
    else
    let res ← json.UnmarshalResult w "*RevokeLinkedAppBatchResult" body
    match res.err with
    | some err => return ⟨res.target, some (.lib err)⟩
    | none => return ⟨res.target, none⟩)
  resp.BodyClose
  return out

/-- The wrapper type `MembersAddAPIError` (client.go line 2275). -/
def MembersAddAPIError : WrapperType :=
  ⟨"MembersAddAPIError", "members/add", .emptyStruct⟩

/-- The method `MembersAdd` (client.go lines 2280 to 2346). -/
def MembersAdd (w : World E U R A) (dbx : Context E) (arg : Option A) :
    StateM Trace (Ret E U R) := do
  let cli := dbx.Client
  (if dbx.Config.Verbose then log.Printf "arg: %v" else pure ())
  match w.Marshal "*MembersAddArg" arg with
  | .error err => return ⟨none, some (.lib err)⟩
  | .ok b =>
  match http.NewRequest w "POST" (w.GenerateURL dbx.Config "api" "team" "members/add") (some b) with
  | .error err => return ⟨none, some (.lib err)⟩
  | .ok req =>
  let req := req.HeaderSet "Content-Type" "application/json"
  (if dbx.Config.Verbose then log.Printf "req: %v" else pure ())
  let r ← cli.Do req
  (if dbx.Config.Verbose then log.Printf "resp: %v" else pure ())
  match r with
  | .error err => return ⟨none, some (.lib err)⟩
  | .ok resp =>
  let out ← (do
    let body ← ioutil.ReadAll resp.Body
    match body.err with
    | some err => return ⟨none, some (.lib err)⟩
    | none =>
    let body := body.data
    (if dbx.Config.Verbose then log.Printf "body: %s" else pure ())
    if resp.StatusCode ≠ 200 then
      if resp.StatusCode = 409 then
        let apiError ← json.UnmarshalWrapper w MembersAddAPIError body
        match apiError.err with
        | some err => return ⟨none, some (.lib err)⟩
        | none => return ⟨none, some (.route MembersAddAPIError apiError.target)⟩
      else
      let apiError : APIError := {}
      if resp.StatusCode = 400 then
        let apiError := { apiError with ErrorSummary := string body }
        return ⟨none, some (.api apiError)⟩
      else
      let apiError ← json.UnmarshalAPIError w body
      match apiError.err with
      | some err => return ⟨none, some (.lib err)⟩
      | none => return ⟨none, some (.api apiError.target)⟩
    else
    let res ← json.UnmarshalResult w "*MembersAddLaunch" body
    match res.err with
    | some err => return ⟨res.target, some (.lib err)⟩
    | none => return ⟨res.target, none⟩)
  resp.BodyClose
  return out

/-- The wrapper type `MembersAddJobStatusGetAPIError` (client.go line 2349). -/
def MembersAddJobStatusGetAPIError : WrapperType :=
  ⟨"MembersAddJobStatusGetAPIError", "members/add/job_status/get", .ptr "async.PollError"⟩

/-- The method `MembersAddJobStatusGet` (client.go lines 2354 to 2420). -/
def MembersAddJobStatusGet (w : World E U R A) (dbx : Context E) (arg : Option A) :
    StateM Trace (Ret E U R) := do
  let cli := dbx.Client
  (if dbx.Config.Verbose then log.Printf "arg: %v" else pure ())
  match w.Marshal "*async.PollArg" arg with
  | .error err => return ⟨none, some (.lib err)⟩
  | .ok b =>
  match http.NewRequest w "POST" (w.GenerateURL dbx.Config "api" "team" "members/add/job_status/get") (some b) with
  | .error err => return ⟨none, some (.lib err)⟩
  | .ok req =>
  let req := req.HeaderSet "Content-Type" "application/json"
  (if dbx.Config.Verbose then log.Printf "req: %v" else pure ())
  let r ← cli.Do req
  (if dbx.Config.Verbose then log.Printf "resp: %v" else pure ())
  match r with
  | .error err => return ⟨none, some (.lib err)⟩
  | .ok resp =>
  let out ← (do
    let body ← ioutil.ReadAll resp.Body
    match body.err with
    | some err => return ⟨none, some (.lib err)⟩
    | none =>
    let body := body.data
    (if dbx.Config.Verbose then log.Printf "body: %s" else pure ())
    if resp.StatusCode ≠ 200 then
      if resp.StatusCode = 409 then
        let apiError ← json.UnmarshalWrapper w MembersAddJobStatusGetAPIError body
        match apiError.err with
        | some err => return ⟨none, some (.lib err)⟩
        | none => return ⟨none, some (.route MembersAddJobStatusGetAPIError apiError.target)⟩
      else
      let apiError : APIError := {}
      if resp.StatusCode = 400 then
        let apiError := { apiError with ErrorSummary := string body }
        return ⟨none, some (.api apiError)⟩
      else
      let apiError ← json.UnmarshalAPIError w body
      match apiError.err with
      | some err => return ⟨none, some (.lib err)⟩
      | none => return ⟨none, some (.api apiError.target)⟩
    else
    let res ← json.UnmarshalResult w "*MembersAddJobStatus" body
    match res.err with
    | some err => return ⟨res.target, some (.lib err)⟩
    | none => return ⟨res.target, none⟩)
  resp.BodyClose
  return out

/-- The wrapper type `MembersGetInfoAPIError` (client.go line 2423). -/
def MembersGetInfoAPIError : WrapperType :=
  ⟨"MembersGetInfoAPIError", "members/get_info", .ptr "MembersGetInfoError"⟩

/-- The method `MembersGetInfo` (client.go lines 2428 to 2494). -/
def MembersGetInfo (w : World E U R A) (dbx : Context E) (arg : Option A) :
    StateM Trace (Ret E U R) := do
  let cli := dbx.Client
  (if dbx.Config.Verbose then log.Printf "arg: %v" else pure ())
  match w.Marshal "*MembersGetInfoArgs" arg with
  | .error err => return ⟨none, some (.lib err)⟩
  | .ok b =>
  match http.NewRequest w "POST" (w.GenerateURL dbx.Config "api" "team" "members/get_info") (some b) with
  | .error err => return ⟨none, some (.lib err)⟩
  | .ok req =>
  let req := req.HeaderSet "Content-Type" "application/json"
  (if dbx.Config.Verbose then log.Printf "req: %v" else pure ())
  let r ← cli.Do req
  (if dbx.Config.Verbose then log.Printf "resp: %v" else pure ())
  match r with
  | .error err => return ⟨none, some (.lib err)⟩
  | .ok resp =>
  let out ← (do
    let body ← ioutil.ReadAll resp.Body
    match body.err with
    | some err => return ⟨none, some (.lib err)⟩
    | none =>
    let body := body.data
    (if dbx.Config.Verbose then log.Printf "body: %s" else pure ())
    if resp.StatusCode ≠ 200 then
      if resp.StatusCode = 409 then
        let apiError ← json.UnmarshalWrapper w MembersGetInfoAPIError body
        match apiError.err with
        | some err => return ⟨none, some (.lib err)⟩
        | none => return ⟨none, some (.route MembersGetInfoAPIError apiError.target)⟩
      else
      let apiError : APIError := {}
      if resp.StatusCode = 400 then
        let apiError := { apiError with ErrorSummary := string body }
        return ⟨none, some (.api apiError)⟩
      else
      let apiError ← json.UnmarshalAPIError w body
      match apiError.err with
      | some err => return ⟨none, some (.lib err)⟩
      | none => return ⟨none, some (.api apiError.target)⟩
    else
    let res ← json.UnmarshalResult w "[]*MembersGetInfoItem" body
    match res.err with
    | some err => return ⟨res.target, some (.lib err)⟩
    | none => return ⟨res.target, none⟩)
  resp.BodyClose
  return out

/-- The wrapper type `MembersListAPIError` (client.go line 2497). -/
def MembersListAPIError : WrapperType :=
  ⟨"MembersListAPIError", "members/list", .ptr "MembersListError"⟩

/-- The method `MembersList` (client.go lines 2502 to 2568). -/
def MembersList (w : World E U R A) (dbx : Context E) (arg : Option A) :
    StateM Trace (Ret E U R) := do
  let cli := dbx.Client
  (if dbx.Config.Verbose then log.Printf "arg: %v" else pure ())
  match w.Marshal "*MembersListArg" arg with
  | .error err => return ⟨none, some (.lib err)⟩
  | .ok b =>
  match http.NewRequest w "POST" (w.GenerateURL dbx.Config "api" "team" "members/list") (some b) with
  | .error err => return ⟨none, some (.lib err)⟩
  | .ok req =>
  let req := req.HeaderSet "Content-Type" "application/json"
  (if dbx.Config.Verbose then log.Printf "req: %v" else pure ())
  let r ← cli.Do req
  (if dbx.Config.Verbose then log.Printf "resp: %v" else pure ())
  match r with
  | .error err => return ⟨none, some (.lib err)⟩
  | .ok resp =>
  let out ← (do
    let body ← ioutil.ReadAll resp.Body
    match body.err with
    | some err => return ⟨none, some (.lib err)⟩
    | none =>
    let body := body.data
    (if dbx.Config.Verbose then log.Printf "body: %s" else pure ())
    if resp.StatusCode ≠ 200 then
      if resp.StatusCode = 409 then
        let apiError ← json.UnmarshalWrapper w MembersListAPIError body
        match apiError.err with
        | some err => return ⟨none, some (.lib err)⟩
        | none => return ⟨none, some (.route MembersListAPIError apiError.target)⟩
      else
      let apiError : APIError := {}
      if resp.StatusCode = 400 then
        let apiError := { apiError with ErrorSummary := string body }
        return ⟨none, some (.api apiError)⟩
      else
      let apiError ← json.UnmarshalAPIError w body
      match apiError.err with
      | some err => return ⟨none, some (.lib err)⟩
      | none => return ⟨none, some (.api apiError.target)⟩
    else
    let res ← json.UnmarshalResult w "*MembersListResult" body
    match res.err with
    | some err => return ⟨res.target, some (.lib err)⟩
    | none => return ⟨res.target, none⟩)
  resp.BodyClose
  return out

/-- The wrapper type `MembersListContinueAPIError` (client.go line 2571). -/
def MembersListContinueAPIError : WrapperType :=
  ⟨"MembersListContinueAPIError", "members/list/continue", .ptr "MembersListContinueError"⟩

/-- The method `MembersListContinue` (client.go lines 2576 to 2642). -/
def MembersListContinue (w : World E U R A) (dbx : Context E) (arg : Option A) :
    StateM Trace (Ret E U R) := do
  let cli := dbx.Client
  (if dbx.Config.Verbose then log.Printf "arg: %v" else pure ())
  match w.Marshal "*MembersListContinueArg" arg with
  | .error err => return ⟨none, some (.lib err)⟩
  | .ok b =>
  match http.NewRequest w "POST" (w.GenerateURL dbx.Config "api" "team" "members/list/continue") (some b) with
  | .error err => return ⟨none, some (.lib err)⟩
  | .ok req =>
  let req := req.HeaderSet "Content-Type" "application/json"
  (if dbx.Config.Verbose then log.Printf "req: %v" else pure ())
  let r ← cli.Do req
  (if dbx.Config.Verbose then log.Printf "resp: %v" else pure ())
  match r with
  | .error err => return ⟨none, some (.lib err)⟩
  | .ok resp =>
  let out ← (do
    let body ← ioutil.ReadAll resp.Body
    match body.err with
    | some err => return ⟨none, some (.lib err)⟩
    | none =>
    let body := body.data
    (if dbx.Config.Verbose then log.Printf "body: %s" else pure ())
    if resp.StatusCode ≠ 200 then
      if resp.StatusCode = 409 then
        let apiError ← json.UnmarshalWrapper w MembersListContinueAPIError body
        match apiError.err with
        | some err => return ⟨none, some (.lib err)⟩
        | none => return ⟨none, some (.route MembersListContinueAPIError apiError.target)⟩
      else
      let apiError : APIError := {}
      if resp.StatusCode = 400 then
        let apiError := { apiError with ErrorSummary := string body }
        return ⟨none, some (.api apiError)⟩
      else
      let apiError ← json.UnmarshalAPIError w body
      match apiError.err with
      | some err => return ⟨none, some (.lib err)⟩
      | none => return ⟨none, some (.api apiError.target)⟩
    else
    let res ← json.UnmarshalResult w "*MembersListResult" body
    match res.err with
    | some err => return ⟨res.target, some (.lib err)⟩
    | none => return ⟨res.target, none⟩)
  resp.BodyClose
  return out

/-- The wrapper type `MembersRecoverAPIError` (client.go line 2645). -/
def MembersRecoverAPIError : WrapperType :=
  ⟨"MembersRecoverAPIError", "members/recover", .ptr "MembersRecoverError"⟩

/-- The method `MembersRecover` (client.go lines 2650 to 2711). -/
def MembersRecover (w : World E U R A) (dbx : Context E) (arg : Option A) :
    StateM Trace (Option (Err E U)) := do
  let cli := dbx.Client
  (if dbx.Config.Verbose then log.Printf "arg: %v" else pure ())
  match w.Marshal "*MembersRecoverArg" arg with
  | .error err => return some (.lib err)
  | .ok b =>
  match http.NewRequest w "POST" (w.GenerateURL dbx.Config "api" "team" "members/recover") (some b) with
  | .error err => return some (.lib err)
  | .ok req =>
  let req := req.HeaderSet "Content-Type" "application/json"
  (if dbx.Config.Verbose then log.Printf "req: %v" else pure ())
  let r ← cli.Do req
  (if dbx.Config.Verbose then log.Printf "resp: %v" else pure ())
  match r with
  | .error err => return some (.lib err)
  | .ok resp =>
  let out ← (do
    let body ← ioutil.ReadAll resp.Body
    match body.err with
    | some err => return some (.lib err)
    | none =>
    let body := body.data
    (if dbx.Config.Verbose then log.Printf "body: %s" else pure ())
    if resp.StatusCode ≠ 200 then
      if resp.StatusCode = 409 then
        let apiError ← json.UnmarshalWrapper w MembersRecoverAPIError body
        match apiError.err with
        | some err => return some (.lib err)
        | none => return some (.route MembersRecoverAPIError apiError.target)
      else
      let apiError : APIError := {}
      if resp.StatusCode = 400 then
        let apiError := { apiError with ErrorSummary := string body }
        return some (.api apiError)
      else
      let apiError ← json.UnmarshalAPIError w body
      match apiError.err with
      | some err => return some (.lib err)
      | none => return some (.api apiError.target)
    else
    return none)
  resp.BodyClose
  return out

/-- The wrapper type `MembersRemoveAPIError` (client.go line 2714). -/
def MembersRemoveAPIError : WrapperType :=
  ⟨"MembersRemoveAPIError", "members/remove", .ptr "MembersRemoveError"⟩

/-- The method `MembersRemove` (client.go lines 2719 to 2785). -/
def MembersRemove (w : World E U R A) (dbx : Context E) (arg : Option A) :
    StateM Trace (Ret E U R) := do
  let cli := dbx.Client
  (if dbx.Config.Verbose then log.Printf "arg: %v" else pure ())
  match w.Marshal "*MembersRemoveArg" arg with
  | .error err => return ⟨none, some (.lib err)⟩
  | .ok b =>
  match http.NewRequest w "POST" (w.GenerateURL dbx.Config "api" "team" "members/remove") (some b) with
  | .error err => return ⟨none, some (.lib err)⟩
  | .ok req =>
  let req := req.HeaderSet "Content-Type" "application/json"
  (if dbx.Config.Verbose then log.Printf "req: %v" else pure ())
  let r ← cli.Do req
  (if dbx.Config.Verbose then log.Printf "resp: %v" else pure ())
  match r with
  | .error err => return ⟨none, some (.lib err)⟩
  | .ok resp =>
  let out ← (do
    let body ← ioutil.ReadAll resp.Body
    match body.err with
    | some err => return ⟨none, some (.lib err)⟩
    | none =>
    let body := body.data
    (if dbx.Config.Verbose then log.Printf "body: %s" else pure ())
    if resp.StatusCode ≠ 200 then
      if resp.StatusCode = 409 then
        let apiError ← json.UnmarshalWrapper w MembersRemoveAPIError body
        match apiError.err with
        | some err => return ⟨none, some (.lib err)⟩
        | none => return ⟨none, some (.route MembersRemoveAPIError apiError.target)⟩
      else
      let apiError : APIError := {}
      if resp.StatusCode = 400 then
        let apiError := { apiError with ErrorSummary := string body }
        return ⟨none, some (.api apiError)⟩
      else
      let apiError ← json.UnmarshalAPIError w body
      match apiError.err with
      | some err => return ⟨none, some (.lib err)⟩
      | none => return ⟨none, some (.api apiError.target)⟩
    else
    let res ← json.UnmarshalResult w "*async.LaunchEmptyResult" body
    match res.err with
    | some err => return ⟨res.target, some (.lib err)⟩
    | none => return ⟨res.target, none⟩)
  resp.BodyClose
  return out

/-- The wrapper type `MembersRemoveJobStatusGetAPIError` (client.go line 2788). -/
def MembersRemoveJobStatusGetAPIError : WrapperType :=
  ⟨"MembersRemoveJobStatusGetAPIError", "members/remove/job_status/get", .ptr "async.PollError"⟩

/-- The method `MembersRemoveJobStatusGet` (client.go lines 2793 to 2859). -/
def MembersRemoveJobStatusGet (w : World E U R A) (dbx : Context E) (arg : Option A) :
    StateM Trace (Ret E U R) := do
  let cli := dbx.Client
  (if dbx.Config.Verbose then log.Printf "arg: %v" else pure ())
  match w.Marshal "*async.PollArg" arg with
  | .error err => return ⟨none, some (.lib err)⟩
  | .ok b =>
  match http.NewRequest w "POST" (w.GenerateURL dbx.Config "api" "team" "members/remove/job_status/get") (some b) with
  | .error err => return ⟨none, some (.lib err)⟩
  | .ok req =>
  let req := req.HeaderSet "Content-Type" "application/json"
  (if dbx.Config.Verbose then log.Printf "req: %v" else pure ())
  let r ← cli.Do req
  (if dbx.Config.Verbose then log.Printf "resp: %v" else pure ())
  match r with
  | .error err => return ⟨none, some (.lib err)⟩
  | .ok resp =>
  let out ← (do
    let body ← ioutil.ReadAll resp.Body
    match body.err with
    | some err => return ⟨none, some (.lib err)⟩
    | none =>
    let body := body.data
    (if dbx.Config.Verbose then log.Printf "body: %s" else pure ())
    if resp.StatusCode ≠ 200 then
      if resp.StatusCode = 409 then
        let apiError ← json.UnmarshalWrapper w MembersRemoveJobStatusGetAPIError body
        match apiError.err with
        | some err => return ⟨none, some (.lib err)⟩
        | none => return ⟨none, some (.route MembersRemoveJobStatusGetAPIError apiError.target)⟩
      else
      let apiError : APIError := {}
      if resp.StatusCode = 400 then
        let apiError := { apiError with ErrorSummary := string body }
        return ⟨none, some (.api apiError)⟩
      else
      let apiError ← json.UnmarshalAPIError w body
      match apiError.err with
      | some err => return ⟨none, some (.lib err)⟩
      | none => return ⟨none, some (.api apiError.target)⟩
    else
    let res ← json.UnmarshalResult w "*async.PollEmptyResult" body
    match res.err with
    | some err => return ⟨res.target, some (.lib err)⟩
    | none => return ⟨res.target, none⟩)
  resp.BodyClose
  return out

/-- The wrapper type `MembersSendWelcomeEmailAPIError` (client.go line 2862). -/
def MembersSendWelcomeEmailAPIError : WrapperType :=
  ⟨"MembersSendWelcomeEmailAPIError", "members/send_welcome_email", .ptr "MembersSendWelcomeError"⟩

/-- The method `MembersSendWelcomeEmail` (client.go lines 2867 to 2928). -/
def MembersSendWelcomeEmail (w : World E U R A) (dbx : Context E) (arg : Option A) :
    StateM Trace (Option (Err E U)) := do
  let cli := dbx.Client
  (if dbx.Config.Verbose then log.Printf "arg: %v" else pure ())
  match w.Marshal "*UserSelectorArg" arg with
  | .error err => return some (.lib err)
  | .ok b =>
  match http.NewRequest w "POST" (w.GenerateURL dbx.Config "api" "team" "members/send_welcome_email") (some b) with
  | .error err => return some (.lib err)
  | .ok req =>
  let req := req.HeaderSet "Content-Type" "application/json"
  (if dbx.Config.Verbose then log.Printf "req: %v" else pure ())
  let r ← cli.Do req
  (if dbx.Config.Verbose then log.Printf "resp: %v" else pure ())
  match r with
  | .error err => return some (.lib err)
  | .ok resp =>
  let out ← (do
    let body ← ioutil.ReadAll resp.Body
    match body.err with
    | some err => return some (.lib err)
    | none =>
    let body := body.data
    (if dbx.Config.Verbose then log.Printf "body: %s" else pure ())
    if resp.StatusCode ≠ 200 then
      if resp.StatusCode = 409 then
        let apiError ← json.UnmarshalWrapper w MembersSendWelcomeEmailAPIError body
        match apiError.err with
        | some err => return some (.lib err)
        | none => return some (.route MembersSendWelcomeEmailAPIError apiError.target)
      else
      let apiError : APIError := {}
      if resp.StatusCode = 400 then
        let apiError := { apiError with ErrorSummary := string body }
        return some (.api apiError)
      else
      let apiError ← json.UnmarshalAPIError w body
      match apiError.err with
      | some err => return some (.lib err)
      | none => return some (.api apiError.target)
    else
    return none)
  resp.BodyClose
  return out

/-- The wrapper type `MembersSetAdminPermissionsAPIError` (client.go line 2931). -/
def MembersSetAdminPermissionsAPIError : WrapperType :=
  ⟨"MembersSetAdminPermissionsAPIError", "members/set_admin_permissions", .ptr "MembersSetPermissionsError"⟩

/-- The method `MembersSetAdminPermissions` (client.go lines 2936 to 3002). -/
def MembersSetAdminPermissions (w : World E U R A) (dbx : Context E) (arg : Option A) :
    StateM Trace (Ret E U R) := do
  let cli := dbx.Client
  (if dbx.Config.Verbose then log.Printf "arg: %v" else pure ())
  match w.Marshal "*MembersSetPermissionsArg" arg with
  | .error err => return ⟨none, some (.lib err)⟩
  | .ok b =>
  match http.NewRequest w "POST" (w.GenerateURL dbx.Config "api" "team" "members/set_admin_permissions") (some b) with
  | .error err => return ⟨none, some (.lib err)⟩
  | .ok req =>
  let req := req.HeaderSet "Content-Type" "application/json"
  (if dbx.Config.Verbose then log.Printf "req: %v" else pure ())
  let r ← cli.Do req
  (if dbx.Config.Verbose then log.Printf "resp: %v" else pure ())
  match r with
  | .error err => return ⟨none, some (.lib err)⟩
  | .ok resp =>
  let out ← (do
    let body ← ioutil.ReadAll resp.Body
    match body.err with
    | some err => return ⟨none, some (.lib err)⟩
    | none =>
    let body := body.data
    (if dbx.Config.Verbose then log.Printf "body: %s" else pure ())
    if resp.StatusCode ≠ 200 then
      if resp.StatusCode = 409 then
        let apiError ← json.UnmarshalWrapper w MembersSetAdminPermissionsAPIError body
        match apiError.err with
        | some err => return ⟨none, some (.lib err)⟩
        | none => return ⟨none, some (.route MembersSetAdminPermissionsAPIError apiError.target)⟩
      else
      let apiError : APIError := {}
      if resp.StatusCode = 400 then
        let apiError := { apiError with ErrorSummary := string body }
        return ⟨none, some (.api apiError)⟩
      else
      let apiError ← json.UnmarshalAPIError w body
      match apiError.err with
      | some err => return ⟨none, some (.lib err)⟩
      | none => return ⟨none, some (.api apiError.target)⟩
    else
    let res ← json.UnmarshalResult w "*MembersSetPermissionsResult" body
    match res.err with
    | some err => return ⟨res.target, some (.lib err)⟩
    | none => return ⟨res.target, none⟩)
  resp.BodyClose
  return out

/-- The wrapper type `MembersSetProfileAPIError` (client.go line 3005). -/
def MembersSetProfileAPIError : WrapperType :=
  ⟨"MembersSetProfileAPIError", "members/set_profile", .ptr "MembersSetProfileError"⟩

/-- The method `MembersSetProfile` (client.go lines 3010 to 3076). -/
def MembersSetProfile (w : World E U R A) (dbx : Context E) (arg : Option A) :
    StateM Trace (Ret E U R) := do
  let cli := dbx.Client
  (if dbx.Config.Verbose then log.Printf "arg: %v" else pure ())
  match w.Marshal "*MembersSetProfileArg" arg with
  | .error err => return ⟨none, some (.lib err)⟩
  | .ok b =>
  match http.NewRequest w "POST" (w.GenerateURL dbx.Config "api" "team" "members/set_profile") (some b) with
  | .error err => return ⟨none, some (.lib err)⟩
  | .ok req =>
  let req := req.HeaderSet "Content-Type" "application/json"
  (if dbx.Config.Verbose then log.Printf "req: %v" else pure ())
  let r ← cli.Do req
  (if dbx.Config.Verbose then log.Printf "resp: %v" else pure ())
  match r with
  | .error err => return ⟨none, some (.lib err)⟩
  | .ok resp =>
  let out ← (do
    let body ← ioutil.ReadAll resp.Body
    match body.err with
    | some err => return ⟨none, some (.lib err)⟩
    | none =>
    let body := body.data
    (if dbx.Config.Verbose then log.Printf "body: %s" else pure ())
    if resp.StatusCode ≠ 200 then
      if resp.StatusCode = 409 then
        let apiError ← json.UnmarshalWrapper w MembersSetProfileAPIError body
        match apiError.err with
        | some err => return ⟨none, some (.lib err)⟩
        | none => return ⟨none, some (.route MembersSetProfileAPIError apiError.target)⟩
      else
      let apiError : APIError := {}
      if resp.StatusCode = 400 then
        let apiError := { apiError with ErrorSummary := string body }
        return ⟨none, some (.api apiError)⟩
      else
      let apiError ← json.UnmarshalAPIError w body
      match apiError.err with
      | some err => return ⟨none, some (.lib err)⟩
      | none => return ⟨none, some (.api apiError.target)⟩
    else
    let res ← json.UnmarshalResult w "*TeamMemberInfo" body
    match res.err with
    | some err => return ⟨res.target, some (.lib err)⟩
    | none => return ⟨res.target, none⟩)
  resp.BodyClose
  return out

/-- The wrapper type `MembersSuspendAPIError` (client.go line 3079). -/
def MembersSuspendAPIError : WrapperType :=
  ⟨"MembersSuspendAPIError", "members/suspend", .ptr "MembersSuspendError"⟩

/-- The method `MembersSuspend` (client.go lines 3084 to 3145). -/
def MembersSuspend (w : World E U R A) (dbx : Context E) (arg : Option A) :
    StateM Trace (Option (Err E U)) := do
  let cli := dbx.Client
  (if dbx.Config.Verbose then log.Printf "arg: %v" else pure ())
  match w.Marshal "*MembersDeactivateArg" arg with
  | .error err => return some (.lib err)
  | .ok b =>
  match http.NewRequest w "POST" (w.GenerateURL dbx.Config "api" "team" "members/suspend") (some b) with
  | .error err => return some (.lib err)
  | .ok req =>
  let req := req.HeaderSet "Content-Type" "application/json"
  (if dbx.Config.Verbose then log.Printf "req: %v" else pure ())
  let r ← cli.Do req
  (if dbx.Config.Verbose then log.Printf "resp: %v" else pure ())
  match r with
  | .error err => return some (.lib err)
  | .ok resp =>
  let out ← (do
    let body ← ioutil.ReadAll resp.Body
    match body.err with
    | some err => return some (.lib err)
    | none =>
    let body := body.data
    (if dbx.Config.Verbose then log.Printf "body: %s" else pure ())
    if resp.StatusCode ≠ 200 then
      if resp.StatusCode = 409 then
        let apiError ← json.UnmarshalWrapper w MembersSuspendAPIError body
        match apiError.err with
        | some err => return some (.lib err)
        | none => return some (.route MembersSuspendAPIError apiError.target)
      else
      let apiError : APIError := {}
      if resp.StatusCode = 400 then
        let apiError := { apiError with ErrorSummary := string body }
        return some (.api apiError)
      else
      let apiError ← json.UnmarshalAPIError w body
      match apiError.err with
      | some err => return some (.lib err)
      | none => return some (.api apiError.target)
    else
    return none)
  resp.BodyClose
  return out

/-- The wrapper type `MembersUnsuspendAPIError` (client.go line 3148). -/
def MembersUnsuspendAPIError : WrapperType :=
  ⟨"MembersUnsuspendAPIError", "members/unsuspend", .ptr "MembersUnsuspendError"⟩

/-- The method `MembersUnsuspend` (client.go lines 3153 to 3214). -/
def MembersUnsuspend (w : World E U R A) (dbx : Context E) (arg : Option A) :
    StateM Trace (Option (Err E U)) := do
  let cli := dbx.Client
  (if dbx.Config.Verbose then log.Printf "arg: %v" else pure ())
  match w.Marshal "*MembersUnsuspendArg" arg with
  | .error err => return some (.lib err)
  | .ok b =>
  match http.NewRequest w "POST" (w.GenerateURL dbx.Config "api" "team" "members/unsuspend") (some b) with
  | .error err => return some (.lib err)
  | .ok req =>
  let req := req.HeaderSet "Content-Type" "application/json"
  (if dbx.Config.Verbose then log.Printf "req: %v" else pure ())
  let r ← cli.Do req
  (if dbx.Config.Verbose then log.Printf "resp: %v" else pure ())
  match r with
  | .error err => return some (.lib err)
  | .ok resp =>
  let out ← (do
    let body ← ioutil.ReadAll resp.Body
    match body.err with
    | some err => return some (.lib err)
    | none =>
    let body := body.data
    (if dbx.Config.Verbose then log.Printf "body: %s" else pure ())
    if resp.StatusCode ≠ 200 then
      if resp.StatusCode = 409 then
        let apiError ← json.UnmarshalWrapper w MembersUnsuspendAPIError body
        match apiError.err with
        | some err => return some (.lib err)
        | none => return some (.route MembersUnsuspendAPIError apiError.target)
      else
      let apiError : APIError := {}
      if resp.StatusCode = 400 then
        let apiError := { apiError with ErrorSummary := string body }
        return some (.api apiError)
      else
      let apiError ← json.UnmarshalAPIError w body
      match apiError.err with
      | some err => return some (.lib err)
      | none => return some (.api apiError.target)
    else
    return none)
  resp.BodyClose
  return out

/-- The wrapper type `PropertiesTemplateAddAPIError` (client.go line 3217). -/
def PropertiesTemplateAddAPIError : WrapperType :=
  ⟨"PropertiesTemplateAddAPIError", "properties/template/add", .ptr "properties.ModifyPropertyTemplateError"⟩

/-- The method `PropertiesTemplateAdd` (client.go lines 3222 to 3288). -/
def PropertiesTemplateAdd (w : World E U R A) (dbx : Context E) (arg : Option A) :
    StateM Trace (Ret E U R) := do
  let cli := dbx.Client
  (if dbx.Config.Verbose then log.Printf "arg: %v" else pure ())
  match w.Marshal "*AddPropertyTemplateArg" arg with
  | .error err => return ⟨none, some (.lib err)⟩
  | .ok b =>
  match http.NewRequest w "POST" (w.GenerateURL dbx.Config "api" "team" "properties/template/add") (some b) with
  | .error err => return ⟨none, some (.lib err)⟩
  | .ok req =>
  let req := req.HeaderSet "Content-Type" "application/json"
  (if dbx.Config.Verbose then log.Printf "req: %v" else pure ())
  let r ← cli.Do req
  (if dbx.Config.Verbose then log.Printf "resp: %v" else pure ())
  match r with
  | .error err => return ⟨none, some (.lib err)⟩
  | .ok resp =>
  let out ← (do
    let body ← ioutil.ReadAll resp.Body
    match body.err with
    | some err => return ⟨none, some (.lib err)⟩
    | none =>
    let body := body.data
    (if dbx.Config.Verbose then log.Printf "body: %s" else pure ())
    if resp.StatusCode ≠ 200 then
      if resp.StatusCode = 409 then
        let apiError ← json.UnmarshalWrapper w PropertiesTemplateAddAPIError body
        match apiError.err with
        | some err => return ⟨none, some (.lib err)⟩
        | none => return ⟨none, some (.route PropertiesTemplateAddAPIError apiError.target)⟩
      else
      let apiError : APIError := {}
      if resp.StatusCode = 400 then
        let apiError := { apiError with ErrorSummary := string body }
        return ⟨none, some (.api apiError)⟩
      else
      let apiError ← json.UnmarshalAPIError w body
      match apiError.err with
      | some err => return ⟨none, some (.lib err)⟩
      | none => return ⟨none, some (.api apiError.target)⟩
    else
    let res ← json.UnmarshalResult w "*AddPropertyTemplateResult" body
    match res.err with
    | some err => return ⟨res.target, some (.lib err)⟩
    | none => return ⟨res.target, none⟩)
  resp.BodyClose
  return out

/-- The wrapper type `PropertiesTemplateGetAPIError` (client.go line 3291). -/
def PropertiesTemplateGetAPIError : WrapperType :=
  ⟨"PropertiesTemplateGetAPIError", "properties/template/get", .ptr "properties.PropertyTemplateError"⟩

/-- The method `PropertiesTemplateGet` (client.go lines 3296 to 3362). -/
def PropertiesTemplateGet (w : World E U R A) (dbx : Context E) (arg : Option A) :
    StateM Trace (Ret E U R) := do
  let cli := dbx.Client
  (if dbx.Config.Verbose then log.Printf "arg: %v" else pure ())
  match w.Marshal "*properties.GetPropertyTemplateArg" arg with
  | .error err => return ⟨none, some (.lib err)⟩
  | .ok b =>
  match http.NewRequest w "POST" (w.GenerateURL dbx.Config "api" "team" "properties/template/get") (some b) with
  | .error err => return ⟨none, some (.lib err)⟩
  | .ok req =>
  let req := req.HeaderSet "Content-Type" "application/json"
  (if dbx.Config.Verbose then log.Printf "req: %v" else pure ())
  let r ← cli.Do req
  (if dbx.Config.Verbose then log.Printf "resp: %v" else pure ())
  match r with
  | .error err => return ⟨none, some (.lib err)⟩
  | .ok resp =>
  let out ← (do
    let body ← ioutil.ReadAll resp.Body
    match body.err with
    | some err => return ⟨none, some (.lib err)⟩
    | none =>
    let body := body.data
    (if dbx.Config.Verbose then log.Printf "body: %s" else pure ())
    if resp.StatusCode ≠ 200 then
      if resp.StatusCode = 409 then
        let apiError ← json.UnmarshalWrapper w PropertiesTemplateGetAPIError body
        match apiError.err with
        | some err => return ⟨none, some (.lib err)⟩
        | none => return ⟨none, some (.route PropertiesTemplateGetAPIError apiError.target)⟩
      else
      let apiError : APIError := {}
      if resp.StatusCode = 400 then
        let apiError := { apiError with ErrorSummary := string body }
        return ⟨none, some (.api apiError)⟩
      else
      let apiError ← json.UnmarshalAPIError w body
      match apiError.err with
      | some err => return ⟨none, some (.lib err)⟩
      | none => return ⟨none, some (.api apiError.target)⟩
    else
    let res ← json.UnmarshalResult w "*properties.GetPropertyTemplateResult" body
    match res.err with
    | some err => return ⟨res.target, some (.lib err)⟩
    | none => return ⟨res.target, none⟩)
  resp.BodyClose
  return out

/-- The wrapper type `PropertiesTemplateListAPIError` (client.go line 3365). -/
def PropertiesTemplateListAPIError : WrapperType :=
  ⟨"PropertiesTemplateListAPIError", "properties/template/list", .ptr "properties.PropertyTemplateError"⟩

/-- The method `PropertiesTemplateList` (client.go lines 3370 to 3427). -/
def PropertiesTemplateList (w : World E U R A) (dbx : Context E) :
    StateM Trace (Ret E U R) := do
  let cli := dbx.Client
  match http.NewRequest w "POST" (w.GenerateURL dbx.Config "api" "team" "properties/template/list") none with
  | .error err => return ⟨none, some (.lib err)⟩
  | .ok req =>
  (if dbx.Config.Verbose then log.Printf "req: %v" else pure ())
  let r ← cli.Do req
  (if dbx.Config.Verbose then log.Printf "resp: %v" else pure ())
  match r with
  | .error err => return ⟨none, some (.lib err)⟩
  | .ok resp =>
  let out ← (do
    let body ← ioutil.ReadAll resp.Body
    match body.err with
    | some err => return ⟨none, some (.lib err)⟩
    | none =>
    let body := body.data
    (if dbx.Config.Verbose then log.Printf "body: %s" else pure ())
    if resp.StatusCode ≠ 200 then
      if resp.StatusCode = 409 then
        let apiError ← json.UnmarshalWrapper w PropertiesTemplateListAPIError body
        match apiError.err with
        | some err => return ⟨none, some (.lib err)⟩
        | none => return ⟨none, some (.route PropertiesTemplateListAPIError apiError.target)⟩
      else
      let apiError : APIError := {}
      if resp.StatusCode = 400 then
        let apiError := { apiError with ErrorSummary := string body }
        return ⟨none, some (.api apiError)⟩
      else
      let apiError ← json.UnmarshalAPIError w body
      match apiError.err with
      | some err => return ⟨none, some (.lib err)⟩
      | none => return ⟨none, some (.api apiError.target)⟩
    else
    let res ← json.UnmarshalResult w "*properties.ListPropertyTemplateIds" body
    match res.err with
    | some err => return ⟨res.target, some (.lib err)⟩
    | none => return ⟨res.target, none⟩)
  resp.BodyClose
  return out

/-- The wrapper type `PropertiesTemplateUpdateAPIError` (client.go line 3430). -/
def PropertiesTemplateUpdateAPIError : WrapperType :=
  ⟨"PropertiesTemplateUpdateAPIError", "properties/template/update", .ptr "properties.ModifyPropertyTemplateError"⟩

/-- The method `PropertiesTemplateUpdate` (client.go lines 3435 to 3501). -/
def PropertiesTemplateUpdate (w : World E U R A) (dbx : Context E) (arg : Option A) :
    StateM Trace (Ret E U R) := do
  let cli := dbx.Client
  (if dbx.Config.Verbose then log.Printf "arg: %v" else pure ())
  match w.Marshal "*UpdatePropertyTemplateArg" arg with
  | .error err => return ⟨none, some (.lib err)⟩
  | .ok b =>
  match http.NewRequest w "POST" (w.GenerateURL dbx.Config "api" "team" "properties/template/update") (some b) with
  | .error err => return ⟨none, some (.lib err)⟩
  | .ok req =>
  let req := req.HeaderSet "Content-Type" "application/json"
  (if dbx.Config.Verbose then log.Printf "req: %v" else pure ())
  let r ← cli.Do req
  (if dbx.Config.Verbose then log.Printf "resp: %v" else pure ())
  match r with
  | .error err => return ⟨none, some (.lib err)⟩
  | .ok resp =>
  let out ← (do
    let body ← ioutil.ReadAll resp.Body
    match body.err with
    | some err => return ⟨none, some (.lib err)⟩
    | none =>
    let body := body.data
    (if dbx.Config.Verbose then log.Printf "body: %s" else pure ())
    if resp.StatusCode ≠ 200 then
      if resp.StatusCode = 409 then
        let apiError ← json.UnmarshalWrapper w PropertiesTemplateUpdateAPIError body
        match apiError.err with
        | some err => return ⟨none, some (.lib err)⟩
        | none => return ⟨none, some (.route PropertiesTemplateUpdateAPIError apiError.target)⟩
      else
      let apiError : APIError := {}
      if resp.StatusCode = 400 then
        let apiError := { apiError with ErrorSummary := string body }
        return ⟨none, some (.api apiError)⟩
      else
      let apiError ← json.UnmarshalAPIError w body
      match apiError.err with
      | some err => return ⟨none, some (.lib err)⟩
      | none => return ⟨none, some (.api apiError.target)⟩
    else
    let res ← json.UnmarshalResult w "*UpdatePropertyTemplateResult" body
    match res.err with
    | some err => return ⟨res.target, some (.lib err)⟩
    | none => return ⟨res.target, none⟩)
  resp.BodyClose
  return out

/-- The wrapper type `ReportsGetActivityAPIError` (client.go line 3504). -/
def ReportsGetActivityAPIError : WrapperType :=
  ⟨"ReportsGetActivityAPIError", "reports/get_activity", .ptr "DateRangeError"⟩

/-- The method `ReportsGetActivity` (client.go lines 3509 to 3575). -/
def ReportsGetActivity (w : World E U R A) (dbx : Context E) (arg : Option A) :
    StateM Trace (Ret E U R) := do
  let cli := dbx.Client
  (if dbx.Config.Verbose then log.Printf "arg: %v" else pure ())
  match w.Marshal "*DateRange" arg with
  | .error err => return ⟨none, some (.lib err)⟩
  | .ok b =>
  match http.NewRequest w "POST" (w.GenerateURL dbx.Config "api" "team" "reports/get_activity") (some b) with
  | .error err => return ⟨none, some (.lib err)⟩
  | .ok req =>
  let req := req.HeaderSet "Content-Type" "application/json"
  (if dbx.Config.Verbose then log.Printf "req: %v" else pure ())
  let r ← cli.Do req
  (if dbx.Config.Verbose then log.Printf "resp: %v" else pure ())
  match r with
  | .error err => return ⟨none, some (.lib err)⟩
  | .ok resp =>
  let out ← (do
    let body ← ioutil.ReadAll resp.Body
    match body.err with
    | some err => return ⟨none, some (.lib err)⟩
    | none =>
    let body := body.data
    (if dbx.Config.Verbose then log.Printf "body: %s" else pure ())
    if resp.StatusCode ≠ 200 then
      if resp.StatusCode = 409 then
        let apiError ← json.UnmarshalWrapper w ReportsGetActivityAPIError body
        match apiError.err with
        | some err => return ⟨none, some (.lib err)⟩
        | none => return ⟨none, some (.route ReportsGetActivityAPIError apiError.target)⟩
      else
      let apiError : APIError := {}
      if resp.StatusCode = 400 then
        let apiError := { apiError with ErrorSummary := string body }
        return ⟨none, some (.api apiError)⟩
      else
      let apiError ← json.UnmarshalAPIError w body
      match apiError.err with
      | some err => return ⟨none, some (.lib err)⟩
      | none => return ⟨none, some (.api apiError.target)⟩
    else
    let res ← json.UnmarshalResult w "*GetActivityReport" body
    match res.err with
    | some err => return ⟨res.target, some (.lib err)⟩
    | none => return ⟨res.target, none⟩)
  resp.BodyClose
  return out

/-- The wrapper type `ReportsGetDevicesAPIError` (client.go line 3578). -/
def ReportsGetDevicesAPIError : WrapperType :=
  ⟨"ReportsGetDevicesAPIError", "reports/get_devices", .ptr "DateRangeError"⟩

/-- The method `ReportsGetDevices` (client.go lines 3583 to 3649). -/
def ReportsGetDevices (w : World E U R A) (dbx : Context E) (arg : Option A) :
    StateM Trace (Ret E U R) := do
  let cli := dbx.Client
  (if dbx.Config.Verbose then log.Printf "arg: %v" else pure ())
  match w.Marshal "*DateRange" arg with
  | .error err => return ⟨none, some (.lib err)⟩
  | .ok b =>
  match http.NewRequest w "POST" (w.GenerateURL dbx.Config "api" "team" "reports/get_devices") (some b) with
  | .error err => return ⟨none, some (.lib err)⟩
  | .ok req =>
  let req := req.HeaderSet "Content-Type" "application/json"
  (if dbx.Config.Verbose then log.Printf "req: %v" else pure ())
  let r ← cli.Do req
  (if dbx.Config.Verbose then log.Printf "resp: %v" else pure ())
  match r with
  | .error err => return ⟨none, some (.lib err)⟩
  | .ok resp =>
  let out ← (do
    let body ← ioutil.ReadAll resp.Body
    match body.err with
    | some err => return ⟨none, some (.lib err)⟩
    | none =>
    let body := body.data
    (if dbx.Config.Verbose then log.Printf "body: %s" else pure ())
    if resp.StatusCode ≠ 200 then
      if resp.StatusCode = 409 then
        let apiError ← json.UnmarshalWrapper w ReportsGetDevicesAPIError body
        match apiError.err with
        | some err => return ⟨none, some (.lib err)⟩
        | none => return ⟨none, some (.route ReportsGetDevicesAPIError apiError.target)⟩
      else
      let apiError : APIError := {}
      if resp.StatusCode = 400 then
        let apiError := { apiError with ErrorSummary := string body }
        return ⟨none, some (.api apiError)⟩
      else
      let apiError ← json.UnmarshalAPIError w body
      match apiError.err with
      | some err => return ⟨none, some (.lib err)⟩
      | none => return ⟨none, some (.api apiError.target)⟩
    else
    let res ← json.UnmarshalResult w "*GetDevicesReport" body
    match res.err with
    | some err => return ⟨res.target, some (.lib err)⟩
    | none => return ⟨res.target, none⟩)
  resp.BodyClose
  return out

/-- The wrapper type `ReportsGetMembershipAPIError` (client.go line 3652). -/
def ReportsGetMembershipAPIError : WrapperType :=
  ⟨"ReportsGetMembershipAPIError", "reports/get_membership", .ptr "DateRangeError"⟩

/-- The method `ReportsGetMembership` (client.go lines 3657 to 3723). -/
def ReportsGetMembership (w : World E U R A) (dbx : Context E) (arg : Option A) :
    StateM Trace (Ret E U R) := do
  let cli := dbx.Client
  (if dbx.Config.Verbose then log.Printf "arg: %v" else pure ())
  match w.Marshal "*DateRange" arg with
  | .error err => return ⟨none, some (.lib err)⟩
  | .ok b =>
  match http.NewRequest w "POST" (w.GenerateURL dbx.Config "api" "team" "reports/get_membership") (some b) with
  | .error err => return ⟨none, some (.lib err)⟩
  | .ok req =>
  let req := req.HeaderSet "Content-Type" "application/json"
  (if dbx.Config.Verbose then log.Printf "req: %v" else pure ())
  let r ← cli.Do req
  (if dbx.Config.Verbose then log.Printf "resp: %v" else pure ())
  match r with
  | .error err => return ⟨none, some (.lib err)⟩
  | .ok resp =>
  let out ← (do
    let body ← ioutil.ReadAll resp.Body
    match body.err with
    | some err => return ⟨none, some (.lib err)⟩
    | none =>
    let body := body.data
    (if dbx.Config.Verbose then log.Printf "body: %s" else pure ())
    if resp.StatusCode ≠ 200 then
      if resp.StatusCode = 409 then
        let apiError ← json.UnmarshalWrapper w ReportsGetMembershipAPIError body
        match apiError.err with
        | some err => return ⟨none, some (.lib err)⟩
        | none => return ⟨none, some (.route ReportsGetMembershipAPIError apiError.target)⟩
      else
      let apiError : APIError := {}
      if resp.StatusCode = 400 then
        let apiError := { apiError with ErrorSummary := string body }
        return ⟨none, some (.api apiError)⟩
      else
      let apiError ← json.UnmarshalAPIError w body
      match apiError.err with
      | some err => return ⟨none, some (.lib err)⟩
      | none => return ⟨none, some (.api apiError.target)⟩
    else
    let res ← json.UnmarshalResult w "*GetMembershipReport" body
    match res.err with
    | some err => return ⟨res.target, some (.lib err)⟩
    | none => return ⟨res.target, none⟩)
  resp.BodyClose
  return out

/-- The wrapper type `ReportsGetStorageAPIError` (client.go line 3726). -/
def ReportsGetStorageAPIError : WrapperType :=
  ⟨"ReportsGetStorageAPIError", "reports/get_storage", .ptr "DateRangeError"⟩

/-- The method `ReportsGetStorage` (client.go lines 3731 to 3797). -/
def ReportsGetStorage (w : World E U R A) (dbx : Context E) (arg : Option A) :
    StateM Trace (Ret E U R) := do
  let cli := dbx.Client
  (if dbx.Config.Verbose then log.Printf "arg: %v" else pure ())
  match w.Marshal "*DateRange" arg with
  | .error err => return ⟨none, some (.lib err)⟩
  | .ok b =>
  match http.NewRequest w "POST" (w.GenerateURL dbx.Config "api" "team" "reports/get_storage") (some b) with
  | .error err => return ⟨none, some (.lib err)⟩
  | .ok req =>
  let req := req.HeaderSet "Content-Type" "application/json"
  (if dbx.Config.Verbose then log.Printf "req: %v" else pure ())
  let r ← cli.Do req
  (if dbx.Config.Verbose then log.Printf "resp: %v" else pure ())
  match r with
  | .error err => return ⟨none, some (.lib err)⟩
  | .ok resp =>
  let out ← (do
    let body ← ioutil.ReadAll resp.Body
    match body.err with
    | some err => return ⟨none, some (.lib err)⟩
    | none =>
    let body := body.data
    (if dbx.Config.Verbose then log.Printf "body: %s" else pure ())
    if resp.StatusCode ≠ 200 then
      if resp.StatusCode = 409 then
        let apiError ← json.UnmarshalWrapper w ReportsGetStorageAPIError body
        match apiError.err with
        | some err => return ⟨none, some (.lib err)⟩
        | none => return ⟨none, some (.route ReportsGetStorageAPIError apiError.target)⟩
      else
      let apiError : APIError := {}
      if resp.StatusCode = 400 then
        let apiError := { apiError with ErrorSummary := string body }
        return ⟨none, some (.api apiError)⟩
      else
      let apiError ← json.UnmarshalAPIError w body
      match apiError.err with
      | some err => return ⟨none, some (.lib err)⟩
      | none => return ⟨none, some (.api apiError.target)⟩
    else
    let res ← json.UnmarshalResult w "*GetStorageReport" body
    match res.err with
    | some err => return ⟨res.target, some (.lib err)⟩
    | none => return ⟨res.target, none⟩)
  resp.BodyClose
  return out

/-! ## The routes of the `Client` interface -/

/-- The methods declared in the `Client` interface (client.go lines 37 to 217). -/
inductive Route where
  | AlphaGroupsCreate
  | AlphaGroupsGetInfo
  | AlphaGroupsList
  | AlphaGroupsListContinue
  | AlphaGroupsUpdate
  | DevicesListMemberDevices
  | DevicesListMembersDevices
  | DevicesListTeamDevices
  | DevicesRevokeDeviceSession
  | DevicesRevokeDeviceSessionBatch
  | GetInfo
  | GroupsCreate
  | GroupsDelete
  | GroupsGetInfo
  | GroupsJobStatusGet
  | GroupsList
  | GroupsListContinue
  | GroupsMembersAdd
  | GroupsMembersList
  | GroupsMembersListContinue
  | GroupsMembersRemove
  | GroupsMembersSetAccessType
  | GroupsUpdate
  | LinkedAppsListMemberLinkedApps
  | LinkedAppsListMembersLinkedApps
  | LinkedAppsListTeamLinkedApps
  | LinkedAppsRevokeLinkedApp
  | LinkedAppsRevokeLinkedAppBatch
  | MembersAdd
  | MembersAddJobStatusGet
  | MembersGetInfo
  | MembersList
  | MembersListContinue
  | MembersRecover
  | MembersRemove
  | MembersRemoveJobStatusGet
  | MembersSendWelcomeEmail
  | MembersSetAdminPermissions
  | MembersSetProfile
  | MembersSuspend
  | MembersUnsuspend
  | PropertiesTemplateAdd
  | PropertiesTemplateGet
  | PropertiesTemplateList
  | PropertiesTemplateUpdate
  | ReportsGetActivity
  | ReportsGetDevices
  | ReportsGetMembership
  | ReportsGetStorage
deriving DecidableEq

/-- All methods of the `Client` interface, in the order of declaration. -/
def Route.all : List Route :=
  [.AlphaGroupsCreate, .AlphaGroupsGetInfo, .AlphaGroupsList, .AlphaGroupsListContinue,
   .AlphaGroupsUpdate, .DevicesListMemberDevices, .DevicesListMembersDevices, .DevicesListTeamDevices,
   .DevicesRevokeDeviceSession, .DevicesRevokeDeviceSessionBatch, .GetInfo, .GroupsCreate,
   .GroupsDelete, .GroupsGetInfo, .GroupsJobStatusGet, .GroupsList,
   .GroupsListContinue, .GroupsMembersAdd, .GroupsMembersList, .GroupsMembersListContinue,
   .GroupsMembersRemove, .GroupsMembersSetAccessType, .GroupsUpdate, .LinkedAppsListMemberLinkedApps,
   .LinkedAppsListMembersLinkedApps, .LinkedAppsListTeamLinkedApps, .LinkedAppsRevokeLinkedApp, .LinkedAppsRevokeLinkedAppBatch,
   .MembersAdd, .MembersAddJobStatusGet, .MembersGetInfo, .MembersList,
   .MembersListContinue, .MembersRecover, .MembersRemove, .MembersRemoveJobStatusGet,
   .MembersSendWelcomeEmail, .MembersSetAdminPermissions, .MembersSetProfile, .MembersSuspend,
   .MembersUnsuspend, .PropertiesTemplateAdd, .PropertiesTemplateGet, .PropertiesTemplateList,
   .PropertiesTemplateUpdate, .ReportsGetActivity, .ReportsGetDevices, .ReportsGetMembership,
   .ReportsGetStorage]

/-- The argument type in the interface declaration of a method; `none` for a
method without argument. -/
def Route.argType : Route → Option String
  | .AlphaGroupsCreate => some "*GroupCreateArg"
  | .AlphaGroupsGetInfo => some "*GroupsSelector"
  | .AlphaGroupsList => some "*GroupsListArg"
  | .AlphaGroupsListContinue => some "*GroupsListContinueArg"
  | .AlphaGroupsUpdate => some "*GroupUpdateArgs"
  | .DevicesListMemberDevices => some "*ListMemberDevicesArg"
  | .DevicesListMembersDevices => some "*ListMembersDevicesArg"
  | .DevicesListTeamDevices => some "*ListTeamDevicesArg"
  | .DevicesRevokeDeviceSession => some "*RevokeDeviceSessionArg"
  | .DevicesRevokeDeviceSessionBatch => some "*RevokeDeviceSessionBatchArg"
  | .GetInfo => none
  | .GroupsCreate => some "*GroupCreateArg"
  | .GroupsDelete => some "*GroupSelector"
  | .GroupsGetInfo => some "*GroupsSelector"
  | .GroupsJobStatusGet => some "*async.PollArg"
  | .GroupsList => some "*GroupsListArg"
  | .GroupsListContinue => some "*GroupsListContinueArg"
  | .GroupsMembersAdd => some "*GroupMembersAddArg"
  | .GroupsMembersList => some "*GroupsMembersListArg"
  | .GroupsMembersListContinue => some "*GroupsMembersListContinueArg"
  | .GroupsMembersRemove => some "*GroupMembersRemoveArg"
  | .GroupsMembersSetAccessType => some "*GroupMembersSetAccessTypeArg"
  | .GroupsUpdate => some "*GroupUpdateArgs"
  | .LinkedAppsListMemberLinkedApps => some "*ListMemberAppsArg"
  | .LinkedAppsListMembersLinkedApps => some "*ListMembersAppsArg"
  | .LinkedAppsListTeamLinkedApps => some "*ListTeamAppsArg"
  | .LinkedAppsRevokeLinkedApp => some "*RevokeLinkedApiAppArg"
  | .LinkedAppsRevokeLinkedAppBatch => some "*RevokeLinkedApiAppBatchArg"
  | .MembersAdd => some "*MembersAddArg"
  | .MembersAddJobStatusGet => some "*async.PollArg"
  | .MembersGetInfo => some "*MembersGetInfoArgs"
  | .MembersList => some "*MembersListArg"
  | .MembersListContinue => some "*MembersListContinueArg"
  | .MembersRecover => some "*MembersRecoverArg"
  | .MembersRemove => some "*MembersRemoveArg"
  | .MembersRemoveJobStatusGet => some "*async.PollArg"
  | .MembersSendWelcomeEmail => some "*UserSelectorArg"
  | .MembersSetAdminPermissions => some "*MembersSetPermissionsArg"
  | .MembersSetProfile => some "*MembersSetProfileArg"
  | .MembersSuspend => some "*MembersDeactivateArg"
  | .MembersUnsuspend => some "*MembersUnsuspendArg"
  | .PropertiesTemplateAdd => some "*AddPropertyTemplateArg"
  | .PropertiesTemplateGet => some "*properties.GetPropertyTemplateArg"
  | .PropertiesTemplateList => none
  | .PropertiesTemplateUpdate => some "*UpdatePropertyTemplateArg"
  | .ReportsGetActivity => some "*DateRange"
  | .ReportsGetDevices => some "*DateRange"
  | .ReportsGetMembership => some "*DateRange"
  | .ReportsGetStorage => some "*DateRange"

/-- The result type in the interface declaration of a method; `none` for a
method that returns only an error. -/
def Route.resType : Route → Option String
  | .AlphaGroupsCreate => some "*GroupFullInfo"
  | .AlphaGroupsGetInfo => some "[]*GroupsGetInfoItem"
  | .AlphaGroupsList => some "*GroupsListResult"
  | .AlphaGroupsListContinue => some "*GroupsListResult"
  | .AlphaGroupsUpdate => some "*GroupFullInfo"
  | .DevicesListMemberDevices => some "*ListMemberDevicesResult"
  | .DevicesListMembersDevices => some "*ListMembersDevicesResult"
  | .DevicesListTeamDevices => some "*ListTeamDevicesResult"
  | .DevicesRevokeDeviceSession => none
  | .DevicesRevokeDeviceSessionBatch => some "*RevokeDeviceSessionBatchResult"
  | .GetInfo => some "*TeamGetInfoResult"
  | .GroupsCreate => some "*GroupFullInfo"
  | .GroupsDelete => some "*async.LaunchEmptyResult"
  | .GroupsGetInfo => some "[]*GroupsGetInfoItem"
  | .GroupsJobStatusGet => some "*async.PollEmptyResult"
  | .GroupsList => some "*GroupsListResult"
  | .GroupsListContinue => some "*GroupsListResult"
  | .GroupsMembersAdd => some "*GroupMembersChangeResult"
  | .GroupsMembersList => some "*GroupsMembersListResult"
  | .GroupsMembersListContinue => some "*GroupsMembersListResult"
  | .GroupsMembersRemove => some "*GroupMembersChangeResult"
  | .GroupsMembersSetAccessType => some "[]*GroupsGetInfoItem"
  | .GroupsUpdate => some "*GroupFullInfo"
  | .LinkedAppsListMemberLinkedApps => some "*ListMemberAppsResult"
  | .LinkedAppsListMembersLinkedApps => some "*ListMembersAppsResult"
  | .LinkedAppsListTeamLinkedApps => some "*ListTeamAppsResult"
  | .LinkedAppsRevokeLinkedApp => none
  | .LinkedAppsRevokeLinkedAppBatch => some "*RevokeLinkedAppBatchResult"
  | .MembersAdd => some "*MembersAddLaunch"
  | .MembersAddJobStatusGet => some "*MembersAddJobStatus"
  | .MembersGetInfo => some "[]*MembersGetInfoItem"
  | .MembersList => some "*MembersListResult"
  | .MembersListContinue => some "*MembersListResult"
  | .MembersRecover => none
  | .MembersRemove => some "*async.LaunchEmptyResult"
  | .MembersRemoveJobStatusGet => some "*async.PollEmptyResult"
  | .MembersSendWelcomeEmail => none
  | .MembersSetAdminPermissions => some "*MembersSetPermissionsResult"
  | .MembersSetProfile => some "*TeamMemberInfo"
  | .MembersSuspend => none
  | .MembersUnsuspend => none
  | .PropertiesTemplateAdd => some "*AddPropertyTemplateResult"
  | .PropertiesTemplateGet => some "*properties.GetPropertyTemplateResult"
  | .PropertiesTemplateList => some "*properties.ListPropertyTemplateIds"
  | .PropertiesTemplateUpdate => some "*UpdatePropertyTemplateResult"
  | .ReportsGetActivity => some "*GetActivityReport"
  | .ReportsGetDevices => some "*GetDevicesReport"
  | .ReportsGetMembership => some "*GetMembershipReport"
  | .ReportsGetStorage => some "*GetStorageReport"

/-- The wrapper type named after a method: `<Method>APIError`. -/
def Route.wrapper : Route → WrapperType
  | .AlphaGroupsCreate => AlphaGroupsCreateAPIError
  | .AlphaGroupsGetInfo => AlphaGroupsGetInfoAPIError
  | .AlphaGroupsList => AlphaGroupsListAPIError
  | .AlphaGroupsListContinue => AlphaGroupsListContinueAPIError
  | .AlphaGroupsUpdate => AlphaGroupsUpdateAPIError
  | .DevicesListMemberDevices => DevicesListMemberDevicesAPIError
  | .DevicesListMembersDevices => DevicesListMembersDevicesAPIError
  | .DevicesListTeamDevices => DevicesListTeamDevicesAPIError
  | .DevicesRevokeDeviceSession => DevicesRevokeDeviceSessionAPIError
  | .DevicesRevokeDeviceSessionBatch => DevicesRevokeDeviceSessionBatchAPIError
  | .GetInfo => GetInfoAPIError
  | .GroupsCreate => GroupsCreateAPIError
  | .GroupsDelete => GroupsDeleteAPIError
  | .GroupsGetInfo => GroupsGetInfoAPIError
  | .GroupsJobStatusGet => GroupsJobStatusGetAPIError
  | .GroupsList => GroupsListAPIError
  | .GroupsListContinue => GroupsListContinueAPIError
  | .GroupsMembersAdd => GroupsMembersAddAPIError
  | .GroupsMembersList => GroupsMembersListAPIError
  | .GroupsMembersListContinue => GroupsMembersListContinueAPIError
  | .GroupsMembersRemove => GroupsMembersRemoveAPIError
  | .GroupsMembersSetAccessType => GroupsMembersSetAccessTypeAPIError
  | .GroupsUpdate => GroupsUpdateAPIError
  | .LinkedAppsListMemberLinkedApps => LinkedAppsListMemberLinkedAppsAPIError
  | .LinkedAppsListMembersLinkedApps => LinkedAppsListMembersLinkedAppsAPIError
  | .LinkedAppsListTeamLinkedApps => LinkedAppsListTeamLinkedAppsAPIError
  | .LinkedAppsRevokeLinkedApp => LinkedAppsRevokeLinkedAppAPIError
  | .LinkedAppsRevokeLinkedAppBatch => LinkedAppsRevokeLinkedAppBatchAPIError
  | .MembersAdd => MembersAddAPIError
  | .MembersAddJobStatusGet => MembersAddJobStatusGetAPIError
  | .MembersGetInfo => MembersGetInfoAPIError
  | .MembersList => MembersListAPIError
  | .MembersListContinue => MembersListContinueAPIError
  | .MembersRecover => MembersRecoverAPIError
  | .MembersRemove => MembersRemoveAPIError
  | .MembersRemoveJobStatusGet => MembersRemoveJobStatusGetAPIError
  | .MembersSendWelcomeEmail => MembersSendWelcomeEmailAPIError
  | .MembersSetAdminPermissions => MembersSetAdminPermissionsAPIError
  | .MembersSetProfile => MembersSetProfileAPIError
  | .MembersSuspend => MembersSuspendAPIError
  | .MembersUnsuspend => MembersUnsuspendAPIError
  | .PropertiesTemplateAdd => PropertiesTemplateAddAPIError
  | .PropertiesTemplateGet => PropertiesTemplateGetAPIError
  | .PropertiesTemplateList => PropertiesTemplateListAPIError
  | .PropertiesTemplateUpdate => PropertiesTemplateUpdateAPIError
  | .ReportsGetActivity => ReportsGetActivityAPIError
  | .ReportsGetDevices => ReportsGetDevicesAPIError
  | .ReportsGetMembership => ReportsGetMembershipAPIError
  | .ReportsGetStorage => ReportsGetStorageAPIError

/-- Runs the method of a route.  An argument given to a method without argument
is ignored; a method that returns only an error has a nil result. -/
def call (r : Route) (w : World E U R A) (dbx : Context E) (arg : Option A) :
    StateM Trace (Ret E U R) :=
  match r with
  | .AlphaGroupsCreate => AlphaGroupsCreate w dbx arg
  | .AlphaGroupsGetInfo => AlphaGroupsGetInfo w dbx arg
  | .AlphaGroupsList => AlphaGroupsList w dbx arg
  | .AlphaGroupsListContinue => AlphaGroupsListContinue w dbx arg
  | .AlphaGroupsUpdate => AlphaGroupsUpdate w dbx arg
  | .DevicesListMemberDevices => DevicesListMemberDevices w dbx arg
  | .DevicesListMembersDevices => DevicesListMembersDevices w dbx arg
  | .DevicesListTeamDevices => DevicesListTeamDevices w dbx arg
  | .DevicesRevokeDeviceSession => (fun err => ⟨none, err⟩) <$> DevicesRevokeDeviceSession w dbx arg
  | .DevicesRevokeDeviceSessionBatch => DevicesRevokeDeviceSessionBatch w dbx arg
  | .GetInfo => GetInfo w dbx
  | .GroupsCreate => GroupsCreate w dbx arg
  | .GroupsDelete => GroupsDelete w dbx arg
  | .GroupsGetInfo => GroupsGetInfo w dbx arg
  | .GroupsJobStatusGet => GroupsJobStatusGet w dbx arg
  | .GroupsList => GroupsList w dbx arg
  | .GroupsListContinue => GroupsListContinue w dbx arg
  | .GroupsMembersAdd => GroupsMembersAdd w dbx arg
  | .GroupsMembersList => GroupsMembersList w dbx arg
  | .GroupsMembersListContinue => GroupsMembersListContinue w dbx arg
  | .GroupsMembersRemove => GroupsMembersRemove w dbx arg
  | .GroupsMembersSetAccessType => GroupsMembersSetAccessType w dbx arg
  | .GroupsUpdate => GroupsUpdate w dbx arg
  | .LinkedAppsListMemberLinkedApps => LinkedAppsListMemberLinkedApps w dbx arg
  | .LinkedAppsListMembersLinkedApps => LinkedAppsListMembersLinkedApps w dbx arg
  | .LinkedAppsListTeamLinkedApps => LinkedAppsListTeamLinkedApps w dbx arg
  | .LinkedAppsRevokeLinkedApp => (fun err => ⟨none, err⟩) <$> LinkedAppsRevokeLinkedApp w dbx arg
  | .LinkedAppsRevokeLinkedAppBatch => LinkedAppsRevokeLinkedAppBatch w dbx arg
  | .MembersAdd => MembersAdd w dbx arg
  | .MembersAddJobStatusGet => MembersAddJobStatusGet w dbx arg
  | .MembersGetInfo => MembersGetInfo w dbx arg
  | .MembersList => MembersList w dbx arg
  | .MembersListContinue => MembersListContinue w dbx arg
  | .MembersRecover => (fun err => ⟨none, err⟩) <$> MembersRecover w dbx arg
  | .MembersRemove => MembersRemove w dbx arg
  | .MembersRemoveJobStatusGet => MembersRemoveJobStatusGet w dbx arg
  | .MembersSendWelcomeEmail => (fun err => ⟨none, err⟩) <$> MembersSendWelcomeEmail w dbx arg
  | .MembersSetAdminPermissions => MembersSetAdminPermissions w dbx arg
  | .MembersSetProfile => MembersSetProfile w dbx arg
  | .MembersSuspend => (fun err => ⟨none, err⟩) <$> MembersSuspend w dbx arg
  | .MembersUnsuspend => (fun err => ⟨none, err⟩) <$> MembersUnsuspend w dbx arg
  | .PropertiesTemplateAdd => PropertiesTemplateAdd w dbx arg
  | .PropertiesTemplateGet => PropertiesTemplateGet w dbx arg
  | .PropertiesTemplateList => PropertiesTemplateList w dbx
  | .PropertiesTemplateUpdate => PropertiesTemplateUpdate w dbx arg
  | .ReportsGetActivity => ReportsGetActivity w dbx arg
  | .ReportsGetDevices => ReportsGetDevices w dbx arg
  | .ReportsGetMembership => ReportsGetMembership w dbx arg
  | .ReportsGetStorage => ReportsGetStorage w dbx arg
/-! ## Tables read off the method bodies and the interface comments -/

/-- The Go name of a method. -/
def Route.name : Route → String
  | .AlphaGroupsCreate => "AlphaGroupsCreate"
  | .AlphaGroupsGetInfo => "AlphaGroupsGetInfo"
  | .AlphaGroupsList => "AlphaGroupsList"
  | .AlphaGroupsListContinue => "AlphaGroupsListContinue"
  | .AlphaGroupsUpdate => "AlphaGroupsUpdate"
  | .DevicesListMemberDevices => "DevicesListMemberDevices"
  | .DevicesListMembersDevices => "DevicesListMembersDevices"
  | .DevicesListTeamDevices => "DevicesListTeamDevices"
  | .DevicesRevokeDeviceSession => "DevicesRevokeDeviceSession"
  | .DevicesRevokeDeviceSessionBatch => "DevicesRevokeDeviceSessionBatch"
  | .GetInfo => "GetInfo"
  | .GroupsCreate => "GroupsCreate"
  | .GroupsDelete => "GroupsDelete"
  | .GroupsGetInfo => "GroupsGetInfo"
  | .GroupsJobStatusGet => "GroupsJobStatusGet"
  | .GroupsList => "GroupsList"
  | .GroupsListContinue => "GroupsListContinue"
  | .GroupsMembersAdd => "GroupsMembersAdd"
  | .GroupsMembersList => "GroupsMembersList"
  | .GroupsMembersListContinue => "GroupsMembersListContinue"
  | .GroupsMembersRemove => "GroupsMembersRemove"
  | .GroupsMembersSetAccessType => "GroupsMembersSetAccessType"
  | .GroupsUpdate => "GroupsUpdate"
  | .LinkedAppsListMemberLinkedApps => "LinkedAppsListMemberLinkedApps"
  | .LinkedAppsListMembersLinkedApps => "LinkedAppsListMembersLinkedApps"
  | .LinkedAppsListTeamLinkedApps => "LinkedAppsListTeamLinkedApps"
  | .LinkedAppsRevokeLinkedApp => "LinkedAppsRevokeLinkedApp"
  | .LinkedAppsRevokeLinkedAppBatch => "LinkedAppsRevokeLinkedAppBatch"
  | .MembersAdd => "MembersAdd"
  | .MembersAddJobStatusGet => "MembersAddJobStatusGet"
  | .MembersGetInfo => "MembersGetInfo"
  | .MembersList => "MembersList"
  | .MembersListContinue => "MembersListContinue"
  | .MembersRecover => "MembersRecover"
  | .MembersRemove => "MembersRemove"
  | .MembersRemoveJobStatusGet => "MembersRemoveJobStatusGet"
  | .MembersSendWelcomeEmail => "MembersSendWelcomeEmail"
  | .MembersSetAdminPermissions => "MembersSetAdminPermissions"
  | .MembersSetProfile => "MembersSetProfile"
  | .MembersSuspend => "MembersSuspend"
  | .MembersUnsuspend => "MembersUnsuspend"
  | .PropertiesTemplateAdd => "PropertiesTemplateAdd"
  | .PropertiesTemplateGet => "PropertiesTemplateGet"
  | .PropertiesTemplateList => "PropertiesTemplateList"
  | .PropertiesTemplateUpdate => "PropertiesTemplateUpdate"
  | .ReportsGetActivity => "ReportsGetActivity"
  | .ReportsGetDevices => "ReportsGetDevices"
  | .ReportsGetMembership => "ReportsGetMembership"
  | .ReportsGetStorage => "ReportsGetStorage"

/-- The route path a method passes to `GenerateURL` (third argument of the call
in the body of the method). -/
def Route.path : Route → String
  | .AlphaGroupsCreate => "alpha/groups/create"
  | .AlphaGroupsGetInfo => "alpha/groups/get_info"
  | .AlphaGroupsList => "alpha/groups/list"
  | .AlphaGroupsListContinue => "alpha/groups/list/continue"
  | .AlphaGroupsUpdate => "alpha/groups/update"
  | .DevicesListMemberDevices => "devices/list_member_devices"
  | .DevicesListMembersDevices => "devices/list_members_devices"
  | .DevicesListTeamDevices => "devices/list_team_devices"
  | .DevicesRevokeDeviceSession => "devices/revoke_device_session"
  | .DevicesRevokeDeviceSessionBatch => "devices/revoke_device_session_batch"
  | .GetInfo => "get_info"
  | .GroupsCreate => "groups/create"
  | .GroupsDelete => "groups/delete"
  | .GroupsGetInfo => "groups/get_info"
  | .GroupsJobStatusGet => "groups/job_status/get"
  | .GroupsList => "groups/list"
  | .GroupsListContinue => "groups/list/continue"
  | .GroupsMembersAdd => "groups/members/add"
  | .GroupsMembersList => "groups/members/list"
  | .GroupsMembersListContinue => "groups/members/list/continue"
  | .GroupsMembersRemove => "groups/members/remove"
  | .GroupsMembersSetAccessType => "groups/members/set_access_type"
  | .GroupsUpdate => "groups/update"
  | .LinkedAppsListMemberLinkedApps => "linked_apps/list_member_linked_apps"
  | .LinkedAppsListMembersLinkedApps => "linked_apps/list_members_linked_apps"
  | .LinkedAppsListTeamLinkedApps => "linked_apps/list_team_linked_apps"
  | .LinkedAppsRevokeLinkedApp => "linked_apps/revoke_linked_app"
  | .LinkedAppsRevokeLinkedAppBatch => "linked_apps/revoke_linked_app_batch"
  | .MembersAdd => "members/add"
  | .MembersAddJobStatusGet => "members/add/job_status/get"
  | .MembersGetInfo => "members/get_info"
  | .MembersList => "members/list"
  | .MembersListContinue => "members/list/continue"
  | .MembersRecover => "members/recover"
  | .MembersRemove => "members/remove"
  | .MembersRemoveJobStatusGet => "members/remove/job_status/get"
  | .MembersSendWelcomeEmail => "members/send_welcome_email"
  | .MembersSetAdminPermissions => "members/set_admin_permissions"
  | .MembersSetProfile => "members/set_profile"
  | .MembersSuspend => "members/suspend"
  | .MembersUnsuspend => "members/unsuspend"
  | .PropertiesTemplateAdd => "properties/template/add"
  | .PropertiesTemplateGet => "properties/template/get"
  | .PropertiesTemplateList => "properties/template/list"
  | .PropertiesTemplateUpdate => "properties/template/update"
  | .ReportsGetActivity => "reports/get_activity"
  | .ReportsGetDevices => "reports/get_devices"
  | .ReportsGetMembership => "reports/get_membership"
  | .ReportsGetStorage => "reports/get_storage"
/-! ## The interface and its implementation, as declared -/

/-- The signature of a route method: its name, the type of its argument (if it
takes one) and the type of its result (if it returns one besides the error). -/
structure Signature where
  name : String
  arg : Option String
  res : Option String
deriving DecidableEq

/-- The methods the `Client` interface declares (client.go lines 37 to 217), in
the order of declaration. -/
def Client.methods : List Signature :=
  [⟨"AlphaGroupsCreate", some "*GroupCreateArg", some "*GroupFullInfo"⟩,
   ⟨"AlphaGroupsGetInfo", some "*GroupsSelector", some "[]*GroupsGetInfoItem"⟩,
   ⟨"AlphaGroupsList", some "*GroupsListArg", some "*GroupsListResult"⟩,
   ⟨"AlphaGroupsListContinue", some "*GroupsListContinueArg", some "*GroupsListResult"⟩,
   ⟨"AlphaGroupsUpdate", some "*GroupUpdateArgs", some "*GroupFullInfo"⟩,
   ⟨"DevicesListMemberDevices", some "*ListMemberDevicesArg", some "*ListMemberDevicesResult"⟩,
   ⟨"DevicesListMembersDevices", some "*ListMembersDevicesArg", some "*ListMembersDevicesResult"⟩,
   ⟨"DevicesListTeamDevices", some "*ListTeamDevicesArg", some "*ListTeamDevicesResult"⟩,
   ⟨"DevicesRevokeDeviceSession", some "*RevokeDeviceSessionArg", none⟩,
   ⟨"DevicesRevokeDeviceSessionBatch", some "*RevokeDeviceSessionBatchArg", some "*RevokeDeviceSessionBatchResult"⟩,
   ⟨"GetInfo", none, some "*TeamGetInfoResult"⟩,
   ⟨"GroupsCreate", some "*GroupCreateArg", some "*GroupFullInfo"⟩,
   ⟨"GroupsDelete", some "*GroupSelector", some "*async.LaunchEmptyResult"⟩,
   ⟨"GroupsGetInfo", some "*GroupsSelector", some "[]*GroupsGetInfoItem"⟩,
   ⟨"GroupsJobStatusGet", some "*async.PollArg", some "*async.PollEmptyResult"⟩,
   ⟨"GroupsList", some "*GroupsListArg", some "*GroupsListResult"⟩,
   ⟨"GroupsListContinue", some "*GroupsListContinueArg", some "*GroupsListResult"⟩,
   ⟨"GroupsMembersAdd", some "*GroupMembersAddArg", some "*GroupMembersChangeResult"⟩,
   ⟨"GroupsMembersList", some "*GroupsMembersListArg", some "*GroupsMembersListResult"⟩,
   ⟨"GroupsMembersListContinue", some "*GroupsMembersListContinueArg", some "*GroupsMembersListResult"⟩,
   ⟨"GroupsMembersRemove", some "*GroupMembersRemoveArg", some "*GroupMembersChangeResult"⟩,
   ⟨"GroupsMembersSetAccessType", some "*GroupMembersSetAccessTypeArg", some "[]*GroupsGetInfoItem"⟩,
   ⟨"GroupsUpdate", some "*GroupUpdateArgs", some "*GroupFullInfo"⟩,
   ⟨"LinkedAppsListMemberLinkedApps", some "*ListMemberAppsArg", some "*ListMemberAppsResult"⟩,
   ⟨"LinkedAppsListMembersLinkedApps", some "*ListMembersAppsArg", some "*ListMembersAppsResult"⟩,
   ⟨"LinkedAppsListTeamLinkedApps", some "*ListTeamAppsArg", some "*ListTeamAppsResult"⟩,
   ⟨"LinkedAppsRevokeLinkedApp", some "*RevokeLinkedApiAppArg", none⟩,
   ⟨"LinkedAppsRevokeLinkedAppBatch", some "*RevokeLinkedApiAppBatchArg", some "*RevokeLinkedAppBatchResult"⟩,
   ⟨"MembersAdd", some "*MembersAddArg", some "*MembersAddLaunch"⟩,
   ⟨"MembersAddJobStatusGet", some "*async.PollArg", some "*MembersAddJobStatus"⟩,
   ⟨"MembersGetInfo", some "*MembersGetInfoArgs", some "[]*MembersGetInfoItem"⟩,
   ⟨"MembersList", some "*MembersListArg", some "*MembersListResult"⟩,
   ⟨"MembersListContinue", some "*MembersListContinueArg", some "*MembersListResult"⟩,
   ⟨"MembersRecover", some "*MembersRecoverArg", none⟩,
   ⟨"MembersRemove", some "*MembersRemoveArg", some "*async.LaunchEmptyResult"⟩,
   ⟨"MembersRemoveJobStatusGet", some "*async.PollArg", some "*async.PollEmptyResult"⟩,
   ⟨"MembersSendWelcomeEmail", some "*UserSelectorArg", none⟩,
   ⟨"MembersSetAdminPermissions", some "*MembersSetPermissionsArg", some "*MembersSetPermissionsResult"⟩,
   ⟨"MembersSetProfile", some "*MembersSetProfileArg", some "*TeamMemberInfo"⟩,
   ⟨"MembersSuspend", some "*MembersDeactivateArg", none⟩,
   ⟨"MembersUnsuspend", some "*MembersUnsuspendArg", none⟩,
   ⟨"PropertiesTemplateAdd", some "*AddPropertyTemplateArg", some "*AddPropertyTemplateResult"⟩,
   ⟨"PropertiesTemplateGet", some "*properties.GetPropertyTemplateArg", some "*properties.GetPropertyTemplateResult"⟩,
   ⟨"PropertiesTemplateList", none, some "*properties.ListPropertyTemplateIds"⟩,
   ⟨"PropertiesTemplateUpdate", some "*UpdatePropertyTemplateArg", some "*UpdatePropertyTemplateResult"⟩,
   ⟨"ReportsGetActivity", some "*DateRange", some "*GetActivityReport"⟩,
   ⟨"ReportsGetDevices", some "*DateRange", some "*GetDevicesReport"⟩,
   ⟨"ReportsGetMembership", some "*DateRange", some "*GetMembershipReport"⟩,
   ⟨"ReportsGetStorage", some "*DateRange", some "*GetStorageReport"⟩]

/-- The methods declared with a receiver in the file, `func (dbx <receiver>)
<name>(...)`, in the order of declaration: the receiver type and the signature. -/
def apiImpl.methods : List (String × Signature) :=
  [("*apiImpl", ⟨"AlphaGroupsCreate", some "*GroupCreateArg", some "*GroupFullInfo"⟩),
   ("*apiImpl", ⟨"AlphaGroupsGetInfo", some "*GroupsSelector", some "[]*GroupsGetInfoItem"⟩),
   ("*apiImpl", ⟨"AlphaGroupsList", some "*GroupsListArg", some "*GroupsListResult"⟩),
   ("*apiImpl", ⟨"AlphaGroupsListContinue", some "*GroupsListContinueArg", some "*GroupsListResult"⟩),
   ("*apiImpl", ⟨"AlphaGroupsUpdate", some "*GroupUpdateArgs", some "*GroupFullInfo"⟩),
   ("*apiImpl", ⟨"DevicesListMemberDevices", some "*ListMemberDevicesArg", some "*ListMemberDevicesResult"⟩),
   ("*apiImpl", ⟨"DevicesListMembersDevices", some "*ListMembersDevicesArg", some "*ListMembersDevicesResult"⟩),
   ("*apiImpl", ⟨"DevicesListTeamDevices", some "*ListTeamDevicesArg", some "*ListTeamDevicesResult"⟩),
   ("*apiImpl", ⟨"DevicesRevokeDeviceSession", some "*RevokeDeviceSessionArg", none⟩),
   ("*apiImpl", ⟨"DevicesRevokeDeviceSessionBatch", some "*RevokeDeviceSessionBatchArg", some "*RevokeDeviceSessionBatchResult"⟩),
   ("*apiImpl", ⟨"GetInfo", none, some "*TeamGetInfoResult"⟩),
   ("*apiImpl", ⟨"GroupsCreate", some "*GroupCreateArg", some "*GroupFullInfo"⟩),
   ("*apiImpl", ⟨"GroupsDelete", some "*GroupSelector", some "*async.LaunchEmptyResult"⟩),
   ("*apiImpl", ⟨"GroupsGetInfo", some "*GroupsSelector", some "[]*GroupsGetInfoItem"⟩),
   ("*apiImpl", ⟨"GroupsJobStatusGet", some "*async.PollArg", some "*async.PollEmptyResult"⟩),
   ("*apiImpl", ⟨"GroupsList", some "*GroupsListArg", some "*GroupsListResult"⟩),
   ("*apiImpl", ⟨"GroupsListContinue", some "*GroupsListContinueArg", some "*GroupsListResult"⟩),
   ("*apiImpl", ⟨"GroupsMembersAdd", some "*GroupMembersAddArg", some "*GroupMembersChangeResult"⟩),
   ("*apiImpl", ⟨"GroupsMembersList", some "*GroupsMembersListArg", some "*GroupsMembersListResult"⟩),
   ("*apiImpl", ⟨"GroupsMembersListContinue", some "*GroupsMembersListContinueArg", some "*GroupsMembersListResult"⟩),
   ("*apiImpl", ⟨"GroupsMembersRemove", some "*GroupMembersRemoveArg", some "*GroupMembersChangeResult"⟩),
   ("*apiImpl", ⟨"GroupsMembersSetAccessType", some "*GroupMembersSetAccessTypeArg", some "[]*GroupsGetInfoItem"⟩),
   ("*apiImpl", ⟨"GroupsUpdate", some "*GroupUpdateArgs", some "*GroupFullInfo"⟩),
   ("*apiImpl", ⟨"LinkedAppsListMemberLinkedApps", some "*ListMemberAppsArg", some "*ListMemberAppsResult"⟩),
   ("*apiImpl", ⟨"LinkedAppsListMembersLinkedApps", some "*ListMembersAppsArg", some "*ListMembersAppsResult"⟩),
   ("*apiImpl", ⟨"LinkedAppsListTeamLinkedApps", some "*ListTeamAppsArg", some "*ListTeamAppsResult"⟩),
   ("*apiImpl", ⟨"LinkedAppsRevokeLinkedApp", some "*RevokeLinkedApiAppArg", none⟩),
   ("*apiImpl", ⟨"LinkedAppsRevokeLinkedAppBatch", some "*RevokeLinkedApiAppBatchArg", some "*RevokeLinkedAppBatchResult"⟩),
   ("*apiImpl", ⟨"MembersAdd", some "*MembersAddArg", some "*MembersAddLaunch"⟩),
   ("*apiImpl", ⟨"MembersAddJobStatusGet", some "*async.PollArg", some "*MembersAddJobStatus"⟩),
   ("*apiImpl", ⟨"MembersGetInfo", some "*MembersGetInfoArgs", some "[]*MembersGetInfoItem"⟩),
   ("*apiImpl", ⟨"MembersList", some "*MembersListArg", some "*MembersListResult"⟩),
   ("*apiImpl", ⟨"MembersListContinue", some "*MembersListContinueArg", some "*MembersListResult"⟩),
   ("*apiImpl", ⟨"MembersRecover", some "*MembersRecoverArg", none⟩),
   ("*apiImpl", ⟨"MembersRemove", some "*MembersRemoveArg", some "*async.LaunchEmptyResult"⟩),
   ("*apiImpl", ⟨"MembersRemoveJobStatusGet", some "*async.PollArg", some "*async.PollEmptyResult"⟩),
   ("*apiImpl", ⟨"MembersSendWelcomeEmail", some "*UserSelectorArg", none⟩),
   ("*apiImpl", ⟨"MembersSetAdminPermissions", some "*MembersSetPermissionsArg", some "*MembersSetPermissionsResult"⟩),
   ("*apiImpl", ⟨"MembersSetProfile", some "*MembersSetProfileArg", some "*TeamMemberInfo"⟩),
   ("*apiImpl", ⟨"MembersSuspend", some "*MembersDeactivateArg", none⟩),
   ("*apiImpl", ⟨"MembersUnsuspend", some "*MembersUnsuspendArg", none⟩),
   ("*apiImpl", ⟨"PropertiesTemplateAdd", some "*AddPropertyTemplateArg", some "*AddPropertyTemplateResult"⟩),
   ("*apiImpl", ⟨"PropertiesTemplateGet", some "*properties.GetPropertyTemplateArg", some "*properties.GetPropertyTemplateResult"⟩),
   ("*apiImpl", ⟨"PropertiesTemplateList", none, some "*properties.ListPropertyTemplateIds"⟩),
   ("*apiImpl", ⟨"PropertiesTemplateUpdate", some "*UpdatePropertyTemplateArg", some "*UpdatePropertyTemplateResult"⟩),
   ("*apiImpl", ⟨"ReportsGetActivity", some "*DateRange", some "*GetActivityReport"⟩),
   ("*apiImpl", ⟨"ReportsGetDevices", some "*DateRange", some "*GetDevicesReport"⟩),
   ("*apiImpl", ⟨"ReportsGetMembership", some "*DateRange", some "*GetMembershipReport"⟩),
   ("*apiImpl", ⟨"ReportsGetStorage", some "*DateRange", some "*GetStorageReport"⟩)]

/-- The result type of `New` (client.go line 3800). -/
def New.resultType : String := "*apiImpl"

/-- The signature the embedding uses for a route: the types its method encodes
and decodes. -/
def Route.signature (r : Route) : Signature :=
  ⟨r.name, r.argType, r.resType⟩
/-- The listing methods with their continuation methods, as the interface
comments pair them ("Once a cursor has been retrieved from `groupsList`, use
this to paginate", client.go lines 46, 84, 95 and 152). -/
def Route.continuations : List (Route × Route) :=
  [(.AlphaGroupsList, .AlphaGroupsListContinue),
   (.GroupsList, .GroupsListContinue),
   (.GroupsMembersList, .GroupsMembersListContinue),
   (.MembersList, .MembersListContinue)]

/-- Whether an event is an invocation of the transport. -/
def Event.isDo : Event → Bool
  | .Do _ => true
  | _ => false

/-- The number of times the transport was invoked in a trace. -/
def countDo (t : Trace) : Nat :=
  t.countP Event.isDo

/-- JSON insignificant whitespace (RFC 8259): space, tab, line feed, carriage
return. -/
def isJSONSpace (c : UInt8) : Bool :=
  c = 32 || c = 9 || c = 10 || c = 13

/-- Whether a JSON text starts, after whitespace, with the opening brace of an
object.  Every JSON object does. -/
def beginsObject (b : Bytes) : Bool :=
  match b.dropWhile isJSONSpace with
  | c :: _ => c = 123
  | [] => false

/-- Whether an event is a log line. -/
def Event.isPrintf : Event → Bool
  | .Printf _ => true
  | _ => false

/-- The number of times a response body was closed in a trace. -/
def countClose (t : Trace) : Nat :=
  t.count Event.Close

/-- The three poll methods. -/
def Route.polls : List Route :=
  [.GroupsJobStatusGet, .MembersAddJobStatusGet, .MembersRemoveJobStatusGet]

/-- What distinguishes one route method from another: the route path, the type
of the argument that is encoded (if there is one), the type of the result that
is decoded (if there is one) and the wrapper type decoded on status 409. -/
structure Descriptor where
  path : String
  argType : Option String
  resType : Option String
  wrapper : WrapperType
deriving DecidableEq

/-- The descriptor of a route, read off the interface declaration of the method
and the wrapper type named after it. -/
def Route.descriptor (r : Route) : Descriptor :=
  ⟨r.wrapper.route, r.argType, r.resType, r.wrapper⟩

section Generic

variable {β : Type}

/-- The common tail of the route methods: what is done with the bytes of the
response body once they are read.  `mk` builds the return value of the method
from the named results `res` and `err`. -/
def interpret (mk : Option R → Option (Err E U) → β) (d : Descriptor) (w : World E U R A)
    (dbx : Context E) (resp : Response E) (body : Bytes) : StateM Trace β := do
  (if dbx.Config.Verbose then log.Printf "body: %s" else pure ())
  if resp.StatusCode ≠ 200 then
    if resp.StatusCode = 409 then
      let apiError ← json.UnmarshalWrapper w d.wrapper body
      match apiError.err with
      | some err => return mk none (some (.lib err))
      | none => return mk none (some (.route d.wrapper apiError.target))
    else
    let apiError : APIError := {}
    if resp.StatusCode = 400 then
      let apiError := { apiError with ErrorSummary := string body }
      return mk none (some (.api apiError))
    else
    let apiError ← json.UnmarshalAPIError w body
    match apiError.err with
    | some err => return mk none (some (.lib err))
    | none => return mk none (some (.api apiError.target))
  else
  match d.resType with
  | none => return mk none none
  | some type =>
  let res ← json.UnmarshalResult w type body
  match res.err with
  | some err => return mk res.target (some (.lib err))
  | none => return mk res.target none

/-- The common middle of the route methods: send the request, read the body,
interpret it, close the body. -/
def send (mk : Option R → Option (Err E U) → β) (d : Descriptor) (w : World E U R A)
    (dbx : Context E) (req : Request) : StateM Trace β := do
  let cli := dbx.Client
  (if dbx.Config.Verbose then log.Printf "req: %v" else pure ())
  let r ← cli.Do req
  (if dbx.Config.Verbose then log.Printf "resp: %v" else pure ())
  match r with
  | .error err => return mk none (some (.lib err))
  | .ok resp =>
  let out ← (do
    let body ← ioutil.ReadAll resp.Body
    match body.err with
    | some err => return mk none (some (.lib err))
    | none => interpret mk d w dbx resp body.data)
  resp.BodyClose
  return out

/-- One dispatch function for all routes, driven by a descriptor. -/
def dispatch (mk : Option R → Option (Err E U) → β) (d : Descriptor) (w : World E U R A)
    (dbx : Context E) (arg : Option A) : StateM Trace β :=
  match d.argType with
  | some type => do
    (if dbx.Config.Verbose then log.Printf "arg: %v" else pure ())
    match w.Marshal type arg with
    | .error err => return mk none (some (.lib err))
    | .ok b =>
    match http.NewRequest w "POST" (w.GenerateURL dbx.Config "api" "team" d.path) (some b) with
    | .error err => return mk none (some (.lib err))
    | .ok req =>
    let req := req.HeaderSet "Content-Type" "application/json"
    send mk d w dbx req
  | none => do
    match http.NewRequest w "POST" (w.GenerateURL dbx.Config "api" "team" d.path) none with
    | .error err => return mk none (some (.lib err))
    | .ok req => send mk d w dbx req

end Generic

/-- Runs a computation from the empty trace: the returned value and the trace
of the library calls made. -/
def run {α : Type} (m : StateM Trace α) : α × Trace :=
  StateT.run m []

/-! ## The outcome of a call in closed form -/

/-- The log line written when `Verbose` is set. -/
def vlog (verbose : Bool) (format : String) : Trace :=
  if verbose then [Event.Printf format] else []

/-- The request a route method builds, or the error that stops it before the
transport is reached. -/
def buildRequest (d : Descriptor) (w : World E U R A) (cfg : Config) (arg : Option A) :
    Except E Request :=
  match d.argType with
  | some type =>
    match w.Marshal type arg with
    | .error err => .error err
    | .ok b =>
      match http.NewRequest w "POST" (w.GenerateURL cfg "api" "team" d.path) (some b) with
      | .error err => .error err
      | .ok req => .ok (req.HeaderSet "Content-Type" "application/json")
  | none => http.NewRequest w "POST" (w.GenerateURL cfg "api" "team" d.path) none

/-- The named results after the status switch, for a body that was read. -/
def statusRet (d : Descriptor) (w : World E U R A) (status : Int) (body : Bytes) : Ret E U R :=
  if status ≠ 200 then
    if status = 409 then
      match (w.UnmarshalWrapper d.wrapper body).err with
      | some err => ⟨none, some (.lib err)⟩
      | none => ⟨none, some (.route d.wrapper (w.UnmarshalWrapper d.wrapper body).target)⟩
    else if status = 400 then
      ⟨none, some (.api { ErrorSummary := string body })⟩
    else
      match (w.UnmarshalAPIError body).err with
      | some err => ⟨none, some (.lib err)⟩
      | none => ⟨none, some (.api (w.UnmarshalAPIError body).target)⟩
  else
    match d.resType with
    | none => ⟨none, none⟩
    | some type =>
      match (w.UnmarshalResult type body).err with
      | some err => ⟨(w.UnmarshalResult type body).target, some (.lib err)⟩
      | none => ⟨(w.UnmarshalResult type body).target, none⟩

/-- The decoding done in the status switch. -/
def statusEvents (d : Descriptor) (status : Int) : Trace :=
  if status ≠ 200 then
    if status = 409 then [Event.Unmarshal (.wrapper d.wrapper)]
    else if status = 400 then []
    else [Event.Unmarshal .APIError]
  else
    match d.resType with
    | none => []
    | some type => [Event.Unmarshal (.result type)]

/-- The named results for a response the transport returned. -/
def responseRet (d : Descriptor) (w : World E U R A) (resp : Response E) : Ret E U R :=
  match resp.Body.err with
  | some err => ⟨none, some (.lib err)⟩
  | none => statusRet d w resp.StatusCode resp.Body.data

/-- The library calls made for a response the transport returned. -/
def responseEvents (d : Descriptor) (verbose : Bool) (resp : Response E) : Trace :=
  [Event.ReadAll] ++
    (match resp.Body.err with
     | some _ => []
     | none => vlog verbose "body: %s" ++ statusEvents d resp.StatusCode) ++
    [Event.Close]

/-- The named results once the request is built. -/
def sendRet (d : Descriptor) (w : World E U R A) (dbx : Context E) (req : Request) : Ret E U R :=
  match dbx.Client.Transport req with
  | .error err => ⟨none, some (.lib err)⟩
  | .ok resp => responseRet d w resp

/-- The library calls made once the request is built. -/
def sendEvents (d : Descriptor) (dbx : Context E) (req : Request) : Trace :=
  vlog dbx.Config.Verbose "req: %v" ++ [Event.Do req] ++ vlog dbx.Config.Verbose "resp: %v" ++
    (match dbx.Client.Transport req with
     | .error _ => []
     | .ok resp => responseEvents d dbx.Config.Verbose resp)

/-- The named results `(res, err)` of a call, in closed form. -/
def callRet (d : Descriptor) (w : World E U R A) (dbx : Context E) (arg : Option A) : Ret E U R :=
  match buildRequest d w dbx.Config arg with
  | .error err => ⟨none, some (.lib err)⟩
  | .ok req => sendRet d w dbx req

/-- The trace of a call, in closed form. -/
def callEvents (d : Descriptor) (w : World E U R A) (dbx : Context E) (arg : Option A) : Trace :=
  (match d.argType with
   | some _ => vlog dbx.Config.Verbose "arg: %v"
   | none => []) ++
    (match buildRequest d w dbx.Config arg with
     | .error _ => []
     | .ok req => sendEvents d dbx req)

/-! ## JSON texts and the decoding of the error envelopes

The route methods hand the body of a failed call to `json.Unmarshal`.  What that
call does with a body is fixed by `encoding/json` and by the declarations of the
targets, all outside this file.  The definitions of this section describe it for
the two kinds of target the methods use on the error paths, `dropbox.APIError`
and the route wrappers, so that statements about bodies of a given shape can be
made. -/

/-- Modelled from the spec: the bodies of the error responses are JSON values
(section 6).  A number keeps its text, a string holds the bytes it denotes, an
object keeps its members in the order of the text, duplicates included. -/
inductive JSON where
  | null
  | bool (b : Bool)
  | num (text : Bytes)
  | str (s : GoString)
  | arr (items : List JSON)
  | obj (members : List (GoString × JSON))

namespace JSON

/-- Drops leading insignificant whitespace. -/
def skip (input : Bytes) : Bytes :=
  input.dropWhile isJSONSpace

/-- Reads the bytes of `word` from the front of the input; the rest. -/
def expect : Bytes → Bytes → Option Bytes
  | [], input => some input
  | _ :: _, [] => none
  | c :: word, d :: input => if c = d then expect word input else none

/-- The value of a hexadecimal digit. -/
def hexDigit (c : UInt8) : Option Nat :=
  if 48 ≤ c.toNat ∧ c.toNat ≤ 57 then some (c.toNat - 48)
  else if 97 ≤ c.toNat ∧ c.toNat ≤ 102 then some (c.toNat - 87)
  else if 65 ≤ c.toNat ∧ c.toNat ≤ 70 then some (c.toNat - 55)
  else none

/-- Reads four hexadecimal digits: their value and the rest. -/
def hex4 : Bytes → Option (Nat × Bytes)
  | a :: b :: c :: d :: rest =>
    match hexDigit a, hexDigit b, hexDigit c, hexDigit d with
    | some a, some b, some c, some d => some (((a * 16 + b) * 16 + c) * 16 + d, rest)
    | _, _, _, _ => none
  | _ => none

/-- The UTF-8 encoding of a code point below `0x110000`. -/
def utf8 (n : Nat) : Bytes :=
  if n < 128 then [UInt8.ofNat n]
  else if n < 2048 then [UInt8.ofNat (192 + n / 64), UInt8.ofNat (128 + n % 64)]
  else if n < 65536 then
    [UInt8.ofNat (224 + n / 4096), UInt8.ofNat (128 + n / 64 % 64), UInt8.ofNat (128 + n % 64)]
  else
    [UInt8.ofNat (240 + n / 262144), UInt8.ofNat (128 + n / 4096 % 64),
     UInt8.ofNat (128 + n / 64 % 64), UInt8.ofNat (128 + n % 64)]

/-- The UTF-8 encoding of U+FFFD, which the decoder writes for what is not a
character. -/
def replacement : Bytes := [239, 191, 189]

/-- Whether a byte is a UTF-8 continuation byte. -/
def isContinuation (c : UInt8) : Bool :=
  128 ≤ c.toNat && c.toNat ≤ 191

/-- The bounds of the second byte of a UTF-8 sequence, by its first byte. -/
def secondByte (a : UInt8) : Nat × Nat :=
  if a = 224 then (160, 191)
  else if a = 237 then (128, 159)
  else if a = 240 then (144, 191)
  else if a = 244 then (128, 143)
  else (128, 191)

/-- Reads one well-formed UTF-8 sequence of two to four bytes: its bytes and the
rest. -/
def rune : Bytes → Option (Bytes × Bytes)
  | a :: b :: rest =>
    if (secondByte a).1 ≤ b.toNat ∧ b.toNat ≤ (secondByte a).2 then
      if 194 ≤ a.toNat ∧ a.toNat ≤ 223 then some ([a, b], rest)
      else
        match rest with
        | c :: rest =>
          if isContinuation c then
            if 224 ≤ a.toNat ∧ a.toNat ≤ 239 then some ([a, b, c], rest)
            else
              match rest with
              | d :: rest =>
                if isContinuation d ∧ 240 ≤ a.toNat ∧ a.toNat ≤ 244 then some ([a, b, c, d], rest)
                else none
              | [] => none
          else none
        | [] => none
    else none
  | _ => none

/-- The byte a one-letter escape stands for. -/
def escape (c : UInt8) : Option UInt8 :=
  if c = 34 then some 34
  else if c = 92 then some 92
  else if c = 47 then some 47
  else if c = 98 then some 8
  else if c = 102 then some 12
  else if c = 110 then some 10
  else if c = 114 then some 13
  else if c = 116 then some 9
  else none

/-- Reads the low half of a surrogate pair, written `\uXXXX`, that follows the
high half `hi`: the code point of the pair and the rest. -/
def pair (hi : Nat) (input : Bytes) : Option (Nat × Bytes) :=
  match input with
  | b :: u :: rest =>
    if b = 92 ∧ u = 117 ∧ hi < 56320 then
      match hex4 rest with
      | some (lo, rest) =>
        if 56320 ≤ lo ∧ lo < 57344 then some (65536 + (hi - 55296) * 1024 + (lo - 56320), rest)
        else none
      | none => none
    else none
  | _ => none

/-- Puts bytes in front of the string that is read next. -/
def more (bytes : Bytes) (next : Option (GoString × Bytes)) : Option (GoString × Bytes) :=
  next.map (fun p => (bytes ++ p.1, p.2))

/-- Reads a string after its opening quote, up to and including the closing
quote: the bytes the string denotes, and the rest.  Control characters are not
allowed; an escape `\uXXXX` stands for the UTF-8 encoding of its code point, two
of them for a surrogate pair; a lone surrogate and a byte sequence that is not
UTF-8 are replaced by U+FFFD. -/
def chars : Nat → Bytes → Option (GoString × Bytes)
  | 0, _ => none
  | _ + 1, [] => none
  | fuel + 1, c :: rest =>
    if c = 34 then some ([], rest)
    else if c = 92 then
      match rest with
      | [] => none
      | e :: rest =>
        if e = 117 then
          match hex4 rest with
          | none => none
          | some (n, rest) =>
            if 55296 ≤ n ∧ n < 57344 then
              match pair n rest with
              | some (p, rest) => more (utf8 p) (chars fuel rest)
              | none => more replacement (chars fuel rest)
            else more (utf8 n) (chars fuel rest)
        else
          match escape e with
          | none => none
          | some b => more [b] (chars fuel rest)
    else if c.toNat < 32 then none
    else if c.toNat < 128 then more [c] (chars fuel rest)
    else
      match rune (c :: rest) with
      | some (bytes, rest) => more bytes (chars fuel rest)
      | none => more replacement (chars fuel rest)

/-- Whether a byte is a decimal digit. -/
def isDigit (c : UInt8) : Bool :=
  48 ≤ c.toNat && c.toNat ≤ 57

/-- Reads one or more digits. -/
def digits (input : Bytes) : Option (Bytes × Bytes) :=
  match input.span isDigit with
  | ([], _) => none
  | p => some p

/-- Reads the integer part of a number: a single `0`, or digits that do not start
with `0`. -/
def integer (input : Bytes) : Option (Bytes × Bytes) :=
  match input with
  | c :: rest => if c = 48 then some ([48], rest) else digits input
  | [] => none

/-- Reads the optional fraction of a number. -/
def fraction (input : Bytes) : Option (Bytes × Bytes) :=
  match input with
  | c :: rest =>
    if c = 46 then (digits rest).map (fun p => (c :: p.1, p.2)) else some ([], input)
  | [] => some ([], [])

/-- Reads the optional exponent of a number. -/
def exponent (input : Bytes) : Option (Bytes × Bytes) :=
  match input with
  | c :: rest =>
    if c = 101 ∨ c = 69 then
      match rest with
      | s :: rest2 =>
        if s = 43 ∨ s = 45 then (digits rest2).map (fun p => (c :: s :: p.1, p.2))
        else (digits rest).map (fun p => (c :: p.1, p.2))
      | [] => none
    else some ([], input)
  | [] => some ([], [])

/-- Reads a number: its text and the rest. -/
def number (input : Bytes) : Option (Bytes × Bytes) :=
  let signed : Bytes × Bytes :=
    match input with
    | c :: rest => if c = 45 then ([c], rest) else ([], input)
    | [] => ([], [])
  match integer signed.2 with
  | none => none
  | some (i, rest) =>
    match fraction rest with
    | none => none
    | some (f, rest) =>
      match exponent rest with
      | none => none
      | some (e, rest) => some (signed.1 ++ i ++ f ++ e, rest)

mutual

/-- Reads one JSON value, after whitespace: the value and the rest.  The first
argument bounds the number of values read inside it. -/
def value : Nat → Bytes → Option (JSON × Bytes)
  | 0, _ => none
  | fuel + 1, input =>
    match skip input with
    | [] => none
    | c :: rest =>
      if c = 110 then (expect [117, 108, 108] rest).map (fun r => (.null, r))
      else if c = 116 then (expect [114, 117, 101] rest).map (fun r => (.bool true, r))
      else if c = 102 then (expect [97, 108, 115, 101] rest).map (fun r => (.bool false, r))
      else if c = 34 then (chars (rest.length + 1) rest).map (fun p => (.str p.1, p.2))
      else if c = 91 then
        match skip rest with
        | [] => none
        | d :: rest2 =>
          if d = 93 then some (.arr [], rest2)
          else (elements fuel rest).map (fun p => (.arr p.1, p.2))
      else if c = 123 then
        match skip rest with
        | [] => none
        | d :: rest2 =>
          if d = 125 then some (.obj [], rest2)
          else (members fuel rest).map (fun p => (.obj p.1, p.2))
      else (number (c :: rest)).map (fun p => (.num p.1, p.2))

/-- Reads the values of a non-empty array after its opening bracket, up to and
including the closing bracket. -/
def elements : Nat → Bytes → Option (List JSON × Bytes)
  | 0, _ => none
  | fuel + 1, input =>
    match value fuel input with
    | none => none
    | some (x, rest) =>
      match skip rest with
      | [] => none
      | c :: rest =>
        if c = 44 then (elements fuel rest).map (fun p => (x :: p.1, p.2))
        else if c = 93 then some ([x], rest)
        else none

/-- Reads the members of a non-empty object after its opening brace, up to and
including the closing brace. -/
def members : Nat → Bytes → Option (List (GoString × JSON) × Bytes)
  | 0, _ => none
  | fuel + 1, input =>
    match skip input with
    | [] => none
    | q :: rest =>
      if q = 34 then
        match chars (rest.length + 1) rest with
        | none => none
        | some (key, rest) =>
          match skip rest with
          | [] => none
          | c :: rest =>
            if c = 58 then
              match value fuel rest with
              | none => none
              | some (x, rest) =>
                match skip rest with
                | [] => none
                | d :: rest =>
                  if d = 44 then (members fuel rest).map (fun p => ((key, x) :: p.1, p.2))
                  else if d = 125 then some ([(key, x)], rest)
                  else none
            else none
      else none

end

/-- Modelled from the spec: the bodies are JSON texts (section 6).  This is the
grammar of RFC 8259 as `encoding/json` reads it: one value with whitespace around
it and nothing else; `none` for a text that is not JSON. -/
def parse (body : Bytes) : Option JSON :=
  match value (2 * body.length + 2) body with
  | none => none
  | some (x, rest) =>
    match skip rest with
    | [] => some x
    | _ :: _ => none

end JSON

/-- The bytes of the member name `error_summary`. -/
def Key.errorSummary : GoString :=
  [101, 114, 114, 111, 114, 95, 115, 117, 109, 109, 97, 114, 121]

/-- The bytes of the member name `user_message`. -/
def Key.userMessage : GoString :=
  [117, 115, 101, 114, 95, 109, 101, 115, 115, 97, 103, 101]

/-- The bytes of the member name `error`, the JSON name of the `EndpointError`
field of every route wrapper. -/
def Key.error : GoString := [101, 114, 114, 111, 114]

/-- The bytes of the member name `text`. -/
def Key.text : GoString := [116, 101, 120, 116]

/-- The bytes of the member name `locale`. -/
def Key.locale : GoString := [108, 111, 99, 97, 108, 101]

/-- The upper-case form of an ASCII letter; any other byte is left as it is. -/
def upper (c : UInt8) : UInt8 :=
  if 97 ≤ c.toNat ∧ c.toNat ≤ 122 then UInt8.ofNat (c.toNat - 32) else c

/-- Whether a byte is an ASCII letter. -/
def isLetter (c : UInt8) : Bool :=
  65 ≤ (upper c).toNat && (upper c).toNat ≤ 90

/-- Whether the key of an object member selects the field with the JSON name
`name` (ASCII): the bytes are equal, or differ only in the case of ASCII letters;
for an `s` of the name the key may have U+017F (bytes `C5 BF`), for a `k` U+212A
(bytes `E2 84 AA`).  This is the matching of `encoding/json`. -/
def equalFold : Bytes → Bytes → Bool
  | [], [] => true
  | [], _ :: _ => false
  | _ :: _, [] => false
  | s :: name, t :: key =>
    if t.toNat < 128 then
      (s = t || (isLetter s && upper s = upper t)) && equalFold name key
    else if upper s = 83 then
      match t :: key with
      | 197 :: 191 :: key => equalFold name key
      | _ => false
    else if upper s = 75 then
      match t :: key with
      | 226 :: 132 :: 170 :: key => equalFold name key
      | _ => false
    else false

/-- The members of the error envelope that the targets have a field for. -/
inductive Field where
  | ErrorSummary
  | UserMessage
  | EndpointError
deriving DecidableEq

/-- The field of `dropbox.APIError` that a key selects, if any. -/
def Field.ofAPIError (key : GoString) : Option Field :=
  if equalFold Key.errorSummary key then some .ErrorSummary
  else if equalFold Key.userMessage key then some .UserMessage
  else none

/-- The field of a route wrapper that a key selects, if any: those of the
embedded `dropbox.APIError`, and `EndpointError` under the name `error`. -/
def Field.ofWrapper (key : GoString) : Option Field :=
  if equalFold Key.error key then some .EndpointError else Field.ofAPIError key

/-- The first error met is the one the decoder reports. -/
def firstError {E : Type} (saved new : Option E) : Option E :=
  match saved with
  | some e => some e
  | none => new

/-- Modelled from the spec: what decoding the error envelopes (sections 4.1
and 6) needs besides the JSON grammar.  `malformed` is the error reported for a
body that is not a JSON text, `mismatch` the one for a JSON value that does not
fit its target, and `union name` is the decoding method of the error union
`name`, declared with the union outside this file: the union value it leaves
behind and its error. -/
structure Codec (E U : Type) where
  malformed : E
  mismatch : E
  union : String → JSON → U × Option E

namespace Codec

variable {E U : Type}

/-- Decoding into a string field: a JSON string is stored, `null` changes
nothing, any other value is a type error and changes nothing. -/
def text (c : Codec E U) (x : JSON) (cur : GoString) : GoString × Option E :=
  match x with
  | .str s => (s, none)
  | .null => (cur, none)
  | _ => (cur, some c.mismatch)

/-- Decoding the members of a `user_message` object into its two strings. -/
def messageMembers (c : Codec E U) :
    List (GoString × JSON) → GoString × GoString → Option E → (GoString × GoString) × Option E
  | [], cur, saved => (cur, saved)
  | (key, x) :: rest, cur, saved =>
    if equalFold Key.text key then
      messageMembers c rest ((c.text x cur.1).1, cur.2) (firstError saved (c.text x cur.1).2)
    else if equalFold Key.locale key then
      messageMembers c rest (cur.1, (c.text x cur.2).1) (firstError saved (c.text x cur.2).2)
    else messageMembers c rest cur saved

/-- Modelled from the spec: decoding the member `user_message`, which is `null`
or an object with the strings `text` and `locale` (section 6): `null` clears the
field, an object fills it, any other value is a type error. -/
def message (c : Codec E U) (x : JSON) (cur : Option (GoString × GoString)) :
    Option (GoString × GoString) × Option E :=
  match x with
  | .null => (none, none)
  | .obj ms =>
    (some (c.messageMembers ms (cur.getD ([], [])) none).1,
     (c.messageMembers ms (cur.getD ([], [])) none).2)
  | _ => (some (cur.getD ([], [])), some c.mismatch)

/-- Decoding one member into a `dropbox.APIError`. -/
def apiErrorMember (c : Codec E U) (f : Field) (x : JSON) (a : APIError) : APIError × Option E :=
  match f with
  | .ErrorSummary => ({ a with ErrorSummary := (c.text x a.ErrorSummary).1 }, (c.text x a.ErrorSummary).2)
  | .UserMessage => ({ a with UserMessage := (c.message x a.UserMessage).1 }, (c.message x a.UserMessage).2)
  | .EndpointError => (a, none)

/-- Decoding the members of an object into a `dropbox.APIError`, in the order of
the text; members without a field are skipped, a type error does not stop the
decoding. -/
def apiErrorMembers (c : Codec E U) :
    List (GoString × JSON) → APIError → Option E → Decoded APIError E
  | [], a, saved => ⟨a, saved⟩
  | (key, x) :: rest, a, saved =>
    match Field.ofAPIError key with
    | some f => apiErrorMembers c rest (c.apiErrorMember f x a).1 (firstError saved (c.apiErrorMember f x a).2)
    | none => apiErrorMembers c rest a saved

/-- Modelled from the spec: `json.Unmarshal` of a body into a zero
`dropbox.APIError`, for the generic envelope `error_summary`, `user_message` of
section 6.  A body that is not JSON is an error and leaves the target as it is;
`null` is accepted and changes nothing; an object is decoded member by member;
any other value is a type error. -/
def UnmarshalAPIError (c : Codec E U) (body : Bytes) : Decoded APIError E :=
  match JSON.parse body with
  | none => ⟨{}, some c.malformed⟩
  | some .null => ⟨{}, none⟩
  | some (.obj ms) => c.apiErrorMembers ms {} none
  | some _ => ⟨{}, some c.mismatch⟩

/-- The zero value of an `EndpointError` field: the nil pointer, or the empty
struct. -/
def zero : (f : EndpointErrorField) → f.Value U
  | .ptr _ => none
  | .emptyStruct => ()

/-- Modelled from the spec: decoding the member `error` into the `EndpointError`
field of a wrapper (the route-specific tagged union, or the empty object, of
section 6).  Into an empty struct an object of any content and `null` are
accepted and any other value is a type error.  Into a pointer to a union `null`
stores nil and any other value is handed to the decoding method of the union. -/
def endpoint (c : Codec E U) : (f : EndpointErrorField) → JSON → f.Value U × Option E
  | .emptyStruct, x =>
    ((), match x with
         | .obj _ => none
         | .null => none
         | _ => some c.mismatch)
  | .ptr name, x =>
    match x with
    | .null => (none, none)
    | x => (some (c.union name x).1, (c.union name x).2)

/-- Whether the decoding stops at an error of the member `error`: an error of
the decoding method of a union stops it, a type error does not. -/
def stops : EndpointErrorField → Bool
  | .ptr _ => true
  | .emptyStruct => false

/-- Decoding the members of an object into a route wrapper, in the order of the
text. -/
def wrapperMembers (c : Codec E U) (T : WrapperType) :
    List (GoString × JSON) → WrapperValue U T → Option E → Decoded (WrapperValue U T) E
  | [], v, saved => ⟨v, saved⟩
  | (key, x) :: rest, v, saved =>
    match Field.ofWrapper key with
    | some .EndpointError =>
      if stops T.EndpointError ∧ (c.endpoint T.EndpointError x).2.isSome then
        ⟨⟨v.APIError, (c.endpoint T.EndpointError x).1⟩, (c.endpoint T.EndpointError x).2⟩
      else
        wrapperMembers c T rest ⟨v.APIError, (c.endpoint T.EndpointError x).1⟩
          (firstError saved (c.endpoint T.EndpointError x).2)
    | some f =>
      wrapperMembers c T rest ⟨(c.apiErrorMember f x v.APIError).1, v.EndpointError⟩
        (firstError saved (c.apiErrorMember f x v.APIError).2)
    | none => wrapperMembers c T rest v saved

/-- Modelled from the spec: `json.Unmarshal` of a body into a zero value of a
route wrapper, for the envelope `error_summary`, `user_message`, `error` of
sections 4.1 and 6. -/
def UnmarshalWrapper (c : Codec E U) (T : WrapperType) (body : Bytes) :
    Decoded (WrapperValue U T) E :=
  match JSON.parse body with
  | none => ⟨⟨{}, zero T.EndpointError⟩, some c.malformed⟩
  | some .null => ⟨⟨{}, zero T.EndpointError⟩, none⟩
  | some (.obj ms) => c.wrapperMembers T ms ⟨{}, zero T.EndpointError⟩ none
  | some _ => ⟨⟨{}, zero T.EndpointError⟩, some c.mismatch⟩

end Codec

/-- The world `w` with the error envelopes decoded by `c`. -/
def World.withCodec {E U R A : Type} (w : World E U R A) (c : Codec E U) : World E U R A :=
  { w with
    UnmarshalAPIError := c.UnmarshalAPIError
    UnmarshalWrapper := c.UnmarshalWrapper }

/-- The member `user_message` of an envelope: absent, `null`, or an object with
`text` and `locale`. -/
def Envelope.message : Option (Option (GoString × GoString)) → List (GoString × JSON)
  | none => []
  | some none => [(Key.userMessage, .null)]
  | some (some m) => [(Key.userMessage, .obj [(Key.text, .str m.1), (Key.locale, .str m.2)])]

/-- The member `error` of an envelope: absent, or present with a value. -/
def Envelope.error : Option JSON → List (GoString × JSON)
  | none => []
  | some x => [(Key.error, x)]

/-- Modelled from the spec: the JSON value of the application error response of
section 6, with the members in the order given there: `error_summary`, then
`user_message` (if present), then `error` (if present). -/
def envelope (summary : GoString) (message : Option (Option (GoString × GoString)))
    (error : Option JSON) : JSON :=
  .obj ((Key.errorSummary, .str summary) :: (Envelope.message message ++ Envelope.error error))

/-! ## A concrete world, for evaluating the methods on explicit inputs -/

namespace Example

/-- The bytes of the JSON literal `null`. -/
def null : Bytes := [110, 117, 108, 108]

/-- The bytes of `{"group_name":5}`: valid JSON with a number where the result
record has a string field. -/
def mistyped : Bytes :=
  [123, 34, 103, 114, 111, 117, 112, 95, 110, 97, 109, 101, 34, 58, 53, 125]

/-- The bytes of `{"error_summary":"internal"}`. -/
def internal : Bytes :=
  [123, 34, 101, 114, 114, 111, 114, 95, 115, 117, 109, 109, 97, 114, 121, 34, 58, 34,
   105, 110, 116, 101, 114, 110, 97, 108, 34, 125]

/-- The bytes of the text `internal`. -/
def internalText : GoString := [105, 110, 116, 101, 114, 110, 97, 108]

/-- The bytes of the text `not json`. -/
def notJSON : Bytes := [110, 111, 116, 32, 106, 115, 111, 110]

/-- The bytes of `{"error_summary":"x","error":{".tag":"some_variant"}}`, the 409
body of section 8 of the spec. -/
def conflict : Bytes :=
  [123, 34, 101, 114, 114, 111, 114, 95, 115, 117, 109, 109, 97, 114, 121, 34, 58, 34,
   120, 34, 44, 34, 101, 114, 114, 111, 114, 34, 58, 123, 34, 46, 116, 97, 103, 34, 58,
   34, 115, 111, 109, 101, 95, 118, 97, 114, 105, 97, 110, 116, 34, 125, 125]

/-- The bytes of
`{"error_summary":"invalid_async_job_id/","error":{".tag":"invalid_async_job_id"}}`:
the answer to a poll of an unknown job. -/
def unknownJob : Bytes :=
  [123, 34, 101, 114, 114, 111, 114, 95, 115, 117, 109, 109, 97, 114, 121, 34, 58, 34,
   105, 110, 118, 97, 108, 105, 100, 95, 97, 115, 121, 110, 99, 95, 106, 111, 98, 95,
   105, 100, 47, 34, 44, 34, 101, 114, 114, 111, 114, 34, 58, 123, 34, 46, 116, 97, 103,
   34, 58, 34, 105, 110, 118, 97, 108, 105, 100, 95, 97, 115, 121, 110, 99, 95, 106,
   111, 98, 95, 105, 100, 34, 125, 125]

/-- The bytes of the text `invalid_async_job_id/`. -/
def unknownJobText : GoString :=
  [105, 110, 118, 97, 108, 105, 100, 95, 97, 115, 121, 110, 99, 95, 106, 111, 98, 95,
   105, 100, 47]

/-- The bytes of
`{"error_summary":"x","user_message":{"text":"no","locale":"en"},"error":{}}`: an
envelope whose `error` member is the empty object. -/
def emptyError : Bytes :=
  [123, 34, 101, 114, 114, 111, 114, 95, 115, 117, 109, 109, 97, 114, 121, 34, 58, 34,
   120, 34, 44, 34, 117, 115, 101, 114, 95, 109, 101, 115, 115, 97, 103, 101, 34, 58,
   123, 34, 116, 101, 120, 116, 34, 58, 34, 110, 111, 34, 44, 34, 108, 111, 99, 97, 108,
   101, 34, 58, 34, 101, 110, 34, 125, 44, 34, 101, 114, 114, 111, 114, 34, 58, 123,
   125, 125]

/-- The bytes of `{"error_summary":"x","error":"oops"}`: an envelope whose `error`
member is a string. -/
def stringError : Bytes :=
  [123, 34, 101, 114, 114, 111, 114, 95, 115, 117, 109, 109, 97, 114, 121, 34, 58, 34,
   120, 34, 44, 34, 101, 114, 114, 111, 114, 34, 58, 34, 111, 111, 112, 115, 34, 125]

/-- The bytes of the member name `.tag`. -/
def tagKey : GoString := [46, 116, 97, 103]

/-- The text of a tag, which is ASCII. -/
def tagText (tag : GoString) : String :=
  String.mk (tag.map (fun c => Char.ofNat c.toNat))

/-- The tag of a union, read from the members of its object: the last string
stored under `.tag`. -/
def tagOf : List (GoString × JSON) → GoString → Option String → GoString × Option String
  | [], tag, saved => (tag, saved)
  | (key, x) :: rest, tag, saved =>
    if equalFold tagKey key then
      match x with
      | .str s => tagOf rest s saved
      | .null => tagOf rest tag saved
      | _ => tagOf rest tag (firstError saved (some "json: cannot unmarshal"))
    else tagOf rest tag saved

/-- The decoding method of the error unions in `world`, where a union value is
represented by its tag: the value must be an object, and the tag is its member
`.tag`; when the object does not decode the tag is left empty. -/
def union (_ : String) (x : JSON) : String × Option String :=
  match x with
  | .obj ms =>
    match (tagOf ms [] none).2 with
    | none => (tagText (tagOf ms [] none).1, none)
    | some e => ("", some e)
  | _ => ("", some "json: cannot unmarshal")

/-- The decoder of the error envelopes in `world`; library errors are given by
their message. -/
def codec : Codec String String :=
  { malformed := "json: syntax error"
    mismatch := "json: cannot unmarshal"
    union := union }

/-- A world with a small JSON codec.  Arguments are given by their JSON text,
results are represented by the JSON text they were decoded from, library errors
by their message, union values by their tag.  Into a nil result the codec follows
`encoding/json` on the few bodies used below: the literal `null` leaves the
result nil and reports no error; `mistyped` allocates the result, skips the field
that does not fit and reports the type error; the empty body and `not json` are
syntax errors, found before the target is touched.  The error envelopes are read
by `codec`. -/
def world : World String String Bytes Bytes where
  Marshal := fun _ arg =>
    match arg with
    | none => .ok null
    | some b => .ok b
  GenerateURL := fun _ domain ns route =>
    "https://" ++ domain ++ ".dropboxapi.com/2/" ++ ns ++ "/" ++ route
  URLError := fun _ => none
  UnmarshalResult := fun _ body =>
    if body = null then ⟨none, none⟩
    else if body = mistyped then ⟨some [123, 125], some "json: cannot unmarshal number"⟩
    else if body = [] ∨ body = notJSON then ⟨none, some "json: syntax error"⟩
    else ⟨some body, none⟩
  UnmarshalAPIError := codec.UnmarshalAPIError
  UnmarshalWrapper := codec.UnmarshalWrapper

/-- A context whose transport answers every request with the given status and
body, the body being readable to its end. -/
def answering (status : Int) (body : Bytes) : Context String :=
  ⟨⟨false⟩, ⟨fun _ => .ok ⟨status, ⟨body, none⟩⟩⟩⟩

/-- A context whose transport fails on every request. -/
def failing (err : String) : Context String :=
  ⟨⟨false⟩, ⟨fun _ => .error err⟩⟩

/-- The request `AlphaGroupsCreate` sends in `world` for a nil argument. -/
def createRequest : Request :=
  { Method := "POST"
    URL := "https://api.dropboxapi.com/2/team/alpha/groups/create"
    Body := some null
    Header := [("Content-Type", "application/json")] }

/-- The world `world` with an encoder that rejects every argument. -/
def unencodable : World String String Bytes Bytes :=
  { world with Marshal := fun _ _ => .error "json: unsupported value" }

/-- The context `answering status body` with logging switched on. -/
def verbose (status : Int) (body : Bytes) : Context String :=
  ⟨⟨true⟩, ⟨fun _ => .ok ⟨status, ⟨body, none⟩⟩⟩⟩

/-- The request `ReportsGetStorage` sends in `world` for a nil argument. -/
def storageRequest : Request :=
  { Method := "POST"
    URL := "https://api.dropboxapi.com/2/team/reports/get_storage"
    Body := some null
    Header := [("Content-Type", "application/json")] }

/-- The request `GroupsJobStatusGet` sends in `world` for the argument whose
JSON text is `null`. -/
def pollRequest : Request :=
  { Method := "POST"
    URL := "https://api.dropboxapi.com/2/team/groups/job_status/get"
    Body := some null
    Header := [("Content-Type", "application/json")] }

/-- The bytes of `{"cursor":"c1"}`: a continuation argument. -/
def cursorArg : Bytes :=
  [123, 34, 99, 117, 114, 115, 111, 114, 34, 58, 34, 99, 49, 34, 125]

/-- The request `MembersListContinue` sends in `world` for `cursorArg`. -/
def continueRequest : Request :=
  { Method := "POST"
    URL := "https://api.dropboxapi.com/2/team/members/list/continue"
    Body := some cursorArg
    Header := [("Content-Type", "application/json")] }

/-- The request `MembersAddJobStatusGet` sends in `world` for the argument whose
JSON text is `null`. -/
def addPollRequest : Request :=
  { Method := "POST"
    URL := "https://api.dropboxapi.com/2/team/members/add/job_status/get"
    Body := some null
    Header := [("Content-Type", "application/json")] }

/-- The request `GetInfo` sends in `world`. -/
def infoRequest : Request :=
  { Method := "POST"
    URL := "https://api.dropboxapi.com/2/team/get_info"
    Body := none
    Header := [] }

/-- The request `MembersRecover` sends in `world` for the argument whose JSON text
is `null`. -/
def recoverRequest : Request :=
  { Method := "POST"
    URL := "https://api.dropboxapi.com/2/team/members/recover"
    Body := some null
    Header := [("Content-Type", "application/json")] }

/-- The request `GroupsCreate` sends in `world` for a nil argument. -/
def groupsCreateRequest : Request :=
  { Method := "POST"
    URL := "https://api.dropboxapi.com/2/team/groups/create"
    Body := some null
    Header := [("Content-Type", "application/json")] }

/-- A context whose transport answers every request with status 200 and a body
whose reading fails after the first byte. -/
def truncated : Context String :=
  ⟨⟨false⟩, ⟨fun _ => .ok ⟨200, ⟨[123], some "unexpected EOF"⟩⟩⟩⟩

end Example

/-! ## Pagination: the List Page and the caller's continuation loop -/

/-- Modelled from the spec: the List Page of section 3, with `items`, an opaque
`cursor` and `has_more`.  The result records of the listing routes
(`GroupsListResult`, `GroupsMembersListResult`, `MembersListResult`) are declared
outside client.go. -/
structure Page (Item : Type) where
  items : List Item
  cursor : GoString
  has_more : Bool
deriving DecidableEq

/-- How an enumeration ends: with all items, with the error (or the missing
page) of the call that stopped it, or because the allowed number of
continuation calls was used up.  The items gathered so far come along. -/
inductive Listing (E U Item : Type) where
  | complete (items : List Item)
  | failed (items : List Item) (err : Option (Err E U))
  | exhausted (items : List Item)

/-- Puts the items of an earlier page in front of the items of an enumeration. -/
def Listing.prepend {Item : Type} (items : List Item) : Listing E U Item → Listing E U Item
  | .complete rest => .complete (items ++ rest)
  | .failed rest err => .failed (items ++ rest) err
  | .exhausted rest => .exhausted (items ++ rest)

/-- A call returned the page `p`: a nil error and a result that reads as `p`. -/
def returnsPage {Item : Type} (ret : Ret E U R) (view : R → Page Item) (p : Page Item) : Prop :=
  ret.err.isNone = true ∧ ret.res.map view = some p

/-- Modelled from the spec: the continuation part of the pagination contract of
section 4.3, which is the caller's and is not in client.go.  After the page `p`:
if `has_more` is false no further call is made; otherwise the continuation
method `c` is called with the argument built from exactly the cursor of `p`, and
the enumeration goes on from the page it returns.  `fuel` bounds the number of
continuation calls.  Returns the outcome and the trace of the calls made. -/
def continueListing {Item : Type} (w : World E U R A) (dbx : Context E) (c : Route)
    (view : R → Page Item) (mkArg : GoString → A) :
    Nat → Page Item → Listing E U Item × Trace
  | fuel, p =>
    if p.has_more = false then (.complete p.items, [])
    else
      match fuel with
      | 0 => (.exhausted p.items, [])
      | fuel + 1 =>
        let out := run (call c w dbx (some (mkArg p.cursor)))
        match out.1.err, out.1.res with
        | none, some res =>
          let rest := continueListing w dbx c view mkArg fuel (view res)
          (rest.1.prepend p.items, out.2 ++ rest.2)
        | err, _ => (.failed p.items err, out.2)

/-- Modelled from the spec: the pagination contract of section 4.3.  The first
call, of the listing method `l`, returns a List Page; the enumeration continues
from it with the continuation method `c`. -/
def listAll {Item : Type} (w : World E U R A) (dbx : Context E) (l c : Route)
    (view : R → Page Item) (mkArg : GoString → A) (fuel : Nat) (arg : Option A) :
    Listing E U Item × Trace :=
  let out := run (call l w dbx arg)
  match out.1.err, out.1.res with
  | none, some res =>
    let rest := continueListing w dbx c view mkArg fuel (view res)
    (rest.1, out.2 ++ rest.2)
  | err, _ => (.failed [] err, out.2)

/-- The pages that follow `p` when the continuation call with a cursor returns
`next cursor`: `p` announces more exactly when a page follows, and the call with
the cursor of `p` returns that page. -/
def Served {Item : Type} (next : GoString → Ret E U R) (view : R → Page Item) :
    Page Item → List (Page Item) → Prop
  | p, [] => p.has_more = false
  | p, q :: rest => p.has_more = true ∧ returnsPage (next p.cursor) view q ∧ Served next view q rest

namespace Fixture

/-- The bytes of `{"members":[1,2,3,4],"cursor":"c1","has_more":true}`. -/
def body1 : Bytes :=
  [123, 34, 109, 101, 109, 98, 101, 114, 115, 34, 58, 91, 49, 44, 50, 44, 51, 44, 52, 93, 44,
   34, 99, 117, 114, 115, 111, 114, 34, 58, 34, 99, 49, 34, 44,
   34, 104, 97, 115, 95, 109, 111, 114, 101, 34, 58, 116, 114, 117, 101, 125]

/-- The bytes of `{"members":[5,6,7,8],"cursor":"c2","has_more":true}`. -/
def body2 : Bytes :=
  [123, 34, 109, 101, 109, 98, 101, 114, 115, 34, 58, 91, 53, 44, 54, 44, 55, 44, 56, 93, 44,
   34, 99, 117, 114, 115, 111, 114, 34, 58, 34, 99, 50, 34, 44,
   34, 104, 97, 115, 95, 109, 111, 114, 101, 34, 58, 116, 114, 117, 101, 125]

/-- The bytes of `{"members":[9,10],"cursor":"c3","has_more":false}`. -/
def body3 : Bytes :=
  [123, 34, 109, 101, 109, 98, 101, 114, 115, 34, 58, 91, 57, 44, 49, 48, 93, 44,
   34, 99, 117, 114, 115, 111, 114, 34, 58, 34, 99, 51, 34, 44,
   34, 104, 97, 115, 95, 109, 111, 114, 101, 34, 58, 102, 97, 108, 115, 101, 125]

/-- The cursors `c1`, `c2`, `c3`. -/
def c1 : GoString := [99, 49]

def c2 : GoString := [99, 50]

def c3 : GoString := [99, 51]

/-- The three pages of the dataset: ten items, split 4, 4 and 2. -/
def page1 : Page Nat := ⟨[1, 2, 3, 4], c1, true⟩

def page2 : Page Nat := ⟨[5, 6, 7, 8], c2, true⟩

def page3 : Page Nat := ⟨[9, 10], c3, false⟩

/-- The JSON text of a continuation argument: `{"cursor":"` cursor `"}`. -/
def continueArg (cursor : GoString) : Bytes :=
  [123, 34, 99, 117, 114, 115, 111, 114, 34, 58, 34] ++ cursor ++ [34, 125]

/-- The codec of the fixture.  Arguments are given by their JSON text; a result
is a page, and the decoder knows the three bodies of the dataset. -/
def world : World String String (Page Nat) Bytes where
  Marshal := fun _ arg =>
    match arg with
    | none => .ok Example.null
    | some b => .ok b
  GenerateURL := fun _ domain ns route =>
    "https://" ++ domain ++ ".dropboxapi.com/2/" ++ ns ++ "/" ++ route
  URLError := fun _ => none
  UnmarshalResult := fun _ body =>
    if body = body1 then ⟨some page1, none⟩
    else if body = body2 then ⟨some page2, none⟩
    else if body = body3 then ⟨some page3, none⟩
    else ⟨none, some "json: syntax error"⟩
  UnmarshalAPIError := Example.codec.UnmarshalAPIError
  UnmarshalWrapper := Example.codec.UnmarshalWrapper

/-- Modelled from the spec: the synthetic fixture server of section 8, holding a
3-page, 10-item dataset split 4/4/2.  `members/list` is answered with the first
page, `members/list/continue` with the page that follows the cursor in the
request, and with status 409 for any other cursor. -/
def server : Context String :=
  ⟨⟨false⟩,
   ⟨fun req =>
      if req.URL = "https://api.dropboxapi.com/2/team/members/list" then
        .ok ⟨200, ⟨body1, none⟩⟩
      else if req.URL = "https://api.dropboxapi.com/2/team/members/list/continue" then
        if req.Body = some (continueArg c1) then .ok ⟨200, ⟨body2, none⟩⟩
        else if req.Body = some (continueArg c2) then .ok ⟨200, ⟨body3, none⟩⟩
        else .ok ⟨409, ⟨[123, 125], none⟩⟩
      else .error "no such route"⟩⟩

end Fixture

/-! ## Asynchronous jobs: launch results, poll results and the caller's poll loop -/

/-- Modelled from the spec: the Async Launch Result of section 3, either the
value of an operation that completed at once or the id of an asynchronous job.
The launch records (`MembersAddLaunch`, `async.LaunchEmptyResult`) are declared
outside client.go. -/
inductive LaunchResult (V : Type) where
  | complete (value : V)
  | asyncJobId (id : GoString)
deriving DecidableEq

/-- Modelled from the spec: the Poll Result of section 3: in progress, complete
with a value, or failed with a kind.  The poll records (`MembersAddJobStatus`,
`async.PollEmptyResult`) are declared outside client.go. -/
inductive PollResult (V : Type) where
  | inProgress
  | complete (value : V)
  | failed (kind : GoString)
deriving DecidableEq

/-- How following a job ends: with the value of the completed job, with the
kind of its failure, with the error (or the missing result) of the call that
stopped it, or because the allowed number of polls was used up. -/
inductive Job (E U V : Type) where
  | complete (value : V)
  | failed (kind : GoString)
  | stopped (err : Option (Err E U))
  | exhausted

/-- A server with a state: what it answers to a request, and the state it is
in afterwards. -/
structure Server (S E : Type) where
  answer : S → Request → Except E (Response E) × S

/-- The client context while the server is in state `s`. -/
def Server.context {S : Type} (srv : Server S E) (cfg : Config) (s : S) : Context E :=
  ⟨cfg, ⟨fun req => (srv.answer s req).1⟩⟩

/-- The state of the server after the transport invocations of a trace. -/
def Server.after {S : Type} (srv : Server S E) (s : S) (t : Trace) : S :=
  t.foldl (fun s e =>
    match e with
    | .Do req => (srv.answer s req).2
    | _ => s) s

/-- One call of a route method against a server in state `s`: the named
results, the trace of the call, and the state of the server afterwards. -/
def Server.call {S : Type} (srv : Server S E) (w : World E U R A) (cfg : Config) (r : Route)
    (arg : Option A) (s : S) : Ret E U R × Trace × S :=
  let out := run (Team.call r w (srv.context cfg s) arg)
  (out.1, out.2, srv.after s out.2)

/-- Modelled from the spec: the poll part of the state machine of section 4.2,
which is the caller's and is not in client.go.  The poll method `p` is called
with the argument built from the job id; `InProgress` leads to another poll,
`Complete` and `Failed` are terminal and no poll follows them.  `fuel` bounds
the number of polls.  Returns the outcome, the trace of the calls made and the
final state of the server. -/
def pollJob {S V : Type} (srv : Server S E) (w : World E U R A) (cfg : Config) (p : Route)
    (view : R → PollResult V) (mkArg : GoString → A) (id : GoString) :
    Nat → S → Job E U V × Trace × S
  | 0, s => (.exhausted, [], s)
  | fuel + 1, s =>
    let out := srv.call w cfg p (some (mkArg id)) s
    match out.1.err, out.1.res with
    | none, some res =>
      match view res with
      | .inProgress =>
        let rest := pollJob srv w cfg p view mkArg id fuel out.2.2
        (rest.1, out.2.1 ++ rest.2.1, rest.2.2)
      | .complete value => (.complete value, out.2.1, out.2.2)
      | .failed kind => (.failed kind, out.2.1, out.2.2)
    | err, _ => (.stopped err, out.2.1, out.2.2)

/-- Modelled from the spec: the async job protocol of section 4.2.  The caller
branches on the Launch Result of the launch method `l`: a value is the result
(no poll is made), a job id is polled until a terminal state. -/
def launchAndPoll {S V : Type} (srv : Server S E) (w : World E U R A) (cfg : Config)
    (l p : Route) (viewLaunch : R → LaunchResult V) (viewPoll : R → PollResult V)
    (mkArg : GoString → A) (fuel : Nat) (arg : Option A) (s : S) : Job E U V × Trace × S :=
  let out := srv.call w cfg l arg s
  match out.1.err, out.1.res with
  | none, some res =>
    match viewLaunch res with
    | .complete value => (.complete value, out.2.1, out.2.2)
    | .asyncJobId id =>
      let rest := pollJob srv w cfg p viewPoll mkArg id fuel out.2.2
      (rest.1, out.2.1 ++ rest.2.1, rest.2.2)
  | err, _ => (.stopped err, out.2.1, out.2.2)

/-- A call returned a result that reads as `x`, with a nil error. -/
def returnsAs {X : Type} (ret : Ret E U R) (view : R → X) (x : X) : Prop :=
  ret.err.isNone = true ∧ ret.res.map view = some x

/-- The poll results the server gives, one after the other, from state `s` on,
to polls of the job `id`. -/
def Polled {S V : Type} (srv : Server S E) (w : World E U R A) (cfg : Config) (p : Route)
    (view : R → PollResult V) (mkArg : GoString → A) (id : GoString) :
    S → List (PollResult V) → Prop
  | _, [] => True
  | s, x :: rest =>
    returnsAs (srv.call w cfg p (some (mkArg id)) s).1 view x ∧
      Polled srv w cfg p view mkArg id (srv.call w cfg p (some (mkArg id)) s).2.2 rest

namespace Fixture

/-- The bytes of `{".tag":"async_job_id","async_job_id":"j1"}`. -/
def launched : Bytes :=
  [123, 34, 46, 116, 97, 103, 34, 58, 34, 97, 115, 121, 110, 99, 95, 106, 111, 98, 95, 105,
   100, 34, 44, 34, 97, 115, 121, 110, 99, 95, 106, 111, 98, 95, 105, 100, 34, 58, 34, 106,
   49, 34, 125]

/-- The bytes of `{".tag":"in_progress"}`. -/
def inProgress : Bytes :=
  [123, 34, 46, 116, 97, 103, 34, 58, 34, 105, 110, 95, 112, 114, 111, 103, 114, 101, 115,
   115, 34, 125]

/-- The bytes of `{".tag":"complete","complete":7}`. -/
def completed : Bytes :=
  [123, 34, 46, 116, 97, 103, 34, 58, 34, 99, 111, 109, 112, 108, 101, 116, 101, 34, 44, 34,
   99, 111, 109, 112, 108, 101, 116, 101, 34, 58, 55, 125]

/-- The job id `j1`. -/
def j1 : GoString := [106, 49]

/-- The JSON text of a poll argument: `{"async_job_id":"` id `"}`. -/
def pollArg (id : GoString) : Bytes :=
  [123, 34, 97, 115, 121, 110, 99, 95, 106, 111, 98, 95, 105, 100, 34, 58, 34] ++ id ++
    [34, 125]

/-- A decoded union record: its tag, and the job id or the value it carries. -/
structure Tagged where
  tag : String
  asyncJobId : GoString
  complete : Nat
deriving DecidableEq

/-- A launch record read as a Launch Result. -/
def Tagged.launch (t : Tagged) : LaunchResult Nat :=
  if t.tag = "async_job_id" then .asyncJobId t.asyncJobId else .complete t.complete

/-- A poll record read as a Poll Result. -/
def Tagged.poll (t : Tagged) : PollResult Nat :=
  if t.tag = "in_progress" then .inProgress
  else if t.tag = "complete" then .complete t.complete
  else .failed []

/-- The codec of the job fixture.  Arguments are given by their JSON text; the
decoder knows the three bodies the job server sends. -/
def jobWorld : World String String Tagged Bytes where
  Marshal := fun _ arg =>
    match arg with
    | none => .ok Example.null
    | some b => .ok b
  GenerateURL := fun _ domain ns route =>
    "https://" ++ domain ++ ".dropboxapi.com/2/" ++ ns ++ "/" ++ route
  URLError := fun _ => none
  UnmarshalResult := fun _ body =>
    if body = launched then ⟨some ⟨"async_job_id", j1, 0⟩, none⟩
    else if body = inProgress then ⟨some ⟨"in_progress", [], 0⟩, none⟩
    else if body = completed then ⟨some ⟨"complete", [], 7⟩, none⟩
    else ⟨none, some "json: syntax error"⟩
  UnmarshalAPIError := Example.codec.UnmarshalAPIError
  UnmarshalWrapper := Example.codec.UnmarshalWrapper

/-- Modelled from the spec: the job server of the async round trip of section 8.
Its state is the number of polls it has answered.  `members/add` launches the
job `j1`; polls of `j1` are answered in progress twice and then complete with
the value 7; a poll of any other id is answered with status 409. -/
def jobServer : Server Nat String where
  answer := fun polls req =>
    if req.URL = "https://api.dropboxapi.com/2/team/members/add" then
      (.ok ⟨200, ⟨launched, none⟩⟩, polls)
    else if req.URL = "https://api.dropboxapi.com/2/team/members/add/job_status/get" then
      if req.Body = some (pollArg j1) then
        if polls < 2 then (.ok ⟨200, ⟨inProgress, none⟩⟩, polls + 1)
        else (.ok ⟨200, ⟨completed, none⟩⟩, polls + 1)
      else (.ok ⟨409, ⟨[123, 125], none⟩⟩, polls)
    else (.error "no such route", polls)

end Fixture

/-! ## The embedding and its closed form -/

section Lemmas

variable {β : Type}

@[simp] theorem run_emit (e : Event) (t : Trace) :
    StateT.run (emit e) t = ((), t ++ [e]) := rfl

@[simp] theorem run_verbose (b : Bool) (f : String) (t : Trace) :
    StateT.run (if b = true then log.Printf f else pure ()) t = ((), t ++ vlog b f) := by
  cases b <;> simp [log.Printf, vlog]

theorem run_interpret (mk : Option R → Option (Err E U) → β) (d : Descriptor)
    (w : World E U R A) (dbx : Context E) (resp : Response E) (body : Bytes) (t : Trace) :
    StateT.run (interpret mk d w dbx resp body) t =
      (mk (statusRet d w resp.StatusCode body).res (statusRet d w resp.StatusCode body).err,
        t ++ (vlog dbx.Config.Verbose "body: %s" ++ statusEvents d resp.StatusCode)) := by
  simp only [interpret, statusRet, statusEvents, StateT.run_bind, run_verbose,
    json.UnmarshalWrapper, json.UnmarshalAPIError, json.UnmarshalResult, run_emit]
  by_cases h2 : resp.StatusCode = 200
  · cases hr : d.resType with
    | none => simp [h2]
    | some type => cases hu : (w.UnmarshalResult type body).err <;> simp [h2, hu]
  · by_cases h9 : resp.StatusCode = 409
    · cases hu : (w.UnmarshalWrapper d.wrapper body).err <;> simp [h9, hu]
    · by_cases h4 : resp.StatusCode = 400
      · simp [h4]
      · cases hu : (w.UnmarshalAPIError body).err <;> simp [h2, h9, h4, hu]

theorem run_send (mk : Option R → Option (Err E U) → β) (d : Descriptor)
    (w : World E U R A) (dbx : Context E) (req : Request) (t : Trace) :
    StateT.run (send mk d w dbx req) t =
      (mk (sendRet d w dbx req).res (sendRet d w dbx req).err, t ++ sendEvents d dbx req) := by
  simp only [send, sendRet, sendEvents, responseRet, responseEvents, StateT.run_bind, run_verbose,
    Client.Do, ioutil.ReadAll, Response.BodyClose, run_emit]
  cases hd : dbx.Client.Transport req with
  | error e => simp
  | ok resp =>
    cases hb : resp.Body.err with
    | some e => simp [hb]
    | none => simp [hb, run_interpret]

theorem run_dispatch (mk : Option R → Option (Err E U) → β) (d : Descriptor)
    (w : World E U R A) (dbx : Context E) (arg : Option A) (t : Trace) :
    StateT.run (dispatch mk d w dbx arg) t =
      (mk (callRet d w dbx arg).res (callRet d w dbx arg).err, t ++ callEvents d w dbx arg) := by
  simp only [dispatch, callRet, callEvents, buildRequest]
  cases ha : d.argType with
  | none =>
    cases hn : http.NewRequest w "POST" (w.GenerateURL dbx.Config "api" "team" d.path) none with
    | error e => simp [hn]
    | ok req => simp [hn, run_send]
  | some type =>
    cases hm : w.Marshal type arg with
    | error e => simp [hm]
    | ok b =>
      cases hn : http.NewRequest w "POST" (w.GenerateURL dbx.Config "api" "team" d.path) (some b) with
      | error e => simp [hm, hn]
      | ok req => simp [hm, hn, run_send]

end Lemmas

/-! ## Every method is the dispatch function at its descriptor -/

theorem AlphaGroupsCreate_eq (w : World E U R A) (dbx : Context E) (arg : Option A) :
    AlphaGroupsCreate w dbx arg = dispatch Ret.mk Route.AlphaGroupsCreate.descriptor w dbx arg :=
  rfl

theorem AlphaGroupsGetInfo_eq (w : World E U R A) (dbx : Context E) (arg : Option A) :
    AlphaGroupsGetInfo w dbx arg = dispatch Ret.mk Route.AlphaGroupsGetInfo.descriptor w dbx arg :=
  rfl

theorem AlphaGroupsList_eq (w : World E U R A) (dbx : Context E) (arg : Option A) :
    AlphaGroupsList w dbx arg = dispatch Ret.mk Route.AlphaGroupsList.descriptor w dbx arg :=
  rfl

theorem AlphaGroupsListContinue_eq (w : World E U R A) (dbx : Context E) (arg : Option A) :
    AlphaGroupsListContinue w dbx arg = dispatch Ret.mk Route.AlphaGroupsListContinue.descriptor w dbx arg :=
  rfl

theorem AlphaGroupsUpdate_eq (w : World E U R A) (dbx : Context E) (arg : Option A) :
    AlphaGroupsUpdate w dbx arg = dispatch Ret.mk Route.AlphaGroupsUpdate.descriptor w dbx arg :=
  rfl

theorem DevicesListMemberDevices_eq (w : World E U R A) (dbx : Context E) (arg : Option A) :
    DevicesListMemberDevices w dbx arg = dispatch Ret.mk Route.DevicesListMemberDevices.descriptor w dbx arg :=
  rfl

theorem DevicesListMembersDevices_eq (w : World E U R A) (dbx : Context E) (arg : Option A) :
    DevicesListMembersDevices w dbx arg = dispatch Ret.mk Route.DevicesListMembersDevices.descriptor w dbx arg :=
  rfl

theorem DevicesListTeamDevices_eq (w : World E U R A) (dbx : Context E) (arg : Option A) :
    DevicesListTeamDevices w dbx arg = dispatch Ret.mk Route.DevicesListTeamDevices.descriptor w dbx arg :=
  rfl

theorem DevicesRevokeDeviceSession_eq (w : World E U R A) (dbx : Context E) (arg : Option A) :
    DevicesRevokeDeviceSession w dbx arg = dispatch (fun _ err => err) Route.DevicesRevokeDeviceSession.descriptor w dbx arg :=
  rfl

theorem DevicesRevokeDeviceSessionBatch_eq (w : World E U R A) (dbx : Context E) (arg : Option A) :
    DevicesRevokeDeviceSessionBatch w dbx arg = dispatch Ret.mk Route.DevicesRevokeDeviceSessionBatch.descriptor w dbx arg :=
  rfl

theorem GetInfo_eq (w : World E U R A) (dbx : Context E) (arg : Option A) :
    GetInfo w dbx = dispatch Ret.mk Route.GetInfo.descriptor w dbx arg :=
  rfl

theorem GroupsCreate_eq (w : World E U R A) (dbx : Context E) (arg : Option A) :
    GroupsCreate w dbx arg = dispatch Ret.mk Route.GroupsCreate.descriptor w dbx arg :=
  rfl

theorem GroupsDelete_eq (w : World E U R A) (dbx : Context E) (arg : Option A) :
    GroupsDelete w dbx arg = dispatch Ret.mk Route.GroupsDelete.descriptor w dbx arg :=
  rfl

theorem GroupsGetInfo_eq (w : World E U R A) (dbx : Context E) (arg : Option A) :
    GroupsGetInfo w dbx arg = dispatch Ret.mk Route.GroupsGetInfo.descriptor w dbx arg :=
  rfl

theorem GroupsJobStatusGet_eq (w : World E U R A) (dbx : Context E) (arg : Option A) :
    GroupsJobStatusGet w dbx arg = dispatch Ret.mk Route.GroupsJobStatusGet.descriptor w dbx arg :=
  rfl

theorem GroupsList_eq (w : World E U R A) (dbx : Context E) (arg : Option A) :
    GroupsList w dbx arg = dispatch Ret.mk Route.GroupsList.descriptor w dbx arg :=
  rfl

theorem GroupsListContinue_eq (w : World E U R A) (dbx : Context E) (arg : Option A) :
    GroupsListContinue w dbx arg = dispatch Ret.mk Route.GroupsListContinue.descriptor w dbx arg :=
  rfl

theorem GroupsMembersAdd_eq (w : World E U R A) (dbx : Context E) (arg : Option A) :
    GroupsMembersAdd w dbx arg = dispatch Ret.mk Route.GroupsMembersAdd.descriptor w dbx arg :=
  rfl

theorem GroupsMembersList_eq (w : World E U R A) (dbx : Context E) (arg : Option A) :
    GroupsMembersList w dbx arg = dispatch Ret.mk Route.GroupsMembersList.descriptor w dbx arg :=
  rfl

theorem GroupsMembersListContinue_eq (w : World E U R A) (dbx : Context E) (arg : Option A) :
    GroupsMembersListContinue w dbx arg = dispatch Ret.mk Route.GroupsMembersListContinue.descriptor w dbx arg :=
  rfl

theorem GroupsMembersRemove_eq (w : World E U R A) (dbx : Context E) (arg : Option A) :
    GroupsMembersRemove w dbx arg = dispatch Ret.mk Route.GroupsMembersRemove.descriptor w dbx arg :=
  rfl

theorem GroupsMembersSetAccessType_eq (w : World E U R A) (dbx : Context E) (arg : Option A) :
    GroupsMembersSetAccessType w dbx arg = dispatch Ret.mk Route.GroupsMembersSetAccessType.descriptor w dbx arg :=
  rfl

theorem GroupsUpdate_eq (w : World E U R A) (dbx : Context E) (arg : Option A) :
    GroupsUpdate w dbx arg = dispatch Ret.mk Route.GroupsUpdate.descriptor w dbx arg :=
  rfl

theorem LinkedAppsListMemberLinkedApps_eq (w : World E U R A) (dbx : Context E) (arg : Option A) :
    LinkedAppsListMemberLinkedApps w dbx arg = dispatch Ret.mk Route.LinkedAppsListMemberLinkedApps.descriptor w dbx arg :=
  rfl

theorem LinkedAppsListMembersLinkedApps_eq (w : World E U R A) (dbx : Context E) (arg : Option A) :
    LinkedAppsListMembersLinkedApps w dbx arg = dispatch Ret.mk Route.LinkedAppsListMembersLinkedApps.descriptor w dbx arg :=
  rfl

theorem LinkedAppsListTeamLinkedApps_eq (w : World E U R A) (dbx : Context E) (arg : Option A) :
    LinkedAppsListTeamLinkedApps w dbx arg = dispatch Ret.mk Route.LinkedAppsListTeamLinkedApps.descriptor w dbx arg :=
  rfl

theorem LinkedAppsRevokeLinkedApp_eq (w : World E U R A) (dbx : Context E) (arg : Option A) :
    LinkedAppsRevokeLinkedApp w dbx arg = dispatch (fun _ err => err) Route.LinkedAppsRevokeLinkedApp.descriptor w dbx arg :=
  rfl

theorem LinkedAppsRevokeLinkedAppBatch_eq (w : World E U R A) (dbx : Context E) (arg : Option A) :
    LinkedAppsRevokeLinkedAppBatch w dbx arg = dispatch Ret.mk Route.LinkedAppsRevokeLinkedAppBatch.descriptor w dbx arg :=
  rfl

theorem MembersAdd_eq (w : World E U R A) (dbx : Context E) (arg : Option A) :
    MembersAdd w dbx arg = dispatch Ret.mk Route.MembersAdd.descriptor w dbx arg :=
  rfl

theorem MembersAddJobStatusGet_eq (w : World E U R A) (dbx : Context E) (arg : Option A) :
    MembersAddJobStatusGet w dbx arg = dispatch Ret.mk Route.MembersAddJobStatusGet.descriptor w dbx arg :=
  rfl

theorem MembersGetInfo_eq (w : World E U R A) (dbx : Context E) (arg : Option A) :
    MembersGetInfo w dbx arg = dispatch Ret.mk Route.MembersGetInfo.descriptor w dbx arg :=
  rfl

theorem MembersList_eq (w : World E U R A) (dbx : Context E) (arg : Option A) :
    MembersList w dbx arg = dispatch Ret.mk Route.MembersList.descriptor w dbx arg :=
  rfl

theorem MembersListContinue_eq (w : World E U R A) (dbx : Context E) (arg : Option A) :
    MembersListContinue w dbx arg = dispatch Ret.mk Route.MembersListContinue.descriptor w dbx arg :=
  rfl

theorem MembersRecover_eq (w : World E U R A) (dbx : Context E) (arg : Option A) :
    MembersRecover w dbx arg = dispatch (fun _ err => err) Route.MembersRecover.descriptor w dbx arg :=
  rfl

theorem MembersRemove_eq (w : World E U R A) (dbx : Context E) (arg : Option A) :
    MembersRemove w dbx arg = dispatch Ret.mk Route.MembersRemove.descriptor w dbx arg :=
  rfl

theorem MembersRemoveJobStatusGet_eq (w : World E U R A) (dbx : Context E) (arg : Option A) :
    MembersRemoveJobStatusGet w dbx arg = dispatch Ret.mk Route.MembersRemoveJobStatusGet.descriptor w dbx arg :=
  rfl

theorem MembersSendWelcomeEmail_eq (w : World E U R A) (dbx : Context E) (arg : Option A) :
    MembersSendWelcomeEmail w dbx arg = dispatch (fun _ err => err) Route.MembersSendWelcomeEmail.descriptor w dbx arg :=
  rfl

theorem MembersSetAdminPermissions_eq (w : World E U R A) (dbx : Context E) (arg : Option A) :
    MembersSetAdminPermissions w dbx arg = dispatch Ret.mk Route.MembersSetAdminPermissions.descriptor w dbx arg :=
  rfl

theorem MembersSetProfile_eq (w : World E U R A) (dbx : Context E) (arg : Option A) :
    MembersSetProfile w dbx arg = dispatch Ret.mk Route.MembersSetProfile.descriptor w dbx arg :=
  rfl

theorem MembersSuspend_eq (w : World E U R A) (dbx : Context E) (arg : Option A) :
    MembersSuspend w dbx arg = dispatch (fun _ err => err) Route.MembersSuspend.descriptor w dbx arg :=
  rfl

theorem MembersUnsuspend_eq (w : World E U R A) (dbx : Context E) (arg : Option A) :
    MembersUnsuspend w dbx arg = dispatch (fun _ err => err) Route.MembersUnsuspend.descriptor w dbx arg :=
  rfl

theorem PropertiesTemplateAdd_eq (w : World E U R A) (dbx : Context E) (arg : Option A) :
    PropertiesTemplateAdd w dbx arg = dispatch Ret.mk Route.PropertiesTemplateAdd.descriptor w dbx arg :=
  rfl

theorem PropertiesTemplateGet_eq (w : World E U R A) (dbx : Context E) (arg : Option A) :
    PropertiesTemplateGet w dbx arg = dispatch Ret.mk Route.PropertiesTemplateGet.descriptor w dbx arg :=
  rfl

theorem PropertiesTemplateList_eq (w : World E U R A) (dbx : Context E) (arg : Option A) :
    PropertiesTemplateList w dbx = dispatch Ret.mk Route.PropertiesTemplateList.descriptor w dbx arg :=
  rfl

theorem PropertiesTemplateUpdate_eq (w : World E U R A) (dbx : Context E) (arg : Option A) :
    PropertiesTemplateUpdate w dbx arg = dispatch Ret.mk Route.PropertiesTemplateUpdate.descriptor w dbx arg :=
  rfl

theorem ReportsGetActivity_eq (w : World E U R A) (dbx : Context E) (arg : Option A) :
    ReportsGetActivity w dbx arg = dispatch Ret.mk Route.ReportsGetActivity.descriptor w dbx arg :=
  rfl

theorem ReportsGetDevices_eq (w : World E U R A) (dbx : Context E) (arg : Option A) :
    ReportsGetDevices w dbx arg = dispatch Ret.mk Route.ReportsGetDevices.descriptor w dbx arg :=
  rfl

theorem ReportsGetMembership_eq (w : World E U R A) (dbx : Context E) (arg : Option A) :
    ReportsGetMembership w dbx arg = dispatch Ret.mk Route.ReportsGetMembership.descriptor w dbx arg :=
  rfl

theorem ReportsGetStorage_eq (w : World E U R A) (dbx : Context E) (arg : Option A) :
    ReportsGetStorage w dbx arg = dispatch Ret.mk Route.ReportsGetStorage.descriptor w dbx arg :=
  rfl

theorem statusRet_res (d : Descriptor) (w : World E U R A) (status : Int) (body : Bytes)
    (h : d.resType = none) : (statusRet d w status body).res = none := by
  unfold statusRet
  rw [h]
  split
  · split
    · split <;> rfl
    · split
      · rfl
      · split <;> rfl
  · rfl

theorem callRet_res (d : Descriptor) (w : World E U R A) (dbx : Context E) (arg : Option A)
    (h : d.resType = none) : (callRet d w dbx arg).res = none := by
  unfold callRet sendRet responseRet
  split
  · rfl
  · split
    · rfl
    · split
      · rfl
      · exact statusRet_res d w _ _ h

theorem run_call (r : Route) (w : World E U R A) (dbx : Context E) (arg : Option A) :
    run (call r w dbx arg) = (callRet r.descriptor w dbx arg, callEvents r.descriptor w dbx arg) := by
  have key : ∀ d : Descriptor, d.resType = none →
      run ((fun err => (⟨none, err⟩ : Ret E U R)) <$> dispatch (fun _ err => err) d w dbx arg)
        = (callRet d w dbx arg, callEvents d w dbx arg) := by
    intro d h
    have h1 := callRet_res d w dbx arg h
    simp only [run, StateT.run_map, run_dispatch, List.nil_append]
    show ((⟨none, (callRet d w dbx arg).err⟩ : Ret E U R), _) = _
    rw [← h1]
  cases r <;> simp only [call, run, AlphaGroupsCreate_eq, AlphaGroupsGetInfo_eq, AlphaGroupsList_eq,
    AlphaGroupsListContinue_eq, AlphaGroupsUpdate_eq, DevicesListMemberDevices_eq,
    DevicesListMembersDevices_eq, DevicesListTeamDevices_eq, DevicesRevokeDeviceSession_eq,
    DevicesRevokeDeviceSessionBatch_eq, GroupsCreate_eq, GroupsDelete_eq,
    GroupsGetInfo_eq, GroupsJobStatusGet_eq, GroupsList_eq,
    GroupsListContinue_eq, GroupsMembersAdd_eq, GroupsMembersList_eq,
    GroupsMembersListContinue_eq, GroupsMembersRemove_eq, GroupsMembersSetAccessType_eq,
    GroupsUpdate_eq, LinkedAppsListMemberLinkedApps_eq, LinkedAppsListMembersLinkedApps_eq,
    LinkedAppsListTeamLinkedApps_eq, LinkedAppsRevokeLinkedApp_eq, LinkedAppsRevokeLinkedAppBatch_eq,
    MembersAdd_eq, MembersAddJobStatusGet_eq, MembersGetInfo_eq,
    MembersList_eq, MembersListContinue_eq, MembersRecover_eq,
    MembersRemove_eq, MembersRemoveJobStatusGet_eq, MembersSendWelcomeEmail_eq,
    MembersSetAdminPermissions_eq, MembersSetProfile_eq, MembersSuspend_eq,
    MembersUnsuspend_eq, PropertiesTemplateAdd_eq, PropertiesTemplateGet_eq,
    PropertiesTemplateUpdate_eq, ReportsGetActivity_eq, ReportsGetDevices_eq,
    ReportsGetMembership_eq, ReportsGetStorage_eq]
  all_goals first
    | exact key _ rfl
    | (rw [run_dispatch]; rfl)
    | (rw [GetInfo_eq w dbx arg, run_dispatch]; rfl)
    | (rw [PropertiesTemplateList_eq w dbx arg, run_dispatch]; rfl)
/-! ## Facts about traces -/

theorem mem_vlog (e : Event) (b : Bool) (f : String) :
    e ∈ vlog b f ↔ b = true ∧ e = Event.Printf f := by
  cases b <;> simp [vlog]

theorem Do_not_mem_statusEvents (d : Descriptor) (status : Int) (req : Request) :
    Event.Do req ∉ statusEvents d status := by
  unfold statusEvents
  repeat' split
  all_goals simp

theorem Do_not_mem_responseEvents (d : Descriptor) (v : Bool) (resp : Response E) (req : Request) :
    Event.Do req ∉ responseEvents d v resp := by
  unfold responseEvents
  cases resp.Body.err <;> simp [mem_vlog, Do_not_mem_statusEvents]

theorem Do_mem_sendEvents (d : Descriptor) (dbx : Context E) (req0 req : Request) :
    Event.Do req ∈ sendEvents d dbx req0 ↔ req0 = req := by
  have h : req = req0 ↔ req0 = req := ⟨Eq.symm, Eq.symm⟩
  unfold sendEvents
  cases dbx.Client.Transport req0 <;> simp [mem_vlog, Do_not_mem_responseEvents, h]

theorem Do_mem_callEvents (d : Descriptor) (w : World E U R A) (dbx : Context E) (arg : Option A)
    (req : Request) :
    Event.Do req ∈ callEvents d w dbx arg ↔ buildRequest d w dbx.Config arg = .ok req := by
  unfold callEvents
  cases hb : buildRequest d w dbx.Config arg with
  | error e => cases d.argType <;> simp [mem_vlog]
  | ok req0 => cases d.argType <;> simp [mem_vlog, Do_mem_sendEvents]

/-- The outcome of a call whose request reached the transport. -/
theorem run_call_of_Do (r : Route) (w : World E U R A) (dbx : Context E) (arg : Option A)
    (req : Request) (hdo : Event.Do req ∈ (run (call r w dbx arg)).2) :
    (run (call r w dbx arg)).1 = sendRet r.descriptor w dbx req ∧
    ∀ e, e ∈ (run (call r w dbx arg)).2 →
      (∃ f, e = Event.Printf f) ∨ e ∈ sendEvents r.descriptor dbx req := by
  rw [run_call] at hdo ⊢
  have hb := (Do_mem_callEvents _ w dbx arg req).1 hdo
  refine ⟨by simp [callRet, hb], ?_⟩
  intro e he
  simp only [callEvents, hb, List.mem_append] at he
  rcases he with he | he
  · left
    cases hr : r.descriptor.argType
    · simp [hr] at he
    · simp [hr, mem_vlog] at he
      exact ⟨_, he.2⟩
  · exact Or.inr he

/-- The named results of a call whose request was answered by `resp`, the body
of which could be read. -/
theorem ret_of_response (r : Route) (w : World E U R A) (dbx : Context E) (arg : Option A)
    (req : Request) (resp : Response E)
    (hdo : Event.Do req ∈ (run (call r w dbx arg)).2)
    (hresp : dbx.Client.Transport req = .ok resp) (hread : resp.Body.err = none) :
    (run (call r w dbx arg)).1 = statusRet r.descriptor w resp.StatusCode resp.Body.data := by
  rw [(run_call_of_Do r w dbx arg req hdo).1]
  simp [sendRet, hresp, responseRet, hread]

/-- The decoding events of a call whose request was answered by `resp`. -/
theorem Unmarshal_mem_of_response (r : Route) (w : World E U R A) (dbx : Context E)
    (arg : Option A) (req : Request) (resp : Response E)
    (hdo : Event.Do req ∈ (run (call r w dbx arg)).2)
    (hresp : dbx.Client.Transport req = .ok resp) (tg : Target) :
    Event.Unmarshal tg ∈ (run (call r w dbx arg)).2 ↔
      resp.Body.err = none ∧ Event.Unmarshal tg ∈ statusEvents r.descriptor resp.StatusCode := by
  rw [run_call] at hdo ⊢
  have hb := (Do_mem_callEvents _ w dbx arg req).1 hdo
  simp only [callEvents, hb, sendEvents, hresp, responseEvents]
  cases r.descriptor.argType <;> cases resp.Body.err <;> simp [mem_vlog]

/-! ## The claims -/

/-- C1: for every route method, a response with status 400 whose body was read
makes the method return the generic `dropbox.APIError` whose `ErrorSummary` is
the body converted to a string, with a nil result; nothing is JSON-decoded on
this path, so no decode error can be returned, whatever the bytes of the body
are. -/
theorem bad_request_is_raw_text (r : Route) (w : World E U R A) (dbx : Context E)
    (arg : Option A) (req : Request) (resp : Response E)
    (hdo : Event.Do req ∈ (run (call r w dbx arg)).2)
    (hresp : dbx.Client.Transport req = .ok resp)
    (hread : resp.Body.err = none)
    (hstatus : resp.StatusCode = 400) :
    (run (call r w dbx arg)).1 =
        ⟨none, some (.api { ErrorSummary := string resp.Body.data, UserMessage := none })⟩ ∧
      ∀ tg, Event.Unmarshal tg ∉ (run (call r w dbx arg)).2 := by
  constructor
  · rw [ret_of_response r w dbx arg req resp hdo hresp hread]
    simp [statusRet, hstatus]
  · intro tg
    rw [Unmarshal_mem_of_response r w dbx arg req resp hdo hresp]
    simp [statusEvents, hstatus]

/-- C1, witness: `AlphaGroupsCreate` answered with status 400 and the body `not json`. -/
theorem bad_request_is_raw_text_witness :
    Event.Do Example.createRequest ∈
        (run (call .AlphaGroupsCreate Example.world (Example.answering 400 Example.notJSON) none)).2 ∧
      (run (call .AlphaGroupsCreate Example.world (Example.answering 400 Example.notJSON) none)).1 =
        ⟨none, some (.api { ErrorSummary := Example.notJSON, UserMessage := none })⟩ ∧
      ∀ tg, Event.Unmarshal tg ∉
        (run (call .AlphaGroupsCreate Example.world (Example.answering 400 Example.notJSON) none)).2 :=
  ⟨by decide,
   bad_request_is_raw_text .AlphaGroupsCreate Example.world (Example.answering 400 Example.notJSON)
     none Example.createRequest ⟨400, ⟨Example.notJSON, none⟩⟩ (by decide) rfl rfl rfl⟩

/-- C2: for every route method (in particular for each one whose wrapper has a
route-specific `EndpointError` type), a response with status 409 whose body
decodes as the wrapper envelope makes the method return, as its error, the value
of the wrapper type named after the method, exactly as the decoder filled it
(summary and `EndpointError`), and the result is nil. -/
theorem conflict_is_route_error (r : Route) (w : World E U R A) (dbx : Context E)
    (arg : Option A) (req : Request) (resp : Response E)
    (hdo : Event.Do req ∈ (run (call r w dbx arg)).2)
    (hresp : dbx.Client.Transport req = .ok resp)
    (hread : resp.Body.err = none)
    (hstatus : resp.StatusCode = 409)
    (hdec : (w.UnmarshalWrapper r.wrapper resp.Body.data).err = none) :
    (run (call r w dbx arg)).1 =
      ⟨none, some (.route r.wrapper (w.UnmarshalWrapper r.wrapper resp.Body.data).target)⟩ := by
  rw [ret_of_response r w dbx arg req resp hdo hresp hread]
  simp [statusRet, hstatus, Route.descriptor, hdec]

/-- C2, witness: `AlphaGroupsCreate`, whose wrapper holds a `*GroupCreateError`,
answered with status 409 and the envelope of section 8 of the spec: the error is
the wrapper of the method, holding the summary `x` and the variant `some_variant`. -/
theorem conflict_is_route_error_witness :
    AlphaGroupsCreateAPIError.EndpointError = .ptr "GroupCreateError" ∧
      Event.Do Example.createRequest ∈
        (run (call .AlphaGroupsCreate Example.world (Example.answering 409 Example.conflict) none)).2 ∧
      (run (call .AlphaGroupsCreate Example.world (Example.answering 409 Example.conflict) none)).1 =
        ⟨none, some (.route AlphaGroupsCreateAPIError
          ⟨{ ErrorSummary := [120] }, (some "some_variant" : Option String)⟩)⟩ :=
  ⟨rfl, by decide,
   conflict_is_route_error .AlphaGroupsCreate Example.world (Example.answering 409 Example.conflict)
     none Example.createRequest ⟨409, ⟨Example.conflict, none⟩⟩ (by decide) rfl rfl rfl rfl⟩

/-- C3: for every result-bearing route method, a response with status 200 whose
body decodes as the result type of the method makes the method return a nil
error and exactly the value the JSON decoder produced from that body. -/
theorem ok_is_decoded_result (r : Route) (w : World E U R A) (dbx : Context E)
    (arg : Option A) (req : Request) (resp : Response E) (type : String)
    (hres : r.resType = some type)
    (hdo : Event.Do req ∈ (run (call r w dbx arg)).2)
    (hresp : dbx.Client.Transport req = .ok resp)
    (hread : resp.Body.err = none)
    (hstatus : resp.StatusCode = 200)
    (hdec : (w.UnmarshalResult type resp.Body.data).err = none) :
    (run (call r w dbx arg)).1 = ⟨(w.UnmarshalResult type resp.Body.data).target, none⟩ := by
  rw [ret_of_response r w dbx arg req resp hdo hresp hread]
  have hw : r.descriptor.resType = some type := hres
  simp [statusRet, hstatus, hw, hdec]

/-- C3, witness: `AlphaGroupsCreate` answered with status 200 and the body `{}`. -/
theorem ok_is_decoded_result_witness :
    Event.Do Example.createRequest ∈
        (run (call .AlphaGroupsCreate Example.world (Example.answering 200 [123, 125]) none)).2 ∧
      (run (call .AlphaGroupsCreate Example.world (Example.answering 200 [123, 125]) none)).1 =
        ⟨some [123, 125], none⟩ :=
  ⟨by decide,
   ok_is_decoded_result .AlphaGroupsCreate Example.world (Example.answering 200 [123, 125])
     none Example.createRequest ⟨200, ⟨[123, 125], none⟩⟩ "*GroupFullInfo" rfl (by decide) rfl rfl
     rfl rfl⟩

/-- C4: for every route method and every status other than 200, 400 and 409, a
body that decodes as the generic envelope makes the method return the decoded
`dropbox.APIError` with a nil result; the error is never a value of a route
wrapper type, so it carries no `EndpointError`. -/
theorem other_status_is_generic_error (r : Route) (w : World E U R A) (dbx : Context E)
    (arg : Option A) (req : Request) (resp : Response E)
    (hdo : Event.Do req ∈ (run (call r w dbx arg)).2)
    (hresp : dbx.Client.Transport req = .ok resp)
    (hread : resp.Body.err = none)
    (h200 : resp.StatusCode ≠ 200) (h400 : resp.StatusCode ≠ 400) (h409 : resp.StatusCode ≠ 409)
    (hdec : (w.UnmarshalAPIError resp.Body.data).err = none) :
    (run (call r w dbx arg)).1 = ⟨none, some (.api (w.UnmarshalAPIError resp.Body.data).target)⟩ ∧
      ∀ (T : WrapperType) (v : WrapperValue U T),
        (run (call r w dbx arg)).1.err ≠ some (.route T v) := by
  have h : (run (call r w dbx arg)).1 =
      ⟨none, some (.api (w.UnmarshalAPIError resp.Body.data).target)⟩ := by
    rw [ret_of_response r w dbx arg req resp hdo hresp hread]
    simp [statusRet, h200, h400, h409, hdec]
  refine ⟨h, ?_⟩
  intro T v hv
  rw [h] at hv
  cases hv

/-- C4, witness: `AlphaGroupsCreate` answered with status 500 and a generic envelope. -/
theorem other_status_is_generic_error_witness :
    Event.Do Example.createRequest ∈
        (run (call .AlphaGroupsCreate Example.world (Example.answering 500 Example.internal) none)).2 ∧
      (run (call .AlphaGroupsCreate Example.world (Example.answering 500 Example.internal) none)).1 =
          ⟨none, some (.api { ErrorSummary := Example.internalText })⟩ ∧
        ∀ (T : WrapperType) (v : WrapperValue String T),
          (run (call .AlphaGroupsCreate Example.world
            (Example.answering 500 Example.internal) none)).1.err ≠ some (.route T v) :=
  ⟨by decide,
   other_status_is_generic_error .AlphaGroupsCreate Example.world
     (Example.answering 500 Example.internal) none Example.createRequest
     ⟨500, ⟨Example.internal, none⟩⟩ (by decide) rfl rfl (by decide) (by decide) (by decide) rfl⟩

/-- C5: in every branch that decodes the body (status 200 on a result-bearing
route, status 409, any status other than 200, 400 and 409), a failure of the
JSON decoder makes the method return that decode error: the returned error is
the decoder's error itself, not an `APIError` value and not nil. -/
theorem decode_error_is_returned (r : Route) (w : World E U R A) (dbx : Context E)
    (arg : Option A) (req : Request) (resp : Response E) (e : E)
    (hdo : Event.Do req ∈ (run (call r w dbx arg)).2)
    (hresp : dbx.Client.Transport req = .ok resp)
    (hread : resp.Body.err = none)
    (hfail :
      (resp.StatusCode = 200 ∧
          ∃ type, r.resType = some type ∧ (w.UnmarshalResult type resp.Body.data).err = some e) ∨
        (resp.StatusCode = 409 ∧ (w.UnmarshalWrapper r.wrapper resp.Body.data).err = some e) ∨
        (resp.StatusCode ≠ 200 ∧ resp.StatusCode ≠ 400 ∧ resp.StatusCode ≠ 409 ∧
          (w.UnmarshalAPIError resp.Body.data).err = some e)) :
    (run (call r w dbx arg)).1.err = some (.lib e) := by
  rw [ret_of_response r w dbx arg req resp hdo hresp hread]
  rcases hfail with ⟨hs, type, hres, hdec⟩ | ⟨hs, hdec⟩ | ⟨h200, h400, h409, hdec⟩
  · have hw : r.descriptor.resType = some type := hres
    simp [statusRet, hs, hw, hdec]
  · simp [statusRet, hs, Route.descriptor, hdec]
  · simp [statusRet, h200, h400, h409, hdec]

/-- C5, witness: `AlphaGroupsCreate` answered with status 500 and an empty body. -/
theorem decode_error_is_returned_witness :
    Event.Do Example.createRequest ∈
        (run (call .AlphaGroupsCreate Example.world (Example.answering 500 []) none)).2 ∧
      (run (call .AlphaGroupsCreate Example.world (Example.answering 500 []) none)).1.err =
        some (.lib "json: syntax error") :=
  ⟨by decide,
   decode_error_is_returned .AlphaGroupsCreate Example.world (Example.answering 500 []) none
     Example.createRequest ⟨500, ⟨[], none⟩⟩ "json: syntax error" (by decide) rfl rfl
     (Or.inr (Or.inr ⟨by decide, by decide, by decide, rfl⟩))⟩

/-- C6, counterexample: `AlphaGroupsCreate` on a 200 response whose body makes
the decoder fail after it has allocated the result returns a non-nil result
together with a non-nil error. -/
theorem result_and_error_counterexample :
    (run (call .AlphaGroupsCreate Example.world
        (Example.answering 200 Example.mistyped) none)).1.res ≠ none ∧
      (run (call .AlphaGroupsCreate Example.world
        (Example.answering 200 Example.mistyped) none)).1.err ≠ none := by
  constructor <;> exact fun h => nomatch h

/-- C6, amended: a route method returns a non-nil result together with a
non-nil error only when the transport answered, the body was read, the status
is 200 and the JSON decoder failed on the body of a result-bearing route: the
result is then the target as the decoder left it and the error is the decode
error.  On every other path an error comes with a nil result. -/
theorem result_and_error_only_on_failed_decode (r : Route) (w : World E U R A)
    (dbx : Context E) (arg : Option A)
    (hres : (run (call r w dbx arg)).1.res ≠ none)
    (herr : (run (call r w dbx arg)).1.err ≠ none) :
    ∃ (req : Request) (resp : Response E) (type : String) (e : E),
      Event.Do req ∈ (run (call r w dbx arg)).2 ∧
      dbx.Client.Transport req = .ok resp ∧
      resp.Body.err = none ∧
      resp.StatusCode = 200 ∧
      r.resType = some type ∧
      (w.UnmarshalResult type resp.Body.data).err = some e ∧
      (run (call r w dbx arg)).1 =
        ⟨(w.UnmarshalResult type resp.Body.data).target, some (.lib e)⟩ := by
  rw [run_call] at hres herr ⊢
  simp only [callRet] at hres herr ⊢
  cases hb : buildRequest r.descriptor w dbx.Config arg with
  | error e0 => simp [hb] at hres
  | ok req =>
    simp only [hb, sendRet] at hres herr ⊢
    cases hd : dbx.Client.Transport req with
    | error e0 => simp [hd] at hres
    | ok resp =>
      simp only [hd, responseRet] at hres herr ⊢
      cases hr : resp.Body.err with
      | some e0 => simp [hr] at hres
      | none =>
        simp only [hr] at hres herr ⊢
        by_cases hs : resp.StatusCode = 200
        · cases ht : r.descriptor.resType with
          | none => simp [statusRet, hs, ht] at hres
          | some type =>
            cases hu : (w.UnmarshalResult type resp.Body.data).err with
            | none => simp [statusRet, hs, ht, hu] at herr
            | some e =>
              refine ⟨req, resp, type, e, (Do_mem_callEvents _ w dbx arg req).2 hb, hd, hr, hs,
                ht, hu, ?_⟩
              simp [statusRet, hs, ht, hu]
        · exfalso
          apply hres
          unfold statusRet
          rw [if_pos hs]
          repeat' split
          all_goals rfl

/-- C6, witness of the amended claim: `GroupsCreate` answered with status 200 and a body on which the decoder fails after allocating the result. -/
theorem result_and_error_only_on_failed_decode_witness :
    ∃ (req : Request) (resp : Response String) (type : String) (e : String),
      Event.Do req ∈
        (run (call .GroupsCreate Example.world (Example.answering 200 Example.mistyped) none)).2 ∧
      (Example.answering 200 Example.mistyped).Client.Transport req = .ok resp ∧
      resp.Body.err = none ∧
      resp.StatusCode = 200 ∧
      Route.GroupsCreate.resType = some type ∧
      (Example.world.UnmarshalResult type resp.Body.data).err = some e ∧
      (run (call .GroupsCreate Example.world (Example.answering 200 Example.mistyped) none)).1 =
        ⟨(Example.world.UnmarshalResult type resp.Body.data).target, some (.lib e)⟩ :=
  result_and_error_only_on_failed_decode .GroupsCreate Example.world
    (Example.answering 200 Example.mistyped) none
    (fun h => nomatch h) (fun h => nomatch h)

/-- C7, counterexample: `AlphaGroupsCreate` on a 200 response whose body is the
JSON literal `null` returns a nil result and a nil error. -/
theorem nil_result_nil_error_counterexample :
    (run (call .AlphaGroupsCreate Example.world
        (Example.answering 200 Example.null) none)).1.res = none ∧
      (run (call .AlphaGroupsCreate Example.world
        (Example.answering 200 Example.null) none)).1.err = none :=
  ⟨rfl, rfl⟩

/-- C7, amended: a result-bearing route method returns a nil result together
with a nil error only when the transport answered, the body was read, the status
is 200 and the JSON decoder accepted the body while leaving the result nil (as
it does for the literal `null`).  In every other outcome the caller receives a
non-nil result or a non-nil error. -/
theorem nil_nil_only_on_nil_decode (r : Route) (w : World E U R A)
    (dbx : Context E) (arg : Option A) (type : String)
    (htype : r.resType = some type)
    (hres : (run (call r w dbx arg)).1.res = none)
    (herr : (run (call r w dbx arg)).1.err = none) :
    ∃ (req : Request) (resp : Response E),
      Event.Do req ∈ (run (call r w dbx arg)).2 ∧
      dbx.Client.Transport req = .ok resp ∧
      resp.Body.err = none ∧
      resp.StatusCode = 200 ∧
      (w.UnmarshalResult type resp.Body.data).target = none ∧
      (w.UnmarshalResult type resp.Body.data).err = none := by
  have ht : r.descriptor.resType = some type := htype
  rw [run_call] at hres herr ⊢
  simp only [callRet] at hres herr
  cases hb : buildRequest r.descriptor w dbx.Config arg with
  | error e0 => simp [hb] at herr
  | ok req =>
    simp only [hb, sendRet] at hres herr
    cases hd : dbx.Client.Transport req with
    | error e0 => simp [hd] at herr
    | ok resp =>
      simp only [hd, responseRet] at hres herr
      cases hr : resp.Body.err with
      | some e0 => simp [hr] at herr
      | none =>
        simp only [hr] at hres herr
        by_cases hs : resp.StatusCode = 200
        · cases hu : (w.UnmarshalResult type resp.Body.data).err with
          | some e => simp [statusRet, hs, ht, hu] at herr
          | none =>
            refine ⟨req, resp, (Do_mem_callEvents _ w dbx arg req).2 hb, hd, hr, hs, ?_, hu⟩
            simpa [statusRet, hs, ht, hu] using hres
        · exfalso
          revert herr
          unfold statusRet
          rw [if_pos hs]
          repeat' split
          all_goals simp

/-- C7, witness of the amended claim: `GroupsCreate` answered with status 200 and the body `null`. -/
theorem nil_nil_only_on_nil_decode_witness :
    ∃ (req : Request) (resp : Response String),
      Event.Do req ∈
        (run (call .GroupsCreate Example.world (Example.answering 200 Example.null) none)).2 ∧
      (Example.answering 200 Example.null).Client.Transport req = .ok resp ∧
      resp.Body.err = none ∧
      resp.StatusCode = 200 ∧
      (Example.world.UnmarshalResult "*GroupFullInfo" resp.Body.data).target = none ∧
      (Example.world.UnmarshalResult "*GroupFullInfo" resp.Body.data).err = none :=
  nil_nil_only_on_nil_decode .GroupsCreate Example.world (Example.answering 200 Example.null)
    none "*GroupFullInfo" rfl rfl rfl

/-- C8: for every route method and every body, a response whose status is not
200 makes the method return a non-nil error and a nil result, whether or not the
body could be read or decoded. -/
theorem non_ok_status_is_error (r : Route) (w : World E U R A) (dbx : Context E)
    (arg : Option A) (req : Request) (resp : Response E)
    (hdo : Event.Do req ∈ (run (call r w dbx arg)).2)
    (hresp : dbx.Client.Transport req = .ok resp)
    (hstatus : resp.StatusCode ≠ 200) :
    (run (call r w dbx arg)).1.res = none ∧ (run (call r w dbx arg)).1.err ≠ none := by
  rw [(run_call_of_Do r w dbx arg req hdo).1]
  simp only [sendRet, hresp, responseRet]
  cases hr : resp.Body.err with
  | some e0 => simp
  | none =>
    simp only [statusRet]
    rw [if_pos hstatus]
    repeat' split
    all_goals simp

/-- C8, witness: `AlphaGroupsCreate` answered with status 500 and the body `null`, which decodes to an all-empty error value. -/
theorem non_ok_status_is_error_witness :
    Event.Do Example.createRequest ∈
        (run (call .AlphaGroupsCreate Example.world (Example.answering 500 Example.null) none)).2 ∧
      (run (call .AlphaGroupsCreate Example.world
        (Example.answering 500 Example.null) none)).1.res = none ∧
      (run (call .AlphaGroupsCreate Example.world
        (Example.answering 500 Example.null) none)).1.err ≠ none :=
  ⟨by decide,
   non_ok_status_is_error .AlphaGroupsCreate Example.world (Example.answering 500 Example.null)
     none Example.createRequest ⟨500, ⟨Example.null, none⟩⟩ (by decide) rfl (by decide)⟩

/-- C9: for every route method, if the transport fails with error `e` on the
request of the call, the method returns exactly `e` with a nil result; the
response body is neither read nor closed and nothing is decoded. -/
theorem transport_error_is_returned (r : Route) (w : World E U R A) (dbx : Context E)
    (arg : Option A) (req : Request) (e : E)
    (hdo : Event.Do req ∈ (run (call r w dbx arg)).2)
    (hfail : dbx.Client.Transport req = .error e) :
    (run (call r w dbx arg)).1 = ⟨none, some (.lib e)⟩ ∧
      Event.ReadAll ∉ (run (call r w dbx arg)).2 ∧
      Event.Close ∉ (run (call r w dbx arg)).2 ∧
      ∀ tg, Event.Unmarshal tg ∉ (run (call r w dbx arg)).2 := by
  have h := run_call_of_Do r w dbx arg req hdo
  have hev : ∀ ev, ev ∈ (run (call r w dbx arg)).2 →
      (∃ f, ev = Event.Printf f) ∨ ev = Event.Do req := by
    intro ev hmem
    rcases h.2 ev hmem with hp | hs
    · exact Or.inl hp
    · simp only [sendEvents, hfail, List.append_nil, List.mem_append, mem_vlog,
        List.mem_singleton] at hs
      rcases hs with (⟨_, hs⟩ | hs) | ⟨_, hs⟩
      · exact Or.inl ⟨_, hs⟩
      · exact Or.inr hs
      · exact Or.inl ⟨_, hs⟩
  refine ⟨?_, ?_, ?_, ?_⟩
  · rw [h.1]
    simp [sendRet, hfail]
  · intro hmem
    rcases hev _ hmem with ⟨f, hf⟩ | hf <;> cases hf
  · intro hmem
    rcases hev _ hmem with ⟨f, hf⟩ | hf <;> cases hf
  · intro tg hmem
    rcases hev _ hmem with ⟨f, hf⟩ | hf <;> cases hf

/-- C9, witness: `AlphaGroupsCreate` over a transport that fails. -/
theorem transport_error_is_returned_witness :
    Event.Do Example.createRequest ∈
        (run (call .AlphaGroupsCreate Example.world (Example.failing "dial tcp: timeout") none)).2 ∧
      (run (call .AlphaGroupsCreate Example.world (Example.failing "dial tcp: timeout") none)).1 =
        ⟨none, some (.lib "dial tcp: timeout")⟩ ∧
      Event.ReadAll ∉
        (run (call .AlphaGroupsCreate Example.world (Example.failing "dial tcp: timeout") none)).2 ∧
      Event.Close ∉
        (run (call .AlphaGroupsCreate Example.world (Example.failing "dial tcp: timeout") none)).2 ∧
      ∀ tg, Event.Unmarshal tg ∉
        (run (call .AlphaGroupsCreate Example.world (Example.failing "dial tcp: timeout") none)).2 :=
  ⟨by decide,
   transport_error_is_returned .AlphaGroupsCreate Example.world
     (Example.failing "dial tcp: timeout") none Example.createRequest "dial tcp: timeout"
     (by decide) rfl⟩

/-- Every method of the interface is listed in `Route.all`. -/
theorem Route.mem_all (r : Route) : r ∈ Route.all := by
  cases r <;> decide

/-- The body and header of the request a method builds, by whether the method
takes an argument. -/
theorem buildRequest_shape (d : Descriptor) (w : World E U R A) (cfg : Config) (arg : Option A)
    (req : Request) (hb : buildRequest d w cfg arg = .ok req) :
    (d.argType ≠ none →
        req.Body ≠ none ∧ req.Header.Get "Content-Type" = some "application/json") ∧
      (d.argType = none → req.Body = none ∧ req.Header = []) := by
  unfold buildRequest at hb
  cases ha : d.argType with
  | none =>
    simp only [ha, http.NewRequest] at hb
    cases hu : w.URLError (w.GenerateURL cfg "api" "team" d.path) with
    | some e0 => simp [hu] at hb
    | none =>
      simp only [hu, Except.ok.injEq] at hb
      subst hb
      simp
  | some type =>
    simp only [ha] at hb
    cases hm : w.Marshal type arg with
    | error e0 => simp [hm] at hb
    | ok b =>
      simp only [hm, http.NewRequest] at hb
      cases hu : w.URLError (w.GenerateURL cfg "api" "team" d.path) with
      | some e0 => simp [hu] at hb
      | none =>
        simp only [hu, Except.ok.injEq] at hb
        subst hb
        simp [Request.HeaderSet, Header.Set, Header.Get]

/-- C10: for every route method, the request handed to the transport carries the
header `Content-Type: application/json` if and only if it carries a body.  The
methods that take an argument (47 of the 49) send a body and set the header; the
two methods without argument, `GetInfo` and `PropertiesTemplateList`, send no
body and set no header. -/
theorem content_type_iff_body (r : Route) (w : World E U R A) (dbx : Context E)
    (arg : Option A) (req : Request)
    (hdo : Event.Do req ∈ (run (call r w dbx arg)).2) :
    (req.Header.Get "Content-Type" = some "application/json" ↔ req.Body ≠ none) ∧
      (r.argType ≠ none →
        req.Body ≠ none ∧ req.Header.Get "Content-Type" = some "application/json") ∧
      (r.argType = none → req.Body = none ∧ req.Header = []) ∧
      (r.argType = none ↔ r = .GetInfo ∨ r = .PropertiesTemplateList) ∧
      r ∈ Route.all ∧ Route.all.length = 49 ∧
      (Route.all.filter (fun r => r.argType.isSome)).length = 47 := by
  rw [run_call] at hdo
  have hb := (Do_mem_callEvents _ w dbx arg req).1 hdo
  have hs := buildRequest_shape r.descriptor w dbx.Config arg req hb
  have ha : r.descriptor.argType = r.argType := rfl
  rw [ha] at hs
  refine ⟨?_, hs.1, hs.2, ?_, Route.mem_all r, by decide, by decide⟩
  · by_cases h : r.argType = none
    · have := hs.2 h
      simp [this.1, this.2, Header.Get]
    · have := hs.1 h
      simp [this.1, this.2]
  · cases r <;> simp [Route.argType]

/-- C10, witness: the request `AlphaGroupsCreate` sends. -/
theorem content_type_iff_body_witness :
    Event.Do Example.createRequest ∈
        (run (call .AlphaGroupsCreate Example.world (Example.answering 200 Example.null) none)).2 ∧
      ((Example.createRequest.Header.Get "Content-Type" = some "application/json" ↔
          Example.createRequest.Body ≠ none) ∧
        (Route.AlphaGroupsCreate.argType ≠ none →
          Example.createRequest.Body ≠ none ∧
            Example.createRequest.Header.Get "Content-Type" = some "application/json") ∧
        (Route.AlphaGroupsCreate.argType = none →
          Example.createRequest.Body = none ∧ Example.createRequest.Header = []) ∧
        (Route.AlphaGroupsCreate.argType = none ↔
          Route.AlphaGroupsCreate = .GetInfo ∨ Route.AlphaGroupsCreate = .PropertiesTemplateList) ∧
        Route.AlphaGroupsCreate ∈ Route.all ∧ Route.all.length = 49 ∧
        (Route.all.filter (fun r => r.argType.isSome)).length = 47) :=
  ⟨by decide,
   content_type_iff_body .AlphaGroupsCreate Example.world (Example.answering 200 Example.null)
     none Example.createRequest (by decide)⟩

/-! ## Further facts about the closed form -/

/-- The outcome of a call started on any trace: the named results do not depend
on the trace, and the events of the call are appended to it. -/
theorem run_call_from (r : Route) (w : World E U R A) (dbx : Context E) (arg : Option A)
    (t : Trace) :
    StateT.run (call r w dbx arg) t =
      (callRet r.descriptor w dbx arg, t ++ callEvents r.descriptor w dbx arg) := by
  have key : ∀ d : Descriptor, d.resType = none →
      StateT.run ((fun err => (⟨none, err⟩ : Ret E U R)) <$>
          dispatch (fun _ err => err) d w dbx arg) t
        = (callRet d w dbx arg, t ++ callEvents d w dbx arg) := by
    intro d h
    have h1 := callRet_res d w dbx arg h
    simp only [StateT.run_map, run_dispatch]
    show ((⟨none, (callRet d w dbx arg).err⟩ : Ret E U R), _) = _
    rw [← h1]
  cases r <;> simp only [call, AlphaGroupsCreate_eq, AlphaGroupsGetInfo_eq, AlphaGroupsList_eq,
    AlphaGroupsListContinue_eq, AlphaGroupsUpdate_eq, DevicesListMemberDevices_eq,
    DevicesListMembersDevices_eq, DevicesListTeamDevices_eq, DevicesRevokeDeviceSession_eq,
    DevicesRevokeDeviceSessionBatch_eq, GroupsCreate_eq, GroupsDelete_eq,
    GroupsGetInfo_eq, GroupsJobStatusGet_eq, GroupsList_eq,
    GroupsListContinue_eq, GroupsMembersAdd_eq, GroupsMembersList_eq,
    GroupsMembersListContinue_eq, GroupsMembersRemove_eq, GroupsMembersSetAccessType_eq,
    GroupsUpdate_eq, LinkedAppsListMemberLinkedApps_eq, LinkedAppsListMembersLinkedApps_eq,
    LinkedAppsListTeamLinkedApps_eq, LinkedAppsRevokeLinkedApp_eq, LinkedAppsRevokeLinkedAppBatch_eq,
    MembersAdd_eq, MembersAddJobStatusGet_eq, MembersGetInfo_eq,
    MembersList_eq, MembersListContinue_eq, MembersRecover_eq,
    MembersRemove_eq, MembersRemoveJobStatusGet_eq, MembersSendWelcomeEmail_eq,
    MembersSetAdminPermissions_eq, MembersSetProfile_eq, MembersSuspend_eq,
    MembersUnsuspend_eq, PropertiesTemplateAdd_eq, PropertiesTemplateGet_eq,
    PropertiesTemplateUpdate_eq, ReportsGetActivity_eq, ReportsGetDevices_eq,
    ReportsGetMembership_eq, ReportsGetStorage_eq]
  all_goals first
    | exact key _ rfl
    | exact run_dispatch _ _ _ _ _ _
    | (rw [GetInfo_eq w dbx arg]; exact run_dispatch _ _ _ _ _ _)
    | (rw [PropertiesTemplateList_eq w dbx arg]; exact run_dispatch _ _ _ _ _ _)

/-- The path in the body of a method is the route its wrapper is documented for. -/
theorem Route.path_eq (r : Route) : r.descriptor.path = r.path := by
  cases r <;> rfl

/-- The request a method builds, spelled out. -/
theorem buildRequest_ok (d : Descriptor) (w : World E U R A) (cfg : Config) (arg : Option A)
    (req : Request) (hb : buildRequest d w cfg arg = .ok req) :
    w.URLError (w.GenerateURL cfg "api" "team" d.path) = none ∧
      req.Method = "POST" ∧ req.URL = w.GenerateURL cfg "api" "team" d.path ∧
      (∀ type, d.argType = some type → ∃ b, w.Marshal type arg = .ok b ∧ req.Body = some b) := by
  unfold buildRequest at hb
  cases ha : d.argType with
  | none =>
    simp only [ha, http.NewRequest] at hb
    cases hu : w.URLError (w.GenerateURL cfg "api" "team" d.path) with
    | some e0 => simp [hu] at hb
    | none =>
      simp only [hu, Except.ok.injEq] at hb
      subst hb
      simp
  | some type =>
    simp only [ha] at hb
    cases hm : w.Marshal type arg with
    | error e0 => simp [hm] at hb
    | ok b =>
      simp only [hm, http.NewRequest] at hb
      cases hu : w.URLError (w.GenerateURL cfg "api" "team" d.path) with
      | some e0 => simp [hu] at hb
      | none =>
        simp only [hu, Except.ok.injEq] at hb
        subst hb
        simp [Request.HeaderSet, hm]

/-- The transport is invoked once when the request is built and not at all
otherwise. -/
theorem countDo_callEvents (d : Descriptor) (w : World E U R A) (dbx : Context E)
    (arg : Option A) :
    countDo (callEvents d w dbx arg) =
      match buildRequest d w dbx.Config arg with
      | .error _ => 0
      | .ok _ => 1 := by
  have hv : ∀ b f, List.countP Event.isDo (vlog b f) = 0 := by
    intro b f
    cases b <;> rfl
  have hs : ∀ s, List.countP Event.isDo (statusEvents d s) = 0 := by
    intro s
    unfold statusEvents
    repeat' split
    all_goals rfl
  have hr : ∀ (v : Bool) (resp : Response E),
      List.countP Event.isDo (responseEvents d v resp) = 0 := by
    intro v resp
    unfold responseEvents
    cases resp.Body.err <;> simp [List.countP_append, hv, hs, Event.isDo, List.countP_cons]
  unfold countDo callEvents
  cases hb : buildRequest d w dbx.Config arg with
  | error e0 => cases d.argType <;> simp [hv]
  | ok req =>
    have hsend : List.countP Event.isDo (sendEvents d dbx req) = 1 := by
      unfold sendEvents
      cases dbx.Client.Transport req <;>
        simp [List.countP_append, hv, hr, Event.isDo, List.countP_cons]
    cases d.argType <;> simp [List.countP_append, hv, hsend]

/-! ## The claims on the request and on the transport -/

/-- C11, counterexample: for a nil argument pointer `AlphaGroupsCreate` sends the
encoder's output for nil, the literal `null`, which is not a JSON object. -/
theorem nil_argument_body_counterexample :
    Event.Do Example.createRequest ∈
        (run (call .AlphaGroupsCreate Example.world (Example.answering 200 Example.null) none)).2 ∧
      Example.createRequest.Body = some Example.null ∧
      beginsObject Example.null = false := by
  decide

/-- C11, amended: for every argument-taking route method and every argument
value (a nil pointer included), the body of the request that is sent is exactly
the bytes produced by JSON-encoding the argument at the argument type of the
method, whatever these bytes are. -/
theorem body_is_encoded_argument (r : Route) (w : World E U R A) (dbx : Context E)
    (arg : Option A) (req : Request) (type : String)
    (harg : r.argType = some type)
    (hdo : Event.Do req ∈ (run (call r w dbx arg)).2) :
    ∃ b, w.Marshal type arg = .ok b ∧ req.Body = some b := by
  rw [run_call] at hdo
  have hb := (Do_mem_callEvents _ w dbx arg req).1 hdo
  exact (buildRequest_ok _ w dbx.Config arg req hb).2.2.2 type harg

/-- C11, witness of the amended claim: `AlphaGroupsCreate` called with a nil
argument. -/
theorem body_is_encoded_argument_witness :
    Route.AlphaGroupsCreate.argType = some "*GroupCreateArg" ∧
      Event.Do Example.createRequest ∈
        (run (call .AlphaGroupsCreate Example.world (Example.answering 200 Example.null) none)).2 ∧
      ∃ b, Example.world.Marshal "*GroupCreateArg" none = .ok b ∧
        Example.createRequest.Body = some b :=
  ⟨rfl, by decide,
   body_is_encoded_argument .AlphaGroupsCreate Example.world (Example.answering 200 Example.null)
     none Example.createRequest "*GroupCreateArg" rfl (by decide)⟩

/-- C12: for every route method and every argument, the transport is invoked at
most once per call, whatever it answers, and exactly once whenever the argument
(if the method takes one) is encoded and the URL of the route is accepted: no
path retries, and nothing but an encoding or request-construction failure keeps
a request from being sent. -/
theorem transport_invoked_once (r : Route) (w : World E U R A) (dbx : Context E)
    (arg : Option A) :
    countDo (run (call r w dbx arg)).2 ≤ 1 ∧
      ((∀ type, r.argType = some type → ∃ b, w.Marshal type arg = .ok b) →
        w.URLError (w.GenerateURL dbx.Config "api" "team" r.path) = none →
        countDo (run (call r w dbx arg)).2 = 1) := by
  rw [run_call]
  simp only [countDo_callEvents]
  constructor
  · split <;> simp
  · intro hm hu
    rw [← Route.path_eq] at hu
    have ha : r.descriptor.argType = r.argType := rfl
    cases hb : buildRequest r.descriptor w dbx.Config arg with
    | ok req => rfl
    | error e0 =>
      exfalso
      unfold buildRequest at hb
      cases hat : r.argType with
      | none =>
        rw [ha, hat] at hb
        simp [http.NewRequest, hu] at hb
      | some type =>
        obtain ⟨b, hmb⟩ := hm type hat
        rw [ha, hat] at hb
        simp [http.NewRequest, hu, hmb] at hb

/-- C12, witness: `MembersRecover` called with a selector that names no member
still reaches the transport, once. -/
theorem transport_invoked_once_witness :
    countDo (run (call .MembersRecover Example.world (Example.answering 409 Example.internal)
        (some [123, 125]))).2 ≤ 1 ∧
      countDo (run (call .MembersRecover Example.world (Example.answering 409 Example.internal)
        (some [123, 125]))).2 = 1 :=
  ⟨(transport_invoked_once .MembersRecover Example.world
      (Example.answering 409 Example.internal) (some [123, 125])).1,
   (transport_invoked_once .MembersRecover Example.world
      (Example.answering 409 Example.internal) (some [123, 125])).2
      (fun _ _ => ⟨_, rfl⟩) rfl⟩

/-- C13: for every route method, if JSON encoding of the argument fails, or the
argument is encoded (or there is none) and the request cannot be constructed
from the generated URL, the method returns that error with a nil result and the
transport is never invoked. -/
theorem encoding_error_is_returned (r : Route) (w : World E U R A) (dbx : Context E)
    (arg : Option A) (e : E)
    (hfail :
      (∃ type, r.argType = some type ∧ w.Marshal type arg = .error e) ∨
        ((∀ type, r.argType = some type → ∃ b, w.Marshal type arg = .ok b) ∧
          w.URLError (w.GenerateURL dbx.Config "api" "team" r.path) = some e)) :
    (run (call r w dbx arg)).1 = ⟨none, some (.lib e)⟩ ∧
      countDo (run (call r w dbx arg)).2 = 0 ∧
      ∀ req, Event.Do req ∉ (run (call r w dbx arg)).2 := by
  have ha : r.descriptor.argType = r.argType := rfl
  have hb : buildRequest r.descriptor w dbx.Config arg = .error e := by
    unfold buildRequest
    rcases hfail with ⟨type, hat, hm⟩ | ⟨hm, hu⟩
    · rw [ha, hat]
      simp [hm]
    · rw [← Route.path_eq] at hu
      cases hat : r.argType with
      | none =>
        rw [ha, hat]
        simp [http.NewRequest, hu]
      | some type =>
        obtain ⟨b, hmb⟩ := hm type hat
        rw [ha, hat]
        simp [http.NewRequest, hu, hmb]
  rw [run_call]
  refine ⟨by simp [callRet, hb], by simp [countDo_callEvents, hb], ?_⟩
  intro req hmem
  rw [Do_mem_callEvents, hb] at hmem
  cases hmem

/-- C13, witness: `AlphaGroupsCreate` in a world whose encoder rejects the
argument. -/
theorem encoding_error_is_returned_witness :
    (run (call .AlphaGroupsCreate Example.unencodable (Example.answering 200 Example.null)
        none)).1 = ⟨none, some (.lib "json: unsupported value")⟩ ∧
      countDo (run (call .AlphaGroupsCreate Example.unencodable
        (Example.answering 200 Example.null) none)).2 = 0 ∧
      ∀ req, Event.Do req ∉ (run (call .AlphaGroupsCreate Example.unencodable
        (Example.answering 200 Example.null) none)).2 :=
  encoding_error_is_returned .AlphaGroupsCreate Example.unencodable
    (Example.answering 200 Example.null) none "json: unsupported value"
    (Or.inl ⟨"*GroupCreateArg", rfl, rfl⟩)

/-- C14: every route method hands the transport a request with HTTP method POST
whose URL is the one `GenerateURL` produces for domain `api`, namespace `team`
and the route path of the method. -/
theorem request_is_post_to_route (r : Route) (w : World E U R A) (dbx : Context E)
    (arg : Option A) (req : Request)
    (hdo : Event.Do req ∈ (run (call r w dbx arg)).2) :
    req.Method = "POST" ∧ req.URL = w.GenerateURL dbx.Config "api" "team" r.path := by
  rw [run_call] at hdo
  have hb := (Do_mem_callEvents _ w dbx arg req).1 hdo
  have h := buildRequest_ok _ w dbx.Config arg req hb
  rw [Route.path_eq] at h
  exact ⟨h.2.1, h.2.2.1⟩

/-- C14, witness: the request of `ReportsGetStorage`. -/
theorem request_is_post_to_route_witness :
    Event.Do Example.storageRequest ∈
        (run (call .ReportsGetStorage Example.world (Example.answering 200 Example.null) none)).2 ∧
      Example.storageRequest.Method = "POST" ∧
      Example.storageRequest.URL =
        Example.world.GenerateURL ⟨false⟩ "api" "team" "reports/get_storage" :=
  ⟨by decide,
   request_is_post_to_route .ReportsGetStorage Example.world (Example.answering 200 Example.null)
     none Example.storageRequest (by decide)⟩

/-- C15: the named results of a call are determined by the route, the argument
and what the transport answers: two calls of the same method with the same
argument, made on any two contexts and after any two histories of earlier
calls, return the same result and error when the transport gives the two
requests the same answer (the same response or the same error). -/
theorem result_depends_on_response_only (r : Route) (w : World E U R A)
    (dbx₁ dbx₂ : Context E) (arg : Option A) (req₁ req₂ : Request) (t₁ t₂ : Trace)
    (hdo₁ : Event.Do req₁ ∈ (run (call r w dbx₁ arg)).2)
    (hdo₂ : Event.Do req₂ ∈ (run (call r w dbx₂ arg)).2)
    (hsame : dbx₁.Client.Transport req₁ = dbx₂.Client.Transport req₂) :
    (StateT.run (call r w dbx₁ arg) t₁).1 = (StateT.run (call r w dbx₂ arg) t₂).1 := by
  rw [run_call] at hdo₁ hdo₂
  have hb₁ := (Do_mem_callEvents _ w dbx₁ arg req₁).1 hdo₁
  have hb₂ := (Do_mem_callEvents _ w dbx₂ arg req₂).1 hdo₂
  rw [run_call_from, run_call_from]
  simp only [callRet, hb₁, hb₂, sendRet, hsame]

/-- C15, witness: polling the same job twice, the second time with logging
switched on and after the first call, with the same answer from the server. -/
theorem result_depends_on_response_only_witness :
    Event.Do Example.pollRequest ∈
        (run (call .GroupsJobStatusGet Example.world (Example.answering 200 [123, 125])
          (some Example.null))).2 ∧
      Event.Do Example.pollRequest ∈
        (run (call .GroupsJobStatusGet Example.world (Example.verbose 200 [123, 125])
          (some Example.null))).2 ∧
      (StateT.run (call .GroupsJobStatusGet Example.world (Example.answering 200 [123, 125])
          (some Example.null)) []).1 =
        (StateT.run (call .GroupsJobStatusGet Example.world (Example.verbose 200 [123, 125])
          (some Example.null))
          (run (call .GroupsJobStatusGet Example.world (Example.answering 200 [123, 125])
            (some Example.null))).2).1 :=
  ⟨by decide, by decide,
   result_depends_on_response_only .GroupsJobStatusGet Example.world
     (Example.answering 200 [123, 125]) (Example.verbose 200 [123, 125]) (some Example.null)
     Example.pollRequest Example.pollRequest [] _ (by decide) (by decide) rfl⟩

/-! ## The claims on the uniformity of the methods -/

/-- A method that returns only an error, seen as returning a nil result, runs as
the generic dispatch function does. -/
theorem dispatch_map (d : Descriptor) (w : World E U R A) (dbx : Context E) (arg : Option A)
    (h : d.resType = none) :
    (fun err => (⟨none, err⟩ : Ret E U R)) <$> dispatch (fun _ err => err) d w dbx arg =
      dispatch Ret.mk d w dbx arg := by
  apply StateT.ext
  intro t
  have h1 := callRet_res d w dbx arg h
  simp only [StateT.run_map, run_dispatch]
  show ((⟨none, (callRet d w dbx arg).err⟩ : Ret E U R), _) = _
  rw [← h1]

/-- C17: each of the 49 route methods is the one generic dispatch function at the
descriptor of its route: the route path, the argument type when a body is sent,
the result type when a result is decoded, and the wrapper type decoded on
status 409.  The status switch of the dispatch function (409 into the wrapper,
400 as raw text, any other status but 200 into the generic envelope) is
therefore the status switch of every method. -/
theorem every_method_is_dispatch (r : Route) (w : World E U R A) (dbx : Context E)
    (arg : Option A) :
    call r w dbx arg = dispatch Ret.mk r.descriptor w dbx arg ∧
      r.descriptor = ⟨r.path, r.argType, r.resType, r.wrapper⟩ := by
  constructor
  · cases r
    all_goals first
      | rfl
      | (simp only [call, DevicesRevokeDeviceSession_eq, LinkedAppsRevokeLinkedApp_eq,
           MembersRecover_eq, MembersSendWelcomeEmail_eq, MembersSuspend_eq, MembersUnsuspend_eq]
         exact dispatch_map _ w dbx arg rfl)
  · cases r <;> rfl

/-- The route paths of the methods are pairwise distinct. -/
theorem Route.path_nodup : (Route.all.map Route.path).Nodup := by
  decide

/-- Two methods with the same route path are the same method. -/
theorem Route.path_injective (r r' : Route) (h : r'.path = r.path) : r' = r :=
  List.inj_on_of_nodup_map Route.path_nodup (Route.mem_all r') (Route.mem_all r) h

/-- The names of the wrapper types of the methods are pairwise distinct. -/
theorem Route.wrapper_nodup : (Route.all.map (fun r => r.wrapper.name)).Nodup := by
  decide

/-- The wrapper type of a method is named after the method. -/
theorem Route.wrapper_name (r : Route) : r.wrapper.name = r.name ++ "APIError" := by
  cases r <;> decide

/-- C18: for each route method `M`, the wrapper type named `MAPIError`, which the
file documents as the error wrapper for the route `R`, is the type `M` decodes
into on status 409, and `R` is the path `M` posts to; a different method has a
different wrapper type and a different path. -/
theorem wrapper_and_path_belong_to_method (r : Route) (w : World E U R A) (dbx : Context E)
    (arg : Option A) (req : Request)
    (hdo : Event.Do req ∈ (run (call r w dbx arg)).2) :
    r.wrapper.name = r.name ++ "APIError" ∧
      r.wrapper.route = r.path ∧
      req.URL = w.GenerateURL dbx.Config "api" "team" r.wrapper.route ∧
      (∀ resp, dbx.Client.Transport req = .ok resp → resp.Body.err = none →
        resp.StatusCode = 409 →
        ∀ tg, Event.Unmarshal tg ∈ (run (call r w dbx arg)).2 ↔ tg = .wrapper r.wrapper) ∧
      (∀ r' : Route, r'.wrapper = r.wrapper → r' = r) ∧
      (∀ r' : Route, r'.path = r.path → r' = r) := by
  refine ⟨Route.wrapper_name r, Route.path_eq r, ?_, ?_, ?_, Route.path_injective r⟩
  · have hdo' := hdo
    rw [run_call] at hdo'
    have hb := (Do_mem_callEvents _ w dbx arg req).1 hdo'
    exact (buildRequest_ok _ w dbx.Config arg req hb).2.2.1
  · intro resp hresp hread hstatus tg
    rw [Unmarshal_mem_of_response r w dbx arg req resp hdo hresp]
    simp only [hread, true_and, statusEvents, hstatus]
    simp only [Route.descriptor]
    constructor
    · intro h
      simpa using h
    · intro h
      simp [h]
  · intro r' h
    exact List.inj_on_of_nodup_map Route.wrapper_nodup (Route.mem_all r') (Route.mem_all r)
      (congrArg WrapperType.name h)

/-- C18, witness: `GroupsJobStatusGet` answered with status 409. -/
theorem wrapper_and_path_belong_to_method_witness :
    Event.Do Example.pollRequest ∈
        (run (call .GroupsJobStatusGet Example.world (Example.answering 409 Example.internal)
          (some Example.null))).2 ∧
      GroupsJobStatusGetAPIError.name = "GroupsJobStatusGet" ++ "APIError" ∧
      GroupsJobStatusGetAPIError.route = "groups/job_status/get" ∧
      Example.pollRequest.URL =
        Example.world.GenerateURL ⟨false⟩ "api" "team" GroupsJobStatusGetAPIError.route ∧
      (∀ resp, (Example.answering 409 Example.internal).Client.Transport Example.pollRequest
          = .ok resp → resp.Body.err = none → resp.StatusCode = 409 →
        ∀ tg, Event.Unmarshal tg ∈
          (run (call .GroupsJobStatusGet Example.world (Example.answering 409 Example.internal)
            (some Example.null))).2 ↔ tg = .wrapper GroupsJobStatusGetAPIError) ∧
      (∀ r' : Route, r'.wrapper = GroupsJobStatusGetAPIError → r' = .GroupsJobStatusGet) ∧
      (∀ r' : Route, r'.path = "groups/job_status/get" → r' = .GroupsJobStatusGet) :=
  ⟨by decide,
   wrapper_and_path_belong_to_method .GroupsJobStatusGet Example.world
     (Example.answering 409 Example.internal) (some Example.null) Example.pollRequest
     (by decide)⟩

/-- C19: for each of the four listing routes, the matching continuation method
posts to the path of the listing route followed by `/continue`, has the result
type of the listing method, and sends as its body exactly the JSON encoding of
the continuation argument the caller passed. -/
theorem continuation_forwards_argument (l c : Route) (w : World E U R A) (dbx : Context E)
    (arg : Option A) (req : Request)
    (hpair : (l, c) ∈ Route.continuations)
    (hdo : Event.Do req ∈ (run (call c w dbx arg)).2) :
    Route.continuations.map (fun p => p.1.path) =
        ["alpha/groups/list", "groups/list", "groups/members/list", "members/list"] ∧
      c.path = l.path ++ "/continue" ∧
      req.URL = w.GenerateURL dbx.Config "api" "team" (l.path ++ "/continue") ∧
      c.resType = l.resType ∧ c.resType ≠ none ∧
      ∃ type b, c.argType = some type ∧ w.Marshal type arg = .ok b ∧ req.Body = some b := by
  rw [run_call] at hdo
  have hb := (Do_mem_callEvents _ w dbx arg req).1 hdo
  have h := buildRequest_ok _ w dbx.Config arg req hb
  rw [Route.path_eq] at h
  have hp : c.path = l.path ++ "/continue" ∧ c.resType = l.resType ∧ c.resType ≠ none ∧
      c.argType ≠ none := by
    simp only [Route.continuations, List.mem_cons, Prod.mk.injEq, List.mem_singleton,
      List.not_mem_nil, or_false] at hpair
    rcases hpair with ⟨rfl, rfl⟩ | ⟨rfl, rfl⟩ | ⟨rfl, rfl⟩ | ⟨rfl, rfl⟩ <;> decide
  refine ⟨by decide, hp.1, ?_, hp.2.1, hp.2.2.1, ?_⟩
  · rw [← hp.1]
    exact h.2.2.1
  · cases ha : c.argType with
    | none => exact absurd ha hp.2.2.2
    | some type =>
      obtain ⟨b, hm, hbody⟩ := h.2.2.2 type ha
      exact ⟨type, b, rfl, hm, hbody⟩

/-- C19, witness: `MembersListContinue` called with a continuation argument. -/
theorem continuation_forwards_argument_witness :
    (Route.MembersList, Route.MembersListContinue) ∈ Route.continuations ∧
      Event.Do Example.continueRequest ∈
        (run (call .MembersListContinue Example.world (Example.answering 200 [123, 125])
          (some Example.cursorArg))).2 ∧
      Example.continueRequest.URL =
        Example.world.GenerateURL ⟨false⟩ "api" "team" ("members/list" ++ "/continue") ∧
      Route.MembersListContinue.resType = Route.MembersList.resType ∧
      ∃ type b, Route.MembersListContinue.argType = some type ∧
        Example.world.Marshal type (some Example.cursorArg) = .ok b ∧
        Example.continueRequest.Body = some b :=
  have h := continuation_forwards_argument .MembersList .MembersListContinue Example.world
    (Example.answering 200 [123, 125]) (some Example.cursorArg) Example.continueRequest
    (by decide) (by decide)
  ⟨by decide, by decide, h.2.2.1, h.2.2.2.1, h.2.2.2.2.2⟩

/-! ## Pagination -/

/-- A call that returns a nil error has invoked the transport exactly once. -/
theorem countDo_of_no_error (r : Route) (w : World E U R A) (dbx : Context E) (arg : Option A)
    (h : (run (call r w dbx arg)).1.err = none) :
    countDo (run (call r w dbx arg)).2 = 1 := by
  rw [run_call] at h ⊢
  rw [countDo_callEvents]
  cases hb : buildRequest r.descriptor w dbx.Config arg with
  | ok req => rfl
  | error e0 => simp [callRet, hb] at h

/-- What a call that returns a page has returned. -/
theorem returnsPage_iff {Item : Type} (ret : Ret E U R) (view : R → Page Item) (p : Page Item) :
    returnsPage ret view p ↔ ret.err = none ∧ ∃ res, ret.res = some res ∧ view res = p := by
  unfold returnsPage
  cases ret.err <;> cases ret.res <;> simp

/-- The transport invocations of two traces add up. -/
theorem countDo_append (t₁ t₂ : Trace) : countDo (t₁ ++ t₂) = countDo t₁ + countDo t₂ := by
  simp [countDo, List.countP_append]

/-- The continuation loop gathers the items of the page it starts from and of
the pages served after it, in order, with one call for each further page. -/
theorem continueListing_served {Item : Type} (w : World E U R A) (dbx : Context E) (c : Route)
    (view : R → Page Item) (mkArg : GoString → A) (rest : List (Page Item)) :
    ∀ (p : Page Item) (fuel : Nat),
      Served (fun cursor => (run (call c w dbx (some (mkArg cursor)))).1) view p rest →
      rest.length ≤ fuel →
      (continueListing w dbx c view mkArg fuel p).1 =
          .complete ((p :: rest).flatMap (fun q => q.items)) ∧
        countDo (continueListing w dbx c view mkArg fuel p).2 = rest.length := by
  induction rest with
  | nil =>
    intro p fuel hs _
    have hm : p.has_more = false := hs
    unfold continueListing
    simp [hm, countDo]
  | cons q rest ih =>
    intro p fuel hs hfuel
    obtain ⟨hm, hq, hrest⟩ := hs
    obtain ⟨herr, res, hres, hview⟩ := (returnsPage_iff _ view q).1 hq
    cases fuel with
    | zero => simp at hfuel
    | succ fuel =>
      have hfuel' : rest.length ≤ fuel := by
        simpa using hfuel
      have h := ih q fuel hrest hfuel'
      have hcount := countDo_of_no_error c w dbx (some (mkArg p.cursor)) herr
      unfold continueListing
      simp only [hm, Bool.true_eq_false, if_false, herr, hres, hview]
      constructor
      · rw [h.1]
        simp [Listing.prepend]
      · rw [countDo_append, hcount, h.2]
        simp [Nat.add_comm]

/-- C20: calling a listing method and then its continuation method with each
returned cursor, in order, until a page with `has_more = false` is returned,
yields the items of all pages in order, each page once, and makes one call for
each page.  Here `first :: rest` are the pages the server serves: the listing
call returns `first`, and the continuation call with the cursor of a page
returns the next one. -/
theorem pagination_round_trip {Item : Type} (w : World E U R A) (dbx : Context E) (l c : Route)
    (view : R → Page Item) (mkArg : GoString → A) (arg : Option A) (fuel : Nat)
    (first : Page Item) (rest : List (Page Item))
    (hfirst : returnsPage (run (call l w dbx arg)).1 view first)
    (hserved : Served (fun cursor => (run (call c w dbx (some (mkArg cursor)))).1) view first rest)
    (hfuel : rest.length ≤ fuel) :
    (listAll w dbx l c view mkArg fuel arg).1 =
        .complete ((first :: rest).flatMap (fun q => q.items)) ∧
      countDo (listAll w dbx l c view mkArg fuel arg).2 = (first :: rest).length := by
  obtain ⟨herr, res, hres, hview⟩ := (returnsPage_iff _ view first).1 hfirst
  have h := continueListing_served w dbx c view mkArg rest first fuel hserved hfuel
  have hcount := countDo_of_no_error l w dbx arg herr
  unfold listAll
  simp only [herr, hres, hview]
  refine ⟨h.1, ?_⟩
  rw [countDo_append, hcount, h.2]
  simp [Nat.add_comm]

/-- C20, witness: against the fixture server holding ten items served as pages
of 4, 4 and 2, listing the members makes exactly three calls and returns the ten
items in server order. -/
theorem pagination_round_trip_witness :
    (listAll Fixture.world Fixture.server .MembersList .MembersListContinue id
        Fixture.continueArg 2 (some [123, 125])).1 =
        .complete [1, 2, 3, 4, 5, 6, 7, 8, 9, 10] ∧
      countDo (listAll Fixture.world Fixture.server .MembersList .MembersListContinue id
        Fixture.continueArg 2 (some [123, 125])).2 = 3 :=
  pagination_round_trip Fixture.world Fixture.server .MembersList .MembersListContinue id
    Fixture.continueArg (some [123, 125]) 2 Fixture.page1 [Fixture.page2, Fixture.page3]
    ⟨rfl, rfl⟩ ⟨rfl, ⟨rfl, rfl⟩, rfl, ⟨rfl, rfl⟩, rfl⟩ (by decide)

/-! ## The claims on particular routes and on the side effects of a call -/

/-- The trace of a call whose request was answered by the transport. -/
theorem trace_of_response (r : Route) (w : World E U R A) (dbx : Context E) (arg : Option A)
    (req : Request) (resp : Response E)
    (hdo : Event.Do req ∈ (run (call r w dbx arg)).2)
    (hresp : dbx.Client.Transport req = .ok resp) :
    ∃ logs : Trace, (∀ e ∈ logs, ∃ f, e = Event.Printf f) ∧
      (run (call r w dbx arg)).2 =
        logs ++ [Event.Do req] ++ vlog dbx.Config.Verbose "resp: %v" ++
          responseEvents r.descriptor dbx.Config.Verbose resp := by
  rw [run_call] at hdo ⊢
  have hb := (Do_mem_callEvents _ w dbx arg req).1 hdo
  refine ⟨(match r.descriptor.argType with
      | some _ => vlog dbx.Config.Verbose "arg: %v"
      | none => []) ++ vlog dbx.Config.Verbose "req: %v", ?_, ?_⟩
  · intro e he
    revert he
    cases r.descriptor.argType <;> simp only [List.nil_append, List.mem_append, mem_vlog]
    · rintro ⟨_, h⟩
      exact ⟨_, h⟩
    · rintro (⟨_, h⟩ | ⟨_, h⟩) <;> exact ⟨_, h⟩
  · simp [callEvents, hb, sendEvents, hresp]

/-- C23: the three poll methods take an `async.PollArg`, post to
`groups/job_status/get`, `members/add/job_status/get` and
`members/remove/job_status/get` (for the two members routes the path of the
launch method followed by `/job_status/get`), and on status 409 with a body that
decodes return their wrapper value, whose `EndpointError` is a `GroupsPollError`
for the groups route and an `async.PollError` for the two members routes. -/
theorem poll_methods_fail_typed (r : Route) (w : World E U R A) (dbx : Context E)
    (arg : Option A) (req : Request) (resp : Response E)
    (hr : r ∈ Route.polls)
    (hdo : Event.Do req ∈ (run (call r w dbx arg)).2)
    (hresp : dbx.Client.Transport req = .ok resp)
    (hread : resp.Body.err = none)
    (hstatus : resp.StatusCode = 409)
    (hdec : (w.UnmarshalWrapper r.wrapper resp.Body.data).err = none) :
    r.argType = some "*async.PollArg" ∧
      Route.polls.map Route.path =
        ["groups/job_status/get", "members/add/job_status/get",
         "members/remove/job_status/get"] ∧
      Route.MembersAddJobStatusGet.path = Route.MembersAdd.path ++ "/job_status/get" ∧
      Route.MembersRemoveJobStatusGet.path = Route.MembersRemove.path ++ "/job_status/get" ∧
      req.URL = w.GenerateURL dbx.Config "api" "team" r.path ∧
      r.wrapper.EndpointError =
        .ptr (if r = .GroupsJobStatusGet then "GroupsPollError" else "async.PollError") ∧
      (run (call r w dbx arg)).1 =
        ⟨none, some (.route r.wrapper (w.UnmarshalWrapper r.wrapper resp.Body.data).target)⟩ := by
  have hstatic : r.argType = some "*async.PollArg" ∧
      r.wrapper.EndpointError =
        .ptr (if r = .GroupsJobStatusGet then "GroupsPollError" else "async.PollError") := by
    simp only [Route.polls, List.mem_cons, List.mem_singleton, List.not_mem_nil, or_false] at hr
    rcases hr with rfl | rfl | rfl <;> decide
  refine ⟨hstatic.1, by decide, by decide, by decide, ?_, hstatic.2, ?_⟩
  · have hdo' := hdo
    rw [run_call] at hdo'
    have hb := (Do_mem_callEvents _ w dbx arg req).1 hdo'
    have h := buildRequest_ok _ w dbx.Config arg req hb
    rw [Route.path_eq] at h
    exact h.2.2.1
  · rw [ret_of_response r w dbx arg req resp hdo hresp hread]
    simp [statusRet, hstatus, Route.descriptor, hdec]

/-- C23, witness: `MembersAddJobStatusGet` answered with status 409 and the
envelope of an unknown job: the error is the wrapper of the method, holding the
summary and the `async.PollError` with the tag of the body. -/
theorem poll_methods_fail_typed_witness :
    Route.MembersAddJobStatusGet.argType = some "*async.PollArg" ∧
      Example.addPollRequest.URL =
        Example.world.GenerateURL ⟨false⟩ "api" "team" "members/add/job_status/get" ∧
      MembersAddJobStatusGetAPIError.EndpointError = .ptr "async.PollError" ∧
      (run (call .MembersAddJobStatusGet Example.world (Example.answering 409 Example.unknownJob)
          (some Example.null))).1 =
        ⟨none, some (.route MembersAddJobStatusGetAPIError
          ⟨{ ErrorSummary := Example.unknownJobText },
           (some "invalid_async_job_id" : Option String)⟩)⟩ :=
  have h := poll_methods_fail_typed .MembersAddJobStatusGet Example.world
    (Example.answering 409 Example.unknownJob) (some Example.null) Example.addPollRequest
    ⟨409, ⟨Example.unknownJob, none⟩⟩ (by decide) (by decide) rfl rfl rfl rfl
  ⟨h.1, h.2.2.2.2.1, h.2.2.2.2.2.1, h.2.2.2.2.2.2⟩

/-- Decoding an envelope of section 6 into a wrapper without structured error:
when the `error` member is absent or the empty object the decoder reports no
error and stores the summary and the user message. -/
theorem Codec.UnmarshalWrapper_envelope (c : Codec E U) (T : WrapperType) (body : Bytes)
    (summary : GoString) (message : Option (Option (GoString × GoString))) (error : Option JSON)
    (hT : T.EndpointError = .emptyStruct)
    (hbody : JSON.parse body = some (envelope summary message error))
    (herror : error = none ∨ error = some (.obj [])) :
    c.UnmarshalWrapper T body =
      ⟨⟨{ ErrorSummary := summary, UserMessage := message.join }, Codec.zero T.EndpointError⟩,
       none⟩ := by
  obtain ⟨name, route, f⟩ := T
  simp only at hT
  subst hT
  have h1 : Field.ofWrapper Key.errorSummary = some .ErrorSummary := by decide
  have h2 : Field.ofWrapper Key.userMessage = some .UserMessage := by decide
  have h3 : Field.ofWrapper Key.error = some .EndpointError := by decide
  have h4 : equalFold Key.text Key.text = true := by decide
  have h5 : equalFold Key.text Key.locale = false := by decide
  have h6 : equalFold Key.locale Key.locale = true := by decide
  rcases herror with rfl | rfl <;> rcases message with _ | _ | ⟨t, l⟩ <;>
    simp [Codec.UnmarshalWrapper, hbody, envelope, Envelope.message, Envelope.error,
      Codec.wrapperMembers, h1, h2, h3, h4, h5, h6, Codec.apiErrorMember, Codec.text,
      Codec.message, Codec.messageMembers, Codec.endpoint, Codec.stops, Codec.zero, firstError]

/-- The decoder of the example world on an envelope without `error` member: the
`EndpointError` pointer of a wrapper with a structured error stays nil. -/
theorem Example.absent_error_is_nil :
    (Example.world.UnmarshalWrapper AlphaGroupsCreateAPIError Example.internal).err = none ∧
      (Example.world.UnmarshalWrapper AlphaGroupsCreateAPIError Example.internal).target =
        ⟨{ ErrorSummary := Example.internalText }, (none : Option String)⟩ :=
  ⟨rfl, rfl⟩

/-- The decoder of the example world on an envelope whose `error` member is a
string: it fits neither the empty struct nor an error union, and the decoding
reports an error. -/
theorem Example.string_error_is_rejected :
    (Example.world.UnmarshalWrapper GetInfoAPIError Example.stringError).err =
        some "json: cannot unmarshal" ∧
      (Example.world.UnmarshalWrapper AlphaGroupsCreateAPIError Example.stringError).err =
        some "json: cannot unmarshal" :=
  ⟨rfl, rfl⟩

/-- C24: exactly four routes define no structured error: the wrappers of
`alpha/groups/list`, `get_info`, `groups/list` and `members/add` have the empty
struct as `EndpointError`.  For each of them a 409 response whose body is an
envelope with the `error` member absent or an empty object decodes without error
and is returned as the wrapper value of the route, carrying the error summary and
the user message of the body; its `EndpointError` has only one possible value, so
it carries no variant. -/
theorem empty_endpoint_error_routes (r : Route) (w : World E U R A) (c : Codec E U)
    (dbx : Context E) (arg : Option A) (req : Request) (resp : Response E)
    (summary : GoString) (message : Option (Option (GoString × GoString))) (error : Option JSON)
    (hr : r.wrapper.EndpointError = .emptyStruct)
    (hdo : Event.Do req ∈ (run (call r (w.withCodec c) dbx arg)).2)
    (hresp : dbx.Client.Transport req = .ok resp)
    (hread : resp.Body.err = none)
    (hstatus : resp.StatusCode = 409)
    (hbody : JSON.parse resp.Body.data = some (envelope summary message error))
    (herror : error = none ∨ error = some (.obj [])) :
    Route.all.filter (fun r => r.wrapper.EndpointError = .emptyStruct) =
        [.AlphaGroupsList, .GetInfo, .GroupsList, .MembersAdd] ∧
      [Route.AlphaGroupsList, .GetInfo, .GroupsList, .MembersAdd].map Route.path =
        ["alpha/groups/list", "get_info", "groups/list", "members/add"] ∧
      ((w.withCodec c).UnmarshalWrapper r.wrapper resp.Body.data).err = none ∧
      (run (call r (w.withCodec c) dbx arg)).1 =
        ⟨none, some (.route r.wrapper
          ⟨{ ErrorSummary := summary, UserMessage := message.join },
           Codec.zero r.wrapper.EndpointError⟩)⟩ ∧
      ∀ v v' : r.wrapper.EndpointError.Value U, v = v' := by
  have hdec : (w.withCodec c).UnmarshalWrapper r.wrapper resp.Body.data =
      ⟨⟨{ ErrorSummary := summary, UserMessage := message.join },
        Codec.zero r.wrapper.EndpointError⟩, none⟩ :=
    Codec.UnmarshalWrapper_envelope c r.wrapper resp.Body.data summary message error hr hbody
      herror
  refine ⟨by decide, by decide, ?_, ?_, ?_⟩
  · rw [hdec]
  · rw [ret_of_response r (w.withCodec c) dbx arg req resp hdo hresp hread]
    simp [statusRet, hstatus, Route.descriptor, hdec]
  · have h : ∀ f : EndpointErrorField, f = .emptyStruct → ∀ v v' : f.Value U, v = v' := by
      intro f hf
      subst hf
      intro v v'
      rfl
    exact h _ hr

/-- C24, witness: `GetInfo` answered with status 409, once with an envelope
without `error` member and once with an envelope whose `error` member is the
empty object. -/
theorem empty_endpoint_error_routes_witness :
    GetInfoAPIError.EndpointError = .emptyStruct ∧
      JSON.parse Example.internal = some (envelope Example.internalText none none) ∧
      Event.Do Example.infoRequest ∈
        (run (call .GetInfo Example.world (Example.answering 409 Example.internal) none)).2 ∧
      (Example.world.UnmarshalWrapper GetInfoAPIError Example.internal).err = none ∧
      (run (call .GetInfo Example.world (Example.answering 409 Example.internal) none)).1 =
        ⟨none, some (.route GetInfoAPIError ⟨{ ErrorSummary := Example.internalText }, ()⟩)⟩ ∧
      JSON.parse Example.emptyError =
        some (envelope [120] (some (some ([110, 111], [101, 110]))) (some (.obj []))) ∧
      Event.Do Example.infoRequest ∈
        (run (call .GetInfo Example.world (Example.answering 409 Example.emptyError) none)).2 ∧
      (Example.world.UnmarshalWrapper GetInfoAPIError Example.emptyError).err = none ∧
      (run (call .GetInfo Example.world (Example.answering 409 Example.emptyError) none)).1 =
        ⟨none, some (.route GetInfoAPIError
          ⟨{ ErrorSummary := [120], UserMessage := some ([110, 111], [101, 110]) }, ()⟩)⟩ :=
  have h1 := empty_endpoint_error_routes .GetInfo Example.world Example.codec
    (Example.answering 409 Example.internal) none Example.infoRequest
    ⟨409, ⟨Example.internal, none⟩⟩ Example.internalText none none rfl (by decide) rfl rfl rfl
    rfl (Or.inl rfl)
  have h2 := empty_endpoint_error_routes .GetInfo Example.world Example.codec
    (Example.answering 409 Example.emptyError) none Example.infoRequest
    ⟨409, ⟨Example.emptyError, none⟩⟩ [120] (some (some ([110, 111], [101, 110])))
    (some (.obj [])) rfl (by decide) rfl rfl rfl rfl (Or.inr rfl)
  ⟨rfl, rfl, by decide, h1.2.2.1, h1.2.2.2.1, rfl, by decide, h2.2.2.1, h2.2.2.2.1⟩

/-- C25: for the six route methods that return only an error, a response with
status 200 whose body was read makes the method return a nil error, whatever the
bytes of the body are: the body is read and closed but never decoded. -/
theorem error_only_methods_ignore_body (r : Route) (w : World E U R A) (dbx : Context E)
    (arg : Option A) (req : Request) (resp : Response E)
    (hr : r.resType = none)
    (hdo : Event.Do req ∈ (run (call r w dbx arg)).2)
    (hresp : dbx.Client.Transport req = .ok resp)
    (hread : resp.Body.err = none)
    (hstatus : resp.StatusCode = 200) :
    Route.all.filter (fun r => r.resType = none) =
        [.DevicesRevokeDeviceSession, .LinkedAppsRevokeLinkedApp, .MembersRecover,
         .MembersSendWelcomeEmail, .MembersSuspend, .MembersUnsuspend] ∧
      (run (call r w dbx arg)).1 = ⟨none, none⟩ ∧
      Event.ReadAll ∈ (run (call r w dbx arg)).2 ∧
      ∀ tg, Event.Unmarshal tg ∉ (run (call r w dbx arg)).2 := by
  have hd : r.descriptor.resType = none := hr
  refine ⟨by decide, ?_, ?_, ?_⟩
  · rw [ret_of_response r w dbx arg req resp hdo hresp hread]
    simp [statusRet, hstatus, hd]
  · obtain ⟨logs, _, ht⟩ := trace_of_response r w dbx arg req resp hdo hresp
    rw [ht]
    simp [responseEvents]
  · intro tg
    rw [Unmarshal_mem_of_response r w dbx arg req resp hdo hresp]
    simp [statusEvents, hstatus, hd]

/-- C25, witness: `MembersRecover` answered with status 200 and a body that is
not JSON. -/
theorem error_only_methods_ignore_body_witness :
    Route.MembersRecover.resType = none ∧
      (run (call .MembersRecover Example.world (Example.answering 200 Example.notJSON)
        (some Example.null))).1 = ⟨none, none⟩ ∧
      Event.ReadAll ∈ (run (call .MembersRecover Example.world
        (Example.answering 200 Example.notJSON) (some Example.null))).2 ∧
      ∀ tg, Event.Unmarshal tg ∉ (run (call .MembersRecover Example.world
        (Example.answering 200 Example.notJSON) (some Example.null))).2 :=
  ⟨rfl,
   (error_only_methods_ignore_body .MembersRecover Example.world
     (Example.answering 200 Example.notJSON) (some Example.null) Example.recoverRequest
     ⟨200, ⟨Example.notJSON, none⟩⟩ rfl (by decide) rfl rfl rfl).2⟩

/-- The trace of a call whose request the transport failed on. -/
theorem trace_of_failure (r : Route) (w : World E U R A) (dbx : Context E) (arg : Option A)
    (req : Request) (e : E)
    (hdo : Event.Do req ∈ (run (call r w dbx arg)).2)
    (hfail : dbx.Client.Transport req = .error e) :
    ∃ logs : Trace, (∀ e ∈ logs, ∃ f, e = Event.Printf f) ∧
      (run (call r w dbx arg)).2 =
        logs ++ [Event.Do req] ++ vlog dbx.Config.Verbose "resp: %v" := by
  rw [run_call] at hdo ⊢
  have hb := (Do_mem_callEvents _ w dbx arg req).1 hdo
  refine ⟨(match r.descriptor.argType with
      | some _ => vlog dbx.Config.Verbose "arg: %v"
      | none => []) ++ vlog dbx.Config.Verbose "req: %v", ?_, ?_⟩
  · intro e he
    revert he
    cases r.descriptor.argType <;> simp only [List.nil_append, List.mem_append, mem_vlog]
    · rintro ⟨_, h⟩
      exact ⟨_, h⟩
    · rintro (⟨_, h⟩ | ⟨_, h⟩) <;> exact ⟨_, h⟩
  · simp [callEvents, hb, sendEvents, hfail]

/-- Log lines are not closings of a body. -/
theorem countClose_logs (logs : Trace) (h : ∀ e ∈ logs, ∃ f, e = Event.Printf f) :
    countClose logs = 0 := by
  unfold countClose
  rw [List.count_eq_zero]
  intro hmem
  obtain ⟨f, hf⟩ := h _ hmem
  cases hf

/-- The closings of two traces add up. -/
theorem countClose_append (t₁ t₂ : Trace) :
    countClose (t₁ ++ t₂) = countClose t₁ + countClose t₂ := by
  simp [countClose, List.count_append]

/-- A log line closes nothing. -/
theorem countClose_vlog (b : Bool) (f : String) : countClose (vlog b f) = 0 :=
  countClose_logs _ (fun e he => ⟨f, ((mem_vlog e b f).1 he).2⟩)

/-- The status switch closes nothing. -/
theorem countClose_statusEvents (d : Descriptor) (status : Int) :
    countClose (statusEvents d status) = 0 := by
  unfold statusEvents countClose
  repeat' split
  all_goals rfl

/-- Reading a response contributes exactly one closing, at the end. -/
theorem countClose_responseEvents (d : Descriptor) (v : Bool) (resp : Response E) :
    countClose (responseEvents d v resp) = 1 ∧
      (responseEvents d v resp).getLast? = some Event.Close := by
  unfold responseEvents
  constructor
  · rw [countClose_append, countClose_append]
    cases resp.Body.err
    · simp only [countClose_append, countClose_vlog, countClose_statusEvents]
      rfl
    · rfl
  · rw [List.getLast?_append]
    rfl

/-- With the same URLs, the request a method builds does not depend on the
verbose flag. -/
theorem buildRequest_verbose (d : Descriptor) (w : World E U R A) (arg : Option A)
    (hurl : ∀ domain ns route,
      w.GenerateURL ⟨true⟩ domain ns route = w.GenerateURL ⟨false⟩ domain ns route) :
    buildRequest d w ⟨true⟩ arg = buildRequest d w ⟨false⟩ arg := by
  unfold buildRequest
  simp only [hurl]

/-- Removing the log lines leaves nothing of a log line. -/
theorem filter_vlog (b : Bool) (f : String) :
    (vlog b f).filter (fun e => !e.isPrintf) = [] := by
  cases b <;> rfl

/-- The status switch writes no log line. -/
theorem filter_statusEvents (d : Descriptor) (status : Int) :
    (statusEvents d status).filter (fun e => !e.isPrintf) = statusEvents d status := by
  unfold statusEvents
  repeat' split
  all_goals rfl

/-- Without its log lines, the trace of reading a response with logging is the
trace of reading it silently. -/
theorem filter_responseEvents (d : Descriptor) (resp : Response E) :
    (responseEvents d true resp).filter (fun e => !e.isPrintf) = responseEvents d false resp := by
  unfold responseEvents
  cases resp.Body.err with
  | some e0 => rfl
  | none =>
    simp only [List.filter_append, filter_vlog, filter_statusEvents]
    rfl

/-- Without its log lines, the trace of a verbose exchange is the trace of the
silent one. -/
theorem filter_sendEvents (d : Descriptor) (client : Client E) (req : Request) :
    (sendEvents d ⟨⟨true⟩, client⟩ req).filter (fun e => !e.isPrintf) =
      sendEvents d ⟨⟨false⟩, client⟩ req := by
  unfold sendEvents
  cases client.Transport req with
  | error e0 => rfl
  | ok resp =>
    simp only [List.filter_append, filter_vlog, filter_responseEvents]
    rfl

/-- C26: the verbose flag does not influence what a call does or returns: with
`Verbose` set and unset (the generated URLs being the same), every route method
returns the same result and error, and its trace without the log lines is the
trace of the silent call, so the same requests reach the transport, the same
number of times. -/
theorem verbose_does_not_influence (r : Route) (w : World E U R A) (client : Client E)
    (arg : Option A)
    (hurl : ∀ domain ns route,
      w.GenerateURL ⟨true⟩ domain ns route = w.GenerateURL ⟨false⟩ domain ns route) :
    (run (call r w ⟨⟨true⟩, client⟩ arg)).1 = (run (call r w ⟨⟨false⟩, client⟩ arg)).1 ∧
      (run (call r w ⟨⟨true⟩, client⟩ arg)).2.filter (fun e => !e.isPrintf) =
        (run (call r w ⟨⟨false⟩, client⟩ arg)).2 ∧
      (∀ req, Event.Do req ∈ (run (call r w ⟨⟨true⟩, client⟩ arg)).2 ↔
        Event.Do req ∈ (run (call r w ⟨⟨false⟩, client⟩ arg)).2) ∧
      countDo (run (call r w ⟨⟨true⟩, client⟩ arg)).2 =
        countDo (run (call r w ⟨⟨false⟩, client⟩ arg)).2 := by
  have hb := buildRequest_verbose r.descriptor w arg hurl
  rw [run_call, run_call]
  refine ⟨?_, ?_, ?_, ?_⟩
  · simp only [callRet, hb, sendRet]
  · simp only [callEvents, hb]
    cases buildRequest r.descriptor w ⟨false⟩ arg with
    | error e0 => cases r.descriptor.argType <;> rfl
    | ok req =>
      cases r.descriptor.argType with
      | none =>
        simp only [List.nil_append]
        exact filter_sendEvents _ client req
      | some type =>
        simp only [List.filter_append, filter_vlog, filter_sendEvents]
        rfl
  · intro req
    simp only [Do_mem_callEvents, hb]
  · simp only [countDo_callEvents, hb]

/-- C26, witness: `GetInfo` with and without logging. -/
theorem verbose_does_not_influence_witness :
    (run (call .GetInfo Example.world (Example.verbose 200 [123, 125]) none)).1 =
        (run (call .GetInfo Example.world (Example.answering 200 [123, 125]) none)).1 ∧
      (run (call .GetInfo Example.world (Example.verbose 200 [123, 125]) none)).2.filter
          (fun e => !e.isPrintf) =
        (run (call .GetInfo Example.world (Example.answering 200 [123, 125]) none)).2 ∧
      (∀ req, Event.Do req ∈
          (run (call .GetInfo Example.world (Example.verbose 200 [123, 125]) none)).2 ↔
        Event.Do req ∈
          (run (call .GetInfo Example.world (Example.answering 200 [123, 125]) none)).2) ∧
      countDo (run (call .GetInfo Example.world (Example.verbose 200 [123, 125]) none)).2 =
        countDo (run (call .GetInfo Example.world (Example.answering 200 [123, 125]) none)).2 :=
  verbose_does_not_influence .GetInfo Example.world
    ⟨fun _ => .ok ⟨200, ⟨[123, 125], none⟩⟩⟩ none (fun _ _ _ => rfl)

/-- C27: for every route method, when the transport returns a response, the
response body is read and then closed exactly once, the closing being the last
thing the call does, on every path; when the transport returns an error, nothing
is read and nothing is closed. -/
theorem body_closed_exactly_once (r : Route) (w : World E U R A) (dbx : Context E)
    (arg : Option A) (req : Request)
    (hdo : Event.Do req ∈ (run (call r w dbx arg)).2) :
    (∀ resp, dbx.Client.Transport req = .ok resp →
        countClose (run (call r w dbx arg)).2 = 1 ∧
          (run (call r w dbx arg)).2.getLast? = some Event.Close ∧
          Event.ReadAll ∈ (run (call r w dbx arg)).2) ∧
      (∀ e, dbx.Client.Transport req = .error e →
        countClose (run (call r w dbx arg)).2 = 0 ∧
          Event.ReadAll ∉ (run (call r w dbx arg)).2) := by
  constructor
  · intro resp hresp
    obtain ⟨logs, hlogs, ht⟩ := trace_of_response r w dbx arg req resp hdo hresp
    have hc := countClose_responseEvents r.descriptor dbx.Config.Verbose resp
    rw [ht]
    refine ⟨?_, ?_, ?_⟩
    · rw [countClose_append, countClose_append, countClose_append, countClose_logs logs hlogs,
        countClose_vlog, hc.1]
      rfl
    · rw [List.getLast?_append, hc.2]
      rfl
    · simp [responseEvents]
  · intro e hfail
    obtain ⟨logs, hlogs, ht⟩ := trace_of_failure r w dbx arg req e hdo hfail
    rw [ht]
    constructor
    · rw [countClose_append, countClose_append, countClose_logs logs hlogs, countClose_vlog]
      rfl
    · intro hmem
      simp only [List.mem_append, List.mem_singleton, mem_vlog] at hmem
      rcases hmem with (hmem | hmem) | hmem
      · obtain ⟨f, hf⟩ := hlogs _ hmem
        cases hf
      · cases hmem
      · cases hmem.2

/-- C27, witness: `AlphaGroupsCreate` answered with status 500 and an empty
body, on which decoding fails. -/
theorem body_closed_exactly_once_witness :
    Event.Do Example.createRequest ∈
        (run (call .AlphaGroupsCreate Example.world (Example.answering 500 []) none)).2 ∧
      countClose (run (call .AlphaGroupsCreate Example.world
        (Example.answering 500 []) none)).2 = 1 ∧
      (run (call .AlphaGroupsCreate Example.world
        (Example.answering 500 []) none)).2.getLast? = some Event.Close ∧
      Event.ReadAll ∈ (run (call .AlphaGroupsCreate Example.world
        (Example.answering 500 []) none)).2 :=
  ⟨by decide,
   (body_closed_exactly_once .AlphaGroupsCreate Example.world (Example.answering 500 []) none
     Example.createRequest (by decide)).1 ⟨500, ⟨[], none⟩⟩ rfl⟩

/-- C28: for every route method, if reading the response body fails, the method
returns that read error with a nil result, whatever the status code and whatever
bytes were read before the failure; nothing is decoded. -/
theorem read_error_is_returned (r : Route) (w : World E U R A) (dbx : Context E)
    (arg : Option A) (req : Request) (resp : Response E) (e : E)
    (hdo : Event.Do req ∈ (run (call r w dbx arg)).2)
    (hresp : dbx.Client.Transport req = .ok resp)
    (hread : resp.Body.err = some e) :
    (run (call r w dbx arg)).1 = ⟨none, some (.lib e)⟩ ∧
      ∀ tg, Event.Unmarshal tg ∉ (run (call r w dbx arg)).2 := by
  constructor
  · rw [(run_call_of_Do r w dbx arg req hdo).1]
    simp [sendRet, hresp, responseRet, hread]
  · intro tg
    rw [Unmarshal_mem_of_response r w dbx arg req resp hdo hresp]
    simp [hread]

/-- C28, witness: `AlphaGroupsCreate` answered with status 200 and a body whose
reading breaks off after some bytes. -/
theorem read_error_is_returned_witness :
    Event.Do Example.createRequest ∈
        (run (call .AlphaGroupsCreate Example.world Example.truncated none)).2 ∧
      (run (call .AlphaGroupsCreate Example.world Example.truncated none)).1 =
        ⟨none, some (.lib "unexpected EOF")⟩ ∧
      ∀ tg, Event.Unmarshal tg ∉
        (run (call .AlphaGroupsCreate Example.world Example.truncated none)).2 :=
  ⟨by decide,
   read_error_is_returned .AlphaGroupsCreate Example.world Example.truncated none
     Example.createRequest ⟨200, ⟨[123], some "unexpected EOF"⟩⟩ "unexpected EOF"
     (by decide) rfl rfl⟩

/-- C29: the route paths of the 49 route methods are pairwise distinct: two
different methods pass different paths to `GenerateURL`, so no two methods post
to the same route. -/
theorem route_paths_distinct (r r' : Route) (w : World E U R A) (dbx dbx' : Context E)
    (arg arg' : Option A) (req req' : Request)
    (hne : r ≠ r')
    (hdo : Event.Do req ∈ (run (call r w dbx arg)).2)
    (hdo' : Event.Do req' ∈ (run (call r' w dbx' arg')).2) :
    Route.all.length = 49 ∧ (Route.all.map Route.path).Nodup ∧
      r.path ≠ r'.path ∧
      req.URL = w.GenerateURL dbx.Config "api" "team" r.path ∧
      req'.URL = w.GenerateURL dbx'.Config "api" "team" r'.path := by
  rw [run_call] at hdo hdo'
  have hb := (Do_mem_callEvents _ w dbx arg req).1 hdo
  have hb' := (Do_mem_callEvents _ w dbx' arg' req').1 hdo'
  have h := buildRequest_ok _ w dbx.Config arg req hb
  have h' := buildRequest_ok _ w dbx'.Config arg' req' hb'
  rw [Route.path_eq] at h h'
  refine ⟨by decide, Route.path_nodup, ?_, h.2.2.1, h'.2.2.1⟩
  intro hp
  exact hne (Route.path_injective r' r hp)

/-- C29, witness: `AlphaGroupsCreate` and `GroupsCreate`. -/
theorem route_paths_distinct_witness :
    Route.AlphaGroupsCreate.path ≠ Route.GroupsCreate.path ∧
      Example.createRequest.URL =
        Example.world.GenerateURL ⟨false⟩ "api" "team" "alpha/groups/create" ∧
      Example.groupsCreateRequest.URL =
        Example.world.GenerateURL ⟨false⟩ "api" "team" "groups/create" :=
  (route_paths_distinct .AlphaGroupsCreate .GroupsCreate Example.world
    (Example.answering 200 Example.null) (Example.answering 200 Example.null) none none
    Example.createRequest Example.groupsCreateRequest (by decide) (by decide) (by decide)).2.2

/-! ## The interface -/

/-- C22: the value `New` returns, of type `*apiImpl`, implements the `Client`
interface: the methods declared on `*apiImpl` are, one for one, the 49 methods
the interface declares, with the same names, argument types and result types;
there is no further method on `*apiImpl`.  These are also the types the
transcribed methods encode and decode. -/
theorem apiImpl_implements_Client :
    Client.methods.length = 49 ∧
      (Client.methods.map Signature.name).Nodup ∧
      apiImpl.methods.map Prod.snd = Client.methods ∧
      (∀ m ∈ apiImpl.methods, m.1 = New.resultType) ∧
      Route.all.map Route.signature = Client.methods := by
  decide

/-! ## Asynchronous jobs -/

/-- What a call that returns a result read as `x` has returned. -/
theorem returnsAs_iff {X : Type} (ret : Ret E U R) (view : R → X) (x : X) :
    returnsAs ret view x ↔ ret.err = none ∧ ∃ res, ret.res = some res ∧ view res = x := by
  unfold returnsAs
  cases ret.err <;> cases ret.res <;> simp

/-- A call against a server that returns a nil error has invoked the transport
exactly once. -/
theorem countDo_server_call {S : Type} (srv : Server S E) (w : World E U R A) (cfg : Config)
    (r : Route) (arg : Option A) (s : S) (h : (srv.call w cfg r arg s).1.err = none) :
    countDo (srv.call w cfg r arg s).2.1 = 1 :=
  countDo_of_no_error r w (srv.context cfg s) arg h

/-- The poll loop, on a job that is in progress `k` times and then complete,
returns the value after `k + 1` polls. -/
theorem pollJob_polled {S V : Type} (srv : Server S E) (w : World E U R A) (cfg : Config)
    (p : Route) (view : R → PollResult V) (mkArg : GoString → A) (id : GoString) (value : V)
    (k : Nat) :
    ∀ (s : S) (fuel : Nat),
      Polled srv w cfg p view mkArg id s (List.replicate k .inProgress ++ [.complete value]) →
      k + 1 ≤ fuel →
      (pollJob srv w cfg p view mkArg id fuel s).1 = .complete value ∧
        countDo (pollJob srv w cfg p view mkArg id fuel s).2.1 = k + 1 := by
  induction k with
  | zero =>
    intro s fuel hp hfuel
    obtain ⟨hx, _⟩ := hp
    obtain ⟨herr, res, hres, hview⟩ := (returnsAs_iff _ view _).1 hx
    cases fuel with
    | zero => simp at hfuel
    | succ fuel =>
      have hcount := countDo_server_call srv w cfg p (some (mkArg id)) s herr
      unfold pollJob
      simp only [herr, hres, hview]
      exact ⟨trivial, hcount⟩
  | succ k ih =>
    intro s fuel hp hfuel
    obtain ⟨hx, hrest⟩ := hp
    obtain ⟨herr, res, hres, hview⟩ := (returnsAs_iff _ view _).1 hx
    cases fuel with
    | zero => simp at hfuel
    | succ fuel =>
      have hfuel' : k + 1 ≤ fuel := by
        omega
      have h := ih _ fuel hrest hfuel'
      have hcount := countDo_server_call srv w cfg p (some (mkArg id)) s herr
      unfold pollJob
      simp only [herr, hres, hview]
      refine ⟨h.1, ?_⟩
      rw [countDo_append, hcount, h.2]
      omega

/-- C21: a launch call that returns an async job id, followed by polls of that
id that return in progress (twice, or any number `k` of times) and then complete
with a value, yields that value; the transport is invoked once for the launch
and once for each of these polls, so no poll is made after the complete result
has been observed, however many polls were still allowed. -/
theorem async_round_trip {S V : Type} (srv : Server S E) (w : World E U R A) (cfg : Config)
    (l p : Route) (viewLaunch : R → LaunchResult V) (viewPoll : R → PollResult V)
    (mkArg : GoString → A) (fuel : Nat) (arg : Option A) (s : S) (id : GoString) (value : V)
    (k : Nat)
    (hlaunch : returnsAs (srv.call w cfg l arg s).1 viewLaunch (.asyncJobId id))
    (hpolls : Polled srv w cfg p viewPoll mkArg id (srv.call w cfg l arg s).2.2
      (List.replicate k .inProgress ++ [.complete value]))
    (hfuel : k + 1 ≤ fuel) :
    (launchAndPoll srv w cfg l p viewLaunch viewPoll mkArg fuel arg s).1 = .complete value ∧
      countDo (launchAndPoll srv w cfg l p viewLaunch viewPoll mkArg fuel arg s).2.1 =
        1 + (k + 1) := by
  obtain ⟨herr, res, hres, hview⟩ := (returnsAs_iff _ viewLaunch _).1 hlaunch
  have h := pollJob_polled srv w cfg p viewPoll mkArg id value k _ fuel hpolls hfuel
  have hcount := countDo_server_call srv w cfg l arg s herr
  unfold launchAndPoll
  simp only [herr, hres, hview]
  refine ⟨h.1, ?_⟩
  rw [countDo_append, hcount, h.2]

/-- C21, witness: against the job server, `MembersAdd` launches `j1`, the polls
return in progress, in progress and complete with 7; the caller gets 7 after four
transport calls, with ten polls allowed. -/
theorem async_round_trip_witness :
    (launchAndPoll Fixture.jobServer Fixture.jobWorld ⟨false⟩ .MembersAdd
        .MembersAddJobStatusGet Fixture.Tagged.launch Fixture.Tagged.poll Fixture.pollArg 10
        (some [123, 125]) 0).1 = .complete 7 ∧
      countDo (launchAndPoll Fixture.jobServer Fixture.jobWorld ⟨false⟩ .MembersAdd
        .MembersAddJobStatusGet Fixture.Tagged.launch Fixture.Tagged.poll Fixture.pollArg 10
        (some [123, 125]) 0).2.1 = 1 + (2 + 1) :=
  async_round_trip Fixture.jobServer Fixture.jobWorld ⟨false⟩ .MembersAdd
    .MembersAddJobStatusGet Fixture.Tagged.launch Fixture.Tagged.poll Fixture.pollArg 10
    (some [123, 125]) 0 Fixture.j1 7 2
    ⟨rfl, rfl⟩ ⟨⟨rfl, rfl⟩, ⟨rfl, rfl⟩, ⟨rfl, rfl⟩, trivial⟩ (by decide)

end Team
